import Mathlib

/-
Verification of the minimax core of `minimaxgato.py` (a pygame tic-tac-toe
program).  The embedded functions are `available_moves`, `check_winner`,
`minimax` and `best_move`.  The Python code mutates a single shared board
in place and prints a search trace; the embedding threads the board and the
trace explicitly: every search function returns a triple
`(score, final board, trace)`, so that both the restoration of the board
(the Python writes a speculative move and erases it again) and the
independence of the returned score from the trace flag become provable
statements.  Python integers together with `math.inf` and `-math.inf` are
embedded as the three-cased type `Score`.  Python raises no exception anywhere
in the embedded fragment except for out-of-range list subscripts
(`IndexError`) and the `move_choice + 1` in `best_move`'s final print when
no move exists (`TypeError`); cell access is embedded with `List.getD`
(exact for the 9-cell boards all theorems are about) and `best_move`
returns `none` exactly when the Python variable `move_choice` stays `None`.
The recursion of `minimax` is bounded by a fuel parameter; the wrappers
start it at `board.length + 1`, which is strictly more than the number of
empty cells, so the fuel never runs out on the boards considered.
-/

set_option maxHeartbeats 4000000
set_option maxRecDepth 1000000

namespace MinimaxGato

/-- Python numbers used by the search: ints together with `math.inf`
(`posInf`) and `-math.inf` (`negInf`). -/
inductive Score : Type
  | negInf : Score
  | int (z : Int) : Score
  | posInf : Score
deriving DecidableEq, Repr

/-- Python's `<` on the numbers the search manipulates: `-math.inf` is
below every int and `math.inf` is above every int. -/
def slt : Score → Score → Bool
  | Score.negInf, Score.negInf => false
  | Score.negInf, _ => true
  | Score.int _, Score.negInf => false
  | Score.int a, Score.int b => decide (a < b)
  | Score.int _, Score.posInf => true
  | Score.posInf, _ => false

/-- Python's `<=` on scores (for a total order, `a <= b` is `not (b < a)`). -/
def sle (a b : Score) : Bool := !(slt b a)

/-- Embedding of a Python int into `Score`. -/
def intScore (z : Int) : Score := Score.int z

/-- A board is the Python list of 9 one-character strings:
`" "` (empty), or a player symbol such as `"X"` / `"O"`. -/
abbrev Board := List String

/-- The table `WIN_COMBINATIONS` of `minimaxgato.py` (rows, columns,
diagonals, in source order). -/
def WIN_COMBINATIONS : List (Nat × Nat × Nat) :=
  [(0, 1, 2), (3, 4, 5), (6, 7, 8),
   (0, 3, 6), (1, 4, 7), (2, 5, 8),
   (0, 4, 8), (2, 4, 6)]

/-- Cell access `board[i]`.  Python raises `IndexError` out of range; the
default `""` is never a legal cell value and is never reached on the
length-9 boards the theorems quantify over. -/
def cellAt (b : Board) (i : Nat) : String := b.getD i ""

/-- The condition of the `for` loop body of `check_winner`:
`board[a] == board[b] == board[c] and board[a] != ' '`. -/
def winningTriple (b : Board) (t : Nat × Nat × Nat) : Bool :=
  cellAt b t.1 == cellAt b t.2.1 && cellAt b t.2.1 == cellAt b t.2.2 &&
    cellAt b t.1 != " "

/-- `available_moves(board)`: indices of the `' '` cells, produced by
`enumerate` in ascending index order. -/
def available_moves (b : Board) : List Nat :=
  (b.enum.filter (fun p => p.2 == " ")).map (fun p => p.1)

/-- `check_winner(board)`: the symbol of the first winning triple, else
`'Tie'` when no `' '` remains, else `None` (the game goes on). -/
def check_winner (b : Board) : Option String :=
  match WIN_COMBINATIONS.find? (winningTriple b) with
  | some t => some (cellAt b t.1)
  | none => if " " ∈ b then none else some "Tie"

/-- One event of the console trace of the search (the data interpolated
into the `print` calls of `minimax` / `best_move`). -/
inductive TraceEv : Type
  | boardState (depth : Nat) (b : Board)
  | nodeInfo (isMax : Bool) (depth : Nat) (nMoves : Nat)
  | tryingMove (depth : Nat) (move : Nat)
  | receivedScore (depth : Nat) (s : Score)
  | terminalNode (depth : Nat) (s : Score)
  | levelBest (depth : Nat) (s : Score)
  | moveHeader (move : Nat)
  | moveScore (move : Nat) (s : Score)
  | decision (choice : Option Nat) (s : Score)

/-- Append a trace event when the printing flag is on. -/
def emit (pt : Bool) (e : TraceEv) (tr : List TraceEv) : List TraceEv :=
  if pt then tr ++ [e] else tr

/-- Result of one (sub)search: backed-up score, board as left behind by the
in-place mutation, trace printed by the call. -/
abbrev SearchRes := Score × Board × List TraceEv

/-- The `for move in moves` loop shared by the two branches of `minimax`:
write `place` into the cell, recurse (`next`), erase the cell again, and
keep the better score (`better s best` is Python's comparison of the new
score `s` against the running best). -/
def searchLoop (pt : Bool) (place : String) (depth : Nat)
    (next : Board → SearchRes) (better : Score → Score → Bool) :
    List Nat → Score × Board × List TraceEv → Score × Board × List TraceEv
  | [], st => st
  | m :: ms, (best, b, tr) =>
      let b1 := b.set m place
      let tr1 := emit pt (TraceEv.tryingMove depth m) tr
      let r := next b1
      let b2 := r.2.1.set m " "
      let tr2 := emit pt (TraceEv.receivedScore depth r.1) (tr1 ++ r.2.2)
      let best2 := if better r.1 best then r.1 else best
      searchLoop pt place depth next better ms (best2, b2, tr2)

/-- The body of `minimax(board, depth, is_maximizing, ai_player, hu_player,
print_tree)`, with `next` standing for the recursive call. -/
def minimaxStep (next : Board → Nat → Bool → String → String → Bool → SearchRes)
    (b : Board) (depth : Nat) (is_maximizing : Bool)
    (ai_player hu_player : String) (print_tree : Bool) : SearchRes :=
  let winner := check_winner b
  if winner = some ai_player then
    let s := intScore (10 - (depth : Int))
    (s, b, emit print_tree (TraceEv.terminalNode depth s) [])
  else if winner = some hu_player then
    let s := intScore ((depth : Int) - 10)
    (s, b, emit print_tree (TraceEv.terminalNode depth s) [])
  else if winner = some "Tie" then
    (intScore 0, b, emit print_tree (TraceEv.terminalNode depth (intScore 0)) [])
  else
    let moves := available_moves b
    if is_maximizing then
      let tr0 := emit print_tree (TraceEv.nodeInfo true depth moves.length) []
      let st := searchLoop print_tree ai_player depth
        (fun b1 => next b1 (depth + 1) false ai_player hu_player print_tree)
        (fun s best => slt best s) moves (Score.negInf, b, tr0)
      (st.1, st.2.1, emit print_tree (TraceEv.levelBest depth st.1) st.2.2)
    else
      let tr0 := emit print_tree (TraceEv.nodeInfo false depth moves.length) []
      let st := searchLoop print_tree hu_player depth
        (fun b1 => next b1 (depth + 1) true ai_player hu_player print_tree)
        (fun s best => slt s best) moves (Score.posInf, b, tr0)
      (st.1, st.2.1, emit print_tree (TraceEv.levelBest depth st.1) st.2.2)

/-- Fuel-indexed `minimax`.  The Python recursion terminates because every
recursive call fills one more empty cell; the fuel makes that bound
explicit (and the wrappers below always supply enough of it). -/
def minimaxF : Nat → Board → Nat → Bool → String → String → Bool → SearchRes
  | 0 => fun b _ _ _ _ _ => (intScore 0, b, [])
  | fuel + 1 => minimaxStep (minimaxF fuel)

/-- `minimax` with its board and trace side effects:
score, board left behind, trace printed. -/
def minimaxFull (b : Board) (depth : Nat) (is_maximizing : Bool)
    (ai_player hu_player : String) (print_tree : Bool) : SearchRes :=
  minimaxF (b.length + 1) b depth is_maximizing ai_player hu_player print_tree

/-- The value returned by `minimax` (its only non-print output). -/
def minimax (b : Board) (depth : Nat) (is_maximizing : Bool)
    (ai_player hu_player : String) : Score :=
  (minimaxFull b depth is_maximizing ai_player hu_player false).1

/-- The `for move in moves` loop of `best_move`: state is
`((best_score, move_choice), board, trace)`; the recursive search is
always called with `print_tree=True`, as in the source. -/
def bestMoveLoop (ai_player hu_player : String) :
    List Nat → (Score × Option Nat) × Board × List TraceEv →
      (Score × Option Nat) × Board × List TraceEv
  | [], st => st
  | m :: ms, ((best, choice), b, tr) =>
      let b1 := b.set m ai_player
      let r := minimaxF (b1.length + 1) b1 0 false ai_player hu_player true
      let b2 := r.2.1.set m " "
      let tr2 := ((tr ++ [TraceEv.moveHeader m]) ++ r.2.2) ++ [TraceEv.moveScore m r.1]
      let st2 := if slt best r.1 then (r.1, some m) else (best, choice)
      bestMoveLoop ai_player hu_player ms (st2, b2, tr2)

/-- `best_move(board, ai_player, hu_player)` with its side effects;
the parameter is the global `PRINT_TREE`, which only guards the
`print_board_state` call.  The first component is the pair
`(best_score, move_choice)` of the source's local variables. -/
def bestMoveFull (b : Board) (ai_player hu_player : String)
    (PRINT_TREE : Bool) : (Score × Option Nat) × Board × List TraceEv :=
  let moves := available_moves b
  let tr0 := emit PRINT_TREE (TraceEv.boardState 0 b) []
  let st := bestMoveLoop ai_player hu_player moves ((Score.negInf, none), b, tr0)
  (st.1, st.2.1, st.2.2 ++ [TraceEv.decision st.1.2 st.1.1])

/-- The value `move_choice` returned by `best_move` (`none` means the
Python variable stayed `None`; the final print then raises a `TypeError`
on `move_choice + 1`). -/
def best_move (b : Board) (ai_player hu_player : String) : Option Nat :=
  (bestMoveFull b ai_player hu_player true).1.2

/-- The final value of `best_score` in `best_move` (printed in the
`DECISIÓN` line: the backed-up score of the chosen move). -/
def bestScore (b : Board) (ai_player hu_player : String) : Score :=
  (bestMoveFull b ai_player hu_player true).1.1

/-- The score computed by `minimax`, stripped of the board and trace
bookkeeping (proved equal to the score component of `minimaxF` in
`minimaxF_master` below). -/
def spure : Nat → Board → Nat → Bool → String → String → Score
  | 0, _, _, _, _, _ => intScore 0
  | fuel + 1, b, depth, is_maximizing, ai_player, hu_player =>
    let winner := check_winner b
    if winner = some ai_player then intScore (10 - (depth : Int))
    else if winner = some hu_player then intScore ((depth : Int) - 10)
    else if winner = some "Tie" then intScore 0
    else
      let moves := available_moves b
      if is_maximizing then
        moves.foldl (fun best m =>
          let s := spure fuel (b.set m ai_player) (depth + 1) false ai_player hu_player
          if slt best s then s else best) Score.negInf
      else
        moves.foldl (fun best m =>
          let s := spure fuel (b.set m hu_player) (depth + 1) true ai_player hu_player
          if slt s best then s else best) Score.posInf

/-- The loop of `best_move` stripped to the pair
`(best_score, move_choice)` (proved to agree with `bestMoveLoop` in
`bestMoveLoop_master` below). -/
def pickLoop (f : Nat → Score) : List Nat → Score × Option Nat → Score × Option Nat
  | [], p => p
  | m :: ms, p => pickLoop f ms (if slt p.1 (f m) then (f m, some m) else p)

/-- Specification-side description of the tie-break of `best_move`: the
first move of the list whose score is greatest (no later move with merely
an equal score). -/
def firstArgmax (f : Nat → Score) (ms : List Nat) : Option Nat :=
  ms.find? (fun m => ms.all (fun m2 => sle (f m2) (f m)))

/-- Outcome of a board, as the specification names it. -/
inductive Outcome : Type
  | InProgress : Outcome
  | Win (s : String) : Outcome
  | Tie : Outcome
deriving DecidableEq, Repr

/-- Specification-side reading of the evaluator: walk the 8 fixed triples
in order and return the symbol of the first one whose three cells are
equal and non-empty. -/
def firstWinningSymbol : List (Nat × Nat × Nat) → Board → Option String
  | [], _ => none
  | t :: ts, b => if winningTriple b t then some (cellAt b t.1) else firstWinningSymbol ts b

/-- Specification-side `evaluate(board)` of section 4.1: the first winning
triple gives `Win(symbol)`; otherwise `Tie` when no `Empty` cell remains,
else `InProgress`. -/
def evaluate (b : Board) : Outcome :=
  match firstWinningSymbol WIN_COMBINATIONS b with
  | some s => Outcome.Win s
  | none => if " " ∈ b then Outcome.InProgress else Outcome.Tie

/-! ### Certified table for the full search from the empty board

The full game tree from the empty board (about 550 000 `minimax` calls) is
far beyond kernel reduction, so the nine top-level scores are certified
through a memoised table: `theTable` stores the minimax value of every
position reachable from the nine opening moves (5 bits per X-mask slot,
one packed number per O-mask, the numbers held in a binary trie over the
O-mask bits), `checkAll` replays the minimax recurrence at every stored
entry, and the soundness lemmas below turn that single check into facts
about `minimax` itself. -/

/-- Binary trie over the 9 bits of an O-mask; a leaf holds one packed row:
5 bits per X-mask slot (the backed-up score plus 11, or 0 for an absent
entry). -/
inductive RowT : Type
  | lf (row : Nat) : RowT
  | nd (l r : RowT) : RowT

/-- Fetch the packed row of an O-mask (walking its bits, least significant
first). -/
def lookRow : RowT → Nat → Nat
  | RowT.lf row, _ => row
  | RowT.nd l r, o => cond (o % 2 == 0) (lookRow l (o / 2)) (lookRow r (o / 2))

/-- Table entry of the position `(x, o)`: `0` when absent, else the minimax
value plus 11. -/
def tval (t : RowT) (x o : Nat) : Nat := lookRow t o / 32 ^ x % 32

/-- The trie has all its leaves at depth exactly `k`. -/
def fullDepth : RowT → Nat → Bool
  | RowT.lf _, k => k == 0
  | RowT.nd l r, k => cond (k == 0) false (fullDepth l (k - 1) && fullDepth r (k - 1))

/-- Bit of `n` at the power-of-two `p`. -/
def bitN (n p : Nat) : Bool := n / p % 2 == 1

/-- Cell decoded from the two mask bits (the masks used are disjoint, so
the X-over-O priority is never exercised). -/
def cellB (a b : Bool) : String := cond a "X" (cond b "O" " ")

/-- The 9-cell board encoded by a pair of masks. -/
def boardOf (x o : Nat) : Board :=
  [cellB (bitN x 1) (bitN o 1), cellB (bitN x 2) (bitN o 2),
   cellB (bitN x 4) (bitN o 4), cellB (bitN x 8) (bitN o 8),
   cellB (bitN x 16) (bitN o 16), cellB (bitN x 32) (bitN o 32),
   cellB (bitN x 64) (bitN o 64), cellB (bitN x 128) (bitN o 128),
   cellB (bitN x 256) (bitN o 256)]

/-- The cell at the power `p` is empty in both masks. -/
def freeB (x o p : Nat) : Bool := !(bitN x p) && !(bitN o p)

/-- The masks mark no cell twice. -/
def disjB (x o : Nat) : Bool :=
  !(bitN x 1 && bitN o 1) && (!(bitN x 2 && bitN o 2) && (!(bitN x 4 && bitN o 4) &&
  (!(bitN x 8 && bitN o 8) && (!(bitN x 16 && bitN o 16) && (!(bitN x 32 && bitN o 32) &&
  (!(bitN x 64 && bitN o 64) && (!(bitN x 128 && bitN o 128) &&
  !(bitN x 256 && bitN o 256))))))))

/-- All three cells of a triple belong to the mask `n`. -/
def winB (n p q r : Nat) : Bool := bitN n p && bitN n q && bitN n r

/-- Some cell is empty. -/
def anyFree (x o : Nat) : Bool :=
  freeB x o 1 || (freeB x o 2 || (freeB x o 4 || (freeB x o 8 || (freeB x o 16 ||
    (freeB x o 32 || (freeB x o 64 || (freeB x o 128 || freeB x o 256)))))))

/-- Winner of the encoded board (1 = X, 2 = O, 3 = tie, 0 = in progress),
checking the 8 triples in the order of `WIN_COMBINATIONS`. -/
def fwB (x o : Nat) : Nat :=
  cond (winB x 1 2 4) 1 (cond (winB o 1 2 4) 2 (
  cond (winB x 8 16 32) 1 (cond (winB o 8 16 32) 2 (
  cond (winB x 64 128 256) 1 (cond (winB o 64 128 256) 2 (
  cond (winB x 1 8 64) 1 (cond (winB o 1 8 64) 2 (
  cond (winB x 2 16 128) 1 (cond (winB o 2 16 128) 2 (
  cond (winB x 4 32 256) 1 (cond (winB o 4 32 256) 2 (
  cond (winB x 1 16 256) 1 (cond (winB o 1 16 256) 2 (
  cond (winB x 4 16 64) 1 (cond (winB o 4 16 64) 2 (
  cond (anyFree x o) 0 3))))))))))))))))

/-- Number of marked cells of a mask below 512. -/
def popB (n : Nat) : Nat :=
  n / 1 % 2 + n / 2 % 2 + n / 4 % 2 + n / 8 % 2 + n / 16 % 2 +
    n / 32 % 2 + n / 64 % 2 + n / 128 % 2 + n / 256 % 2

/-- Board index and cell power of the nine cells. -/
def idxPows : List (Nat × Nat) :=
  [(0, 1), (1, 2), (2, 4), (3, 8), (4, 16), (5, 32), (6, 64), (7, 128), (8, 256)]

/-- Every free child of an X-to-move entry is present in the table. -/
def chPresX (t : RowT) (x o : Nat) : Bool :=
  idxPows.all (fun ip => !(freeB x o ip.2) || !(tval t (x + ip.2) o == 0))

/-- Every free child of an O-to-move entry is present in the table. -/
def chPresO (t : RowT) (x o : Nat) : Bool :=
  idxPows.all (fun ip => !(freeB x o ip.2) || !(tval t x (o + ip.2) == 0))

/-- Backed-up maximum of the children codes of an X-to-move entry. -/
def chMaxC (t : RowT) (x o : Nat) : Nat :=
  idxPows.foldl (fun u ip => cond (freeB x o ip.2)
    (let s := tval t (x + ip.2) o; cond (Nat.blt u s) s u) u) 0

/-- Backed-up minimum of the children codes of an O-to-move entry. -/
def chMinC (t : RowT) (x o : Nat) : Nat :=
  idxPows.foldl (fun u ip => cond (freeB x o ip.2)
    (let s := tval t x (o + ip.2); cond (Nat.blt s u) s u) u) 100

/-- One entry replays the minimax recurrence: a terminal position stores
its depth-adjusted score plus 11, any other stores the max/min of its
(present) children's codes. -/
def checkEntry (t : RowT) (x o v : Nat) : Bool :=
  let m := popB x + popB o
  let w := fwB x o
  cond (w == 1) (v == 21 - (m - 1))
  (cond (w == 2) (v == (m - 1) + 1)
  (cond (w == 3) (v == 11)
  (cond (m % 2 == 0)
    (chPresX t x o && (v == chMaxC t x o))
    (chPresO t x o && (v == chMinC t x o)))))

/-- Check the 512 packed slots of one row (balanced split: a segment at
level `k` holds `2 ^ k` slots; an all-zero segment is skipped). -/
def scanRowB (t : RowT) (o : Nat) : Nat → Nat → Nat → Bool
  | 0, x, r => cond (r % 32 == 0) true (checkEntry t x o (r % 32))
  | k + 1, x, r => cond (r == 0) true
      (cond (scanRowB t o k x (r % 32 ^ 2 ^ k))
            (scanRowB t o k (x + 2 ^ k) (r / 32 ^ 2 ^ k)) false)

/-- Check every row of the trie (`p` is the bit position of the O-mask,
`pre` the prefix accumulated so far). -/
def scanT (t : RowT) : RowT → Nat → Nat → Bool
  | RowT.lf row, _, pre => scanRowB t pre 9 0 row
  | RowT.nd l r, p, pre =>
      cond (scanT t l (p + 1) pre) (scanT t r (p + 1) (pre + 2 ^ p)) false

/-- Check every entry of the table. -/
def checkAll (t : RowT) : Bool := scanT t t 0 0

/-- Decode of a running maximum code (0 is the initial `-math.inf`). -/
def decodeMax (c : Nat) : Score :=
  cond (c == 0) Score.negInf (Score.int ((c : Int) - 11))

/-- Decode of a running minimum code (100 is the initial `math.inf`). -/
def decodeMin (c : Nat) : Score :=
  cond (c == 100) Score.posInf (Score.int ((c : Int) - 11))

/-- The fully empty board. -/
def emptyBoard : Board := [" ", " ", " ", " ", " ", " ", " ", " ", " "]

/-- The table of every position reachable from the nine opening moves of
`"X"` on the empty board, with its backed-up minimax value (generated
offline; certified by `checkAll` below). -/
def theTable : RowT := (RowT.nd (RowT.nd (RowT.nd (RowT.nd (RowT.nd (RowT.nd (RowT.nd (RowT.nd (RowT.nd (RowT.lf 228974508282616779802355287202009881849535769439867505717020471708879377312813926556269267718111132066533275506994182171410438457463116227979077945324901056784330849206562847607010033692554838160591954045893323251710148559949271108898688610191800962789229372368872377523296416435662547793765839724060748961080326544812708470977813311277338850567101287524282187308683415723083398200175968) (RowT.lf 77962512091199992642827059103001506487009814860833408373704930054718467956501517549655504859362227037736005297454412143553590747829685488177660117408116529831699967532659547842668613383451587785113597920141808415130199237584751552511051756702359581003287015579717740582472981505027054255584)) (RowT.nd (RowT.lf 489086581248034490820184954720691007474011579633972568811912385143076581168882590732409362564327869288050468628141067996848058023197123893716495841240877851939806184318198007385106853159157450645711360379079343931208648988545448960668779259526131320550354885674195828606097896317408511177587744484678650655943733655132799941851074410192482019284501720471027457742207455582807606057632547820181684337578043457049941539090426520200442063165960320607264180124385709020252662427932798432) (RowT.lf 56609436372374606292304325341182525303676576183440743791534186833909105808524121514195614997618915957167478230367637331352203873173789325570536711034824847501834500734976))) (RowT.nd (RowT.nd (RowT.lf 759769161446313131243758909567079759925539765077480933942407650644681330293568271000846299266568840129383590787103839195048630212384469754193224764191652952547011486774758344799207950760404749724979542671582381329909201464454243911818692838513309261232566115942286128382997954945602120068936517903400056031071926098853069126317951766641927248370948685242051840279080027730291347034248831355065418891067660002324459319497602992060929809439252841774276366720309054053876033586706324763855520660000529067505860211993293741990617368625103714713427739276812737707304642504353337818592) (RowT.lf 120917022202130471001754222442365268102817430258757465007683208833239034601717210932492708182528937604680341506437042162331167765478497386013956882507796338017135809284154477733950379454077317023123097008355616389759145703329685896035769608997637611421986814551425024)) (RowT.nd (RowT.lf 551676733457158986816379243040102095575132572401575845342031277621077481807728153390048034228835529748880286902843579314899555637289915661144887720470047721116145350541193303826766631068825786788035288787203208865296697670797628335873691451100066569932844285286665005254815922709386332971149940388744651666684114816724470316604130604913816625733354967527022569084655437097582945927992258734781591593648144822236733195232453941047033323754884620435328451772416) (RowT.lf 11127235309794910765344394427773972442691571775997402321601110425197544585822208)))) (RowT.nd (RowT.nd (RowT.nd (RowT.lf 1424567177711837121082047955438274549860387059520276751142014344958777494300440508126586811124817242178841389136488998742927164408685618077629977644818581224501218244072906976497557491279547512166595695572052863717661186381108536540236986468405334462581239404290518952913769764498761328404005273245146307181830250059003356927789208170251981400616890450302929136561000376932427206064685422797171340820730677295701652369740683979254135559605535983839221030142249393614160723258544045118290825643504330247906057110693392635162391171566605250507009959150010676405693529074003761970656) (RowT.lf 70688170371866331795611266380017065547987031867669074279898417219586560500532872831087738053243559851727105618988704545708068839979020022504049427121571506513301612184354475564228560240394159344459545486772868790391147270425763836508266571816222646084647411580082379951357960820131355062643378301210891095577755648)) (RowT.nd (RowT.lf 806276449224806421412096512212660486156528955248550346150229218988707560540585843482765532803929470690733742128567899815995353725303254186323674001549194376152683138921766927866493299752907236897251996318543005973131062653832691421926288567142304673695797048769108024192451411651306403183727355146036273460409984002523012225617169219653257135949285671877150026678456629618490096188869129338867095274373238439983452838693925774037453301008504426122694486866610458125151832039187055192739595463137779627098112) (RowT.lf 44681635513604554889599523854526556379301179983607298702115508131357510709260486601898195628429424955363389439473829400728090933800764178432))) (RowT.nd (RowT.nd (RowT.lf 1722196042912530427809453533954297722157132915586371812650704787161621234398014563030555675061640705560710111105039404715167597777117055203640581246301105248159076272574227378063509641917524881149145971224517696344578770296891860044967316106808325313436274520365249416540941575067185963490442114612659108564183443158323844088844610714141210107479092223406294179846257724669946853649197085349373280609969207811125875461323781997269503934458310953362124302830563129220791660707385026709418616710064774252453525017213497151697155169532528912004522802488500812923003030274503810333770802893134793586460098560) (RowT.lf 70045049829149141371347338621425212835093439306965731891770246994962603773382869820287822451267788155278075216780215944916615879416616612090751366554988797885100571893099016884225805828862523932425040290297725673852961170112892146548736)) (RowT.nd (RowT.lf 319469245816167363073981577074467576032456582826949377801127753506647877015483344052123774532293018068298165071640368694118972711306667061486220627364706258204298219063490194183596907981146452774722141780735643681290842450217465135632185870311197190289804577074161830302858223294222905160707867205927822020982193152183424206509871934346956748096664354007678701843557178495490047113935586142041287926723732131995336206356567818240) (RowT.lf 11775141913967896059717445743556345005806190592))))) (RowT.nd (RowT.nd (RowT.nd (RowT.nd (RowT.lf 1044682596988680555460168500654734669897617176981536284170810519636436829153656372626163661491532644264483685366758599078146587233036119923595317274180244993383708688769005865779825160695781607392192928885123281100365745103191992200626600478683670456227185339396127576022959076507945867335982616098380346708316802323292849224078343330083176623103865848567669718409765006998030596184777287741594878473514827251245542808077980120343901970646187078554793843182068456541445369301402677088033993764880487702327502668839814729911399837736917503834013288747996865405597296236503999294816) (RowT.lf 85456754303789328977510883080594791362746807649221164815504136715499992816141202679189621838913804293735554975329593714201445074486652517800848799812238010282481464661411610085715266846191382847839860440671488684640913297185683693654682291997021172726994838288633378095317748834596872386811304938029810224227375327813718691335466518085632)) (RowT.nd (RowT.lf 389891366885768775466581816670575746962599402205600944512803378902636985963862245203776006225811610257787460655396406860731941782546089239284083003057227892464938089549809303358580296026924174543740209527707689553204702181193369876153656042559412517615266659845476097120426253596756029440456801972745225171264568885081776965688723538382269144220226783214609383504098538500313107243320484258027663471934940969454198462272230009486759120930026086372427543987817248787757726784150976068091666140249359071323335144313567827641877692416) (RowT.lf 28822865561394398003744709753942174077882779321401658105383126907149267562757365192702185997751426737516103431110371956781881317463412759916710777290985428385529856))) (RowT.nd (RowT.nd (RowT.lf 832802905085485321208325796791061305074523406223728159747752745198824144471453845941241610687498875693123000075481527263535602067803776377889268851671307314892931499231880017325413213396366477404230110741230918766882417428159179658206461620612260733489489464013063879665615887890988727860467099893787031134621545430894973440100747656565327171268193931458912352569161050283498204343537697626381387894345529361822918594879354178551814430861781901689947751877164466069058998052943566020123265051487844010730593676365564206073972019328420397225668940350167426081507084165152446102740418125216016757820170545131716466755426901852160) (RowT.lf 61563573587698647810397889998433602082996751489973320324811575004404645703760346162889695831734708776601880800591899032491396060489569260181886311671247060512522816875880782717301140528060290892151867386465434396895730859860167267076485020751013083247372402688)) (RowT.nd (RowT.lf 526403017856551754096738938295558013620211302762497427018438542147826490917547090738370834015311099437014770577686593638080421145618998563746752933021668893228127361330851469534930845975743793013775764274114207177487503259889156817399593219572885787701410400662129791623243303931538599410724550971453423754011724739353265737622921451319157225084225956048775788796806194652336653981541475736205790120543446128533945862373282102167315594966344722381012992) (RowT.lf 14235273089422212040330975638057099677409687835483024466467723455496192)))) (RowT.nd (RowT.nd (RowT.nd (RowT.lf 3448571293176379778155741864264078125445642740950742481301790912483684068537490041888958857461115833274603138902206253483808011952578199002311116779045953763032439632251916571108950692416048624305974840372410795033143356788202222648951835625505519892439932797265231644113251099911830472597333470538296644160002447895834631904023751968965250921816693298806233588925460027826662955577010241067320866472023346124751912115584165213328607123222214681032254075143132828561997180389346906572562987370866846578633802023286126432220181411619211406148944641722216371556876684494984862378572764541534854131356295599088157452241330876256621177895836690043779193684133488608311219619135488) (RowT.lf 89977738782234052981614385049729416846357348393197590031646557955903628705608027788364937323089537155684969748962307532570329822253070665979297895048333715175692940788214646838904162702969214484820463933327645583401942890636156694361376196963886056894695181696571002898144262927399110300289929976609700315136)) (RowT.nd (RowT.lf 410668270793573291172478479476259671986513277524597796954150440867219300791287777013329512261999100233178892237102090393495143647975793719532121854032436151779031056334292480905131702960752010863409120187685572928948651682639285923232069853199982146001545512942263928713999447815385567883412076603419342802697043244559915399147635985963309246786912449161734859602148875440609118452253925588427692642573773693028495822062209670340013651738006666615035839152261590256468670567610990969255897370535657472) (RowT.lf 1081821482128206821252333324989543060632269321409899303715188343706970536958227414546990094294120243833986778101863940096))) (RowT.nd (RowT.nd (RowT.lf 1205320337068823581008748815795818910812583744225311519167586521269040570612242809717215389064714029927934907297563501207853052323525224241706371201615366217788282353225559865115959544967793617084592757499730813440361957357350228366452603547515594036390529988870034388986566796132027575793144064036138500174424728602232664775258698902259694482969260798420805927127307791780972463897554921513167799617616875951354120078549987384897117727467387816164384644958308578768690126262649128445083772747769073064950862256433286987482471938399707531164415922390459915749746398481154225442716377392630789570560) (RowT.lf 2312947014471848415642687460033127055838741395204528321022088513626775224702715685642328523676721335836227446163518934289428146507737172401433977084107630409622106605188847027090670869670232951162898789770127418064896)) (RowT.nd (RowT.lf 10552683405234352587970052257694069584528135641431908752444049712997561151851742726788015211942514332578096477715491715387894514386080462978145976243656819610407169111105662046691136453644315040755601762623487373767293228440816135797577840108988968768918402626046896974855617535813528784065736787184778887428179049682011089026313449793820636983433246800972251943062957063052662263054462367518052859965966647296) (RowT.lf 0)))))) (RowT.nd (RowT.nd (RowT.nd (RowT.nd (RowT.nd (RowT.lf 759769161446313131243758909567079759925539765077480933942407650644681330293568271000846299266569507065630747197773139447259612972849207042710906710091764676045121315736365821592507767725089936492657111815233466012920316466925177095423264193550555089481624516441179937089804844704413199040477033410199554438790973920300118121691588824673444971114597945458190654255350839052701403281370466061032044770337865695693847164214871783854030927203544780275541426967458179334410452546832113668723731658367858471304807250693088588683197158705631041471254814002358443735076715423833790070240) (RowT.lf 156670716223613769792103462368183046885606163298144253374570504976162186740939102902680810196892875960443464011208543179841268101029567561526531158049635305741098629736066498498983028048781365896508436104086845273442526309581353338539287727974691416879070521970401548523511314641311414600585355270955456668766866351167795790856394073735168)) (RowT.nd (RowT.lf 714800839290576088355400803505838093162340695897019884368509197136728858688438885991352762681782849023904293918749042538386173468329377253534237380080969616070473482221067084056547538780802590286490872789432686910459174640704868919160417386469748958964456697933040198692861845906827866477285546736346266445436544840276447398566841194915969128482961557391354872370556220160641969574163135025469862098920250322227098486635795325844508717046668278407709852626598374303448186529238616462675988577632946819087098775992987107822014070784) (RowT.lf 59403191310508187522033513941254502404658078973340237948807766474963834564829537806826877619868942037503554470258132941577923120406622095038831173938857127027719419901044064256))) (RowT.nd (RowT.nd (RowT.lf 832802905085485321208326485669478469000706177430242740731475942731088100768716511152757230347600610992677116958073628924239119702005270201955306367724860999540590538359408504762317388907449879939498473243265238258661510906775681900650469337185251427331788362098213980662680294776058267680640344737357157929982024161020101092648787417373052561162769280453443796377265718827212388590467065269564003753554239673206695887856762687721324785930481468784901273040074656108441387884411797736391099388836190406166547908120617859012205181061269760874251631341844285206913816724293923953954125595081165976591353709843801262745917055336448) (RowT.lf 67748477452576617099098386726098967595952019194539473956449457142059350195434572746191627137992969990175018497115633778937705668623536735415385467741256038669511193310910515247621856529770704076617981204224347368225685957050892476710454576718997743893946915342487602069504)) (RowT.nd (RowT.lf 578794476846617020022199659949610025694441408097312110200608980687216520260797357344576416483137340845171735511882921940821479321345591672170149186807588473190537311733145577345187937268664697397429135721113348157763406896126329205188446322148758008712673663915844009737379158231351638486574925378276637500439266408465285394185675586216784707676448537284370775340750797676710035256535861580644673953317948033186454569110032115200995585682496530866599152235317297152) (RowT.lf 15651848286386504767794937185594361880342210367223966322341560545517633559689428992)))) (RowT.nd (RowT.nd (RowT.nd (RowT.lf 3448571293176379778155741864264078125445642740950742481301790912483684070259686084799192003147641351887745625222796677978190301579515637402854654490730701478278336376323778909854386418277838639449205050397630092187289852225064931636558015960997357925205233015135559672098360003644179249998062920681917148534145309914913405495058432570891871356826645634482491210969247652689834861823250386729271917408031858486482882157540130652272259319357939473092496750748737550998032802525391238777644228636306180830983087722697491343811316416116180258584448768124776695281203773562642319260792769737692043152877993793086798724698888179531053572392675430455836119858128144473519742666702848) (RowT.lf 185488951804637015827509227771130558816767105165181462559551742517677495386602804250741878703955589013033939944258706371568014139345310958972728078869406897257464409615035742296920128647360628113030454932279188552871905856906173972971566869945206718334617920233276844727138268199671097926386429433540236846884612760141824)) (RowT.nd (RowT.lf 846184284617416037807085725410469191235443027616386854983319481496078726070139508133643907547595746342757149890193816200415242312581968132845153954311629080299576984827239490381443817662467537349818267402277565541170053494767431467459383071753044809659485501808452069177790807971843894364164226190662302821930558430641520459524466340029242402836237535533503772898397611540903421588006488182403905894166069540413842088545734377455730153597024981885374191467359980962213376369289875572843126984073345315419310784512) (RowT.lf 1153431692751391048558288956590595387160568097821732147834868395191277800658376876406708806054168236174748730151720695519721467936768))) (RowT.nd (RowT.nd (RowT.lf 964942194759674700150587115070999282789172472522753370915325841483178876037071572046678534256712949956672456931593482713395062706332701682695593271178623862430007435159365189388745720718147459016855886834607404710290740282043726289317474461584009353495740700677500807082482748121542799331593148216337146555783315806169507792774956559563024284752887438679500334231724358229184219596734404750946774539124802739143593177180365055164195559759857819281092782843153218522438333829858858883681573772980368591515968092993908924568983543839958727911996456607621217621554627136026137125823836546386803846909704039038976) (RowT.lf 2466118762482040710551756821127277201270819446811673920563205290639058225696798802657002782540525712810784460489663070496587312708834398003339186661234347662913723296580055355007324806575900230085447962791475289595800302544486400)) (RowT.nd (RowT.lf 11591810295393782756684612498212231730173839756815408000919682400379433448143811432632713901939147460882237833300013376044260643520515451651387474949065623442043106130749866320087121850105863245467267649938225757635142301617434273300086977862842236109471523738707402008694875301169482497630235172327983060924520357635907441792674616969570169819010142562016205731921334377056809819544349758547270836858219786778576836100096) (RowT.lf 0))))) (RowT.nd (RowT.nd (RowT.nd (RowT.nd (RowT.lf 3448571293176379778155741864264078125445642740952824488564504625786704883029467695148930194397428964524364799891626147825974239810813205298323502640121364815205955938077725641738561305052359928890754252509090387827116566385101650029105896791187056722425882069454150510006815860936578308783583418109924975182309658439701817863990257903841164134638444828963707266290774550272164119755949775132128129018833048283082875266461917857909897607846197579907369621322124595105577485780568041265677130012441960397302639623115303019332464770509079647265289901380405327498837511720218734924175675176918707383765463944098253298977422263516689579250333678903020213968178843048676163869769728) (RowT.lf 119599049223311752180797036583616099914019768478453443698730930474540036226203611100415625711313797634975881558601494390453293251739771857786023155515145416246795828676526934863403143793805625987356415254694929818966406083561440807627978081265173303187723599778813054339619849785758448959102388292074132374639403349533940529003067956014308392960)) (RowT.nd (RowT.lf 1022826390961867589229950741035463267221682387037218793319447568510469057457631940563939806410619416775760260279132666897733630027545314284546588419040274167363380476763624863877526846784636727722090344317122993173334124283289465495178689008761832560313802571933084582738342784173138221720051743541285144026879451243877431405185607231033568896617662697560727263085724812168967966100756478149709008158105725486548509419030542484401822842818712056918183212725540656010733270421197084100330908333060534865060766987271073432193685250941911040) (RowT.lf 1439350460794162791754874360829771614631639695360519309708347741635405472939047047275870380165282976147694528198813120764883785804814829716206121438094032896))) (RowT.nd (RowT.nd (RowT.lf 2184317516004917717473917920276333537902065523092441767674251818893759193657709905101594451591188066755614627887358288744766717743224319566539834648187517888388755470399457245209003103181730510904727842403344309039015940981937638249268489853307000516532458031414640767238725811961804570382311808395045150590810168033368704270535603749936877033781079332682281856827320350334426493504879441185762460901064125965402883415467519732558068054529014301850218872983005664649445929940401351255311154897173602380028252760938227016581656681409095996214868639587994690278055224441417895888196275065129662385478861116293477254859460949603696771072) (RowT.lf 3074433924403119878313081449261475497518401911762705239099938676047740268503781339924645597928713863152361339525147808870114617348862043744327482384419012163014020464127280988395228579632679978392428437902124148048008584639724902124956051449138009604096)) (RowT.nd (RowT.lf 13588996001574392653944989118262937950577810852244782991141905337449772119950858302174586406254203867410813626957588363491879620232515341565969671114027619228543039461093260191829276540424663344855893277909751306751354075592362117193974578784976366573082268261153226886447574361679966779268085739045517438156916259985570524262803335249109154212795817212718783801472558789282948842940231977694498569894686233965073475975989863391822639501009747968) (RowT.lf 0)))) (RowT.nd (RowT.nd (RowT.nd (RowT.lf 598108518350412408430236863825034796927623116023354850741877920371108615559023988570370227093825668617064657984844488291414450173047001069623563478114486819134265083184934915319708812173778396624065670812940699783942684169060559023151554831995686241040544501567474908894627338179830612988689081133827157660837970248223079189645109922719653249472552032265314761231469995816779451272202179887892376969074703697771374798873955726107113206086360479547514961130978060433618852796267760120924095409203533991186657765013027107129578532783603831833029323367722812344725453169208626609817387008) (RowT.lf 86330152422536686841988867957316973648790246968186133375994341073511297871267715424090988195702576956047551111943420149477837564085484429539019305701682314479198658183726128981193154842584778785105158252119517214088483939468671453506202990190930887954736815111747102611481882405528339363191054139392)) (RowT.nd (RowT.lf 393876193938096534282365356662070520663108325702021678136321641809764210960422394032819472327415417674164555570195852643506166892801140067673990462019364898044740485136205667919897752414237629169045656886514524559711889341242061971061521885276204948814312935635612811306470379073754553937975261347053734441603502322729805182932191389407520362153190749164950918152317873915509076790202872195639347538554149517673671376601922543922157527618942828553624673579565172800856825802716731458497544192) (RowT.lf 0))) (RowT.nd (RowT.nd (RowT.lf 841314444009644348018535459422218693088502260736436246961054735998507948264998587004734635740861589569282365307899086042506145325616607605668302980230545387367074974466281114048575392356312459868566821060389133702068604724706897976282544507035917008322659560077840910344351063482419511785343184559014861087470715608524443234225809256616023617493026047460665426369460326010754933070937315791397909273160475801848748487189743251465185195130963964099705883863091055638861964507273441889219844215405153774851815494764077389938117103030500559903689486649843571589695376086337122999300461166592) (RowT.lf 0)) (RowT.nd (RowT.lf 0) (RowT.lf 0))))))) (RowT.nd (RowT.nd (RowT.nd (RowT.nd (RowT.nd (RowT.nd (RowT.lf 1424567177711837121082047955438274549860387059520276751142014344958777494300440508126586811124817242178841389136488998742927164408685618077629977888197940324197811196641885756821798322465877325720997609091351493463272850914372236324565985128287283205048269209838322958238985064979558602364227973880614993796553206924624147907740315445878962421071383884634916797054578947022792514799729299592425795974373533716813986039690858489922361138278004094250583297136505466004549087566179783714159033481197269500623281844725292387057740540583542860945965999872204562529157488212836612320736) (RowT.lf 113942339071719105303347914795630093597606686984871379314710363438366449124913388038863112768370072260172232274248695528996603037620885502951832745210400624962079558646140121003986205038695101748279825593488662602252410849788785295915888561250784833892154737728413535636851506064137425102272877946071345657427923186964826995443442276106240)) (RowT.nd (RowT.lf 519855155847691700622109680163497093893813742270749164808513125488858281804735147748983912223671619254157452002245989676870331440998947571196579983104546906324363196510399604436626401897415917812407548538107638306960924193782939554392998835982434703192913628117032175819523910185849987967605436774609906688965680686185888604328599548006223860736593649108439247126988045254675881839586673170964944503619729213351267142686506846694670363736648637116322168171418440650873162260682918858421641179767027796876073170360043944099558293504) (RowT.lf 62242733577109851340832856553936818544006096787654644854343802297168376396755771653635520159885935220563042763220336876962507409686180764805985129636424229335382615100839868363702272))) (RowT.nd (RowT.nd (RowT.lf 832802905085485321208327518987104216456308660044810990848749813039353414429976879721480648628038994023753550593648776063702681020063645863895565618188312284850959850172339084915424354704704179250079985312591813311697207133665018552071563567265793461266039617207836750842782296510147498455077375215097758941556608287635979930997999225222243973293152857737655967235849458762252532354538574955661494096275653369257666897771682565066601804169392936522438639836914112903647039032867561515060027770120978086019982492853846429599274187539016427212022128426136877716829862324229321324169831122962644122806941986269013983378242630287360) (RowT.lf 132949672034520096965786036172516048205253196191489434196071007477463618768541846509592218873779395774650218887982588901239811603473001311825553504336522156042056150924918657864849801922851036541513519881811657635427017405403937331716977070713351014525293205114502379600032563200)) (RowT.nd (RowT.lf 606574983716875724147403763211783752509783248390530422515273503694970027553135670255559226047418558552756710177919104972696773790705638208463452180576192661663130330231298629839147646551085616246278959074124614021648561043047694316595183176574825254514060495520231976045861574050853037779758986061742481900576593308248600946994641473150114663873946539422215016098080943907274467030162772372042588248240803252643262142291775821213680603940922915095774456738973846301835264) (RowT.lf 463168356949686030860958168781543303872263764118878823125928130486800411000832)))) (RowT.nd (RowT.nd (RowT.nd (RowT.lf 3448571293176379778155741864264078125445642740950742481301790912483684070259686084800549486970620420203719313725833336094333472045985696377569225716178693701506492169367285934233613183371291324153098584612501348715862969825805436892558499414390904319950158049378585773338029891358004010604024629830329284137753714463220434020680554765418476387255696917061449972071896889895065694857796323890806504555976667359659364803362128448970007305727324806123865275398480443483122876517095477235279137123327669351274676181759573477954288149560478149203985114271476356032450843968647225424019348490830115845082169649001006981730749776761169448387256155022657739277417572834017619537559552) (RowT.lf 70688170371866331713861569338962850862549362714621063612269126582335358840528322837607881171851446533497032160523238701089449183050436681340341433594310425850342415060952188421371395089708255869303834012936927395720082315985774271959273749159315101102831471816577313300545865214090660310405299918007565366209806336)) (RowT.nd (RowT.lf 650107576789688289198719975513578373274066526745866247352159472126266298284633990042107785157218225449733749933251738544993476003480544507601528379880495981664625526899744668082052285000189032614864232702226881888150403501434177121407022230911305056164657114784905707951338006987757687414099520307660215421839791162203131093346985791276305466893109457195025161167619579363545445379583263949349696474836917671202063667629347873023901181914311445421357285786139236744576023137860778509478520609869621745584093954591162368) (RowT.lf 23258839178136341809619576417742906374742081086778464324363110342327937585989725076664096440965776298578396184071037590584741301667758080))) (RowT.nd (RowT.nd (RowT.lf 1641097966379123306847641393531096271622861749348988555976626488652512766401572916336420982842685106109115178939666376224018926898765062032785359375342856202004469753678341564842973715060358532063219734112324568849928585446700603565134174132253970245836207472688149627867029128400103927084240394243287493781671253614605483985339264764615703680944200429313915498796458222275581965993691165515808518218155175665943022957080072259615439975971038182242815509981148273018919854610466354745111479921546469348533832195155184911637257152655377134244054249929201517851197513015581958858625766234436429375066817702164630077440) (RowT.lf 1552518092300708935150294522437889648633696264587416643305439622976756746151251456556645591867220748156016147331200470318978325786328858945872542133103727090170236929713512875762754091549380904423954642174174135925808680297398534144)) (RowT.nd (RowT.lf 12154894072302831147873333984542576244997843318705957611491648860681929721882101538842389258900564013791118559674905969886014804461556848502887518353590593937968464902304378238331181153726467660866484664463958416186742204820148809354152938563064581376971324086426470290021723562938595502945749418671474971571252536724855070652624827579735475471754989029400875006142160665210559219347340553583471327959558774326072817691461156864) (RowT.lf 0))))) (RowT.nd (RowT.nd (RowT.nd (RowT.nd (RowT.lf 3448571293176379778155741864264078125445642740951575284206876397804892394334281103192884738511076616427958302701524979253544441824135931163769539003815290364016040221749573777597847824857396708876478066368030353016453982186852235031200605093539288412872926799767115788514813981709736711978502180608560014832951473155930126255190185388940043377901187832270323120844206294598658834355847339613689113052500879479075466120916066343028574421121587598660681190102502663658295739526438827280383143233538546508541195372271334712098126158420680083710291529166071784632974481086791395836277928773789361857037819963496489854048758763760743425276285665041598427369071743668819440827727872) (RowT.lf 125280926827197887123541960570700929297524886566030883547358151595246754020229614800663981446226666371632177892229500451918349254684183904323804224764482387300993790189548067142420368712447761597059190623442776887767018161120044366435386867528623921175104822073445278511514624092872758005995832052743699600638384450025601569420677652201786659840196608)) (RowT.nd (RowT.lf 571586789363147892143187461168389757315993314636680166478279939522256886511470874701233156813355530307405397618006987435323228351135111735343655999099318896800265281522936595513051724668925661930602239508103624501259645362007294037001812767673432518507204251091559368853871420404908795489513058424005487472379788936589493486571581962652618671968350189010746200307078993449145820292991637338097643663058790616593163005863843905531825737308781120892791028252505979719237276870904767928618004624720571337066564913474660505282482833382923019747328) (RowT.lf 1507839076453697977610802354351322715701133136961464757393880104953913776265217410891405378989929183096556424390072071688744535556819328708736129676237907809009664))) (RowT.nd (RowT.nd (RowT.lf 832802905085485321208325796791061305074522310793584657148061942441718233431737888707515022919126628717140751259460523809997362842990100571576588872267276757542143012784036976553968729726547218347219294803132368963052600941386546470932382820984127667998801123568199281609931170994824012331224933168852109962729334504837250465063246962097620644870394618720864526148117326781315778184755925394055911938000791475504254615299369065933541592909984327484306074199159284769431984598080011595137324667985610341547256896674921624563089726383597780025175684782459034677755297689717762967990488983942929354005957967529027079554522280886272) (RowT.lf 61937013839386756872754907506775757773648850052073153678624944779400874470135765534624184430750441679740413612033517723665132366908857214999746632126151731393354514651233373314097256684781148959734036547738799180417373038738181645738931575552705874393825280)) (RowT.nd (RowT.lf 282583947675046167795939405489429430515560611409434187501702887789860176244111764847065201994883175349423648984924772746092354216914455396504522451624526732622266354484262687490503241658096471748431620130598636069286191849384862992124001618717411697357304589226780353385484657870886568521140206817844419964779738241811834169631810281215524605989377807429503800775002042429177015840451031712954650351590667521564398972556047347544762575180799861063680) (RowT.lf 0)))) (RowT.nd (RowT.nd (RowT.nd (RowT.lf 3345656682091445238484452838367937170025564596452859906378743614656145028960362705893864222665643865030527827750683529261707906712550561629945328152456079589970644896691351950467006739065472695415394025741894058934928618065164912746001019399595334872433567682275979044088220686401274384855052997636288309602387991710421319077046605090984487468815394609175605669630550682136346890355433977160644317069837520685894800047734673503102550910484767643537208250300404512113673253139601371292421691263664618912097887393104184975846954978233390561110765106141688252107973400389570132772817502976383656037581147397255692042973217735944619737059537407183065418370446964972879233063516064443294285824) (RowT.lf 87777985103253694528299421377915505393877435539483650735149417468422418578474398376235085196787865927618516396177122367350617367882586672027435252842551434921403746467943977699475249464682789790519731026005597574126774343636540092193020803796704004352269543984599379347823124853671598530183052478465966080)) (RowT.nd (RowT.lf 21475838914359380284153747239908217007930381851849399923426724721360810852344744443476380625065034499109795305706691761564645881004490011649454209420756666660120272136899649602942966098440085372758307511796929317079633082062578753840030875648139682296643338092247225582714292531323813572430468712932457225522284703077584196409212442634489064043391164894407997597436341206994958527387717217917819473630010687400897294500188708161567487096497622523355664734361466946749804239129264824821532006719422464) (RowT.lf 0))) (RowT.nd (RowT.nd (RowT.lf 882156028997145577678488888181142286439966586329720218687355056680140131459204454999711535310416033342930846399006676285915552229041979140866480282245491686350982852309559749090349190806516182286923593022912426977097802471262270067430624455597822414365249475187413795059357184596515542832900034270966674602591394899651868265395208411955155532785180868364055312974756359829933283744426184326233773353135037843279266381953423725318443816410601943371726222051219899332603883401355844859951547113433497323687224950946651132602813637992341091845427389453353865287255416718867475378599735136333332480) (RowT.lf 0)) (RowT.nd (RowT.lf 0) (RowT.lf 0)))))) (RowT.nd (RowT.nd (RowT.nd (RowT.nd (RowT.nd (RowT.lf 3448571293176379778155741864264078125445642740951852885175238226245295171322074166538455990603857130825339397166985669050539250015351315785882944319909036563352897070712848057221626259062903935306034963771330221119365446343233221762154290271510448832885334053874429837948603590532168108526116630858893265773417409367125841132419931270055271375796768902496965493203383072981385629914037912908954957257125381968455029578970142266560742155089187617320958723632023826311272820222192262728382770621854223683074786902600625396907362814789359148896357321962413907553191502717052208834824673741420331408085349401399000723747427605073323844271728915459494328874918191140429570886828032) (RowT.lf 189403274020243256798906755603627350074049425557019733592409747737152041375545789063278324400089192737709513587308703316793882208780797690038593602299921199562619472772861310241007230737818122066935817290797263336771518841519399068360241498254556209691389804241615380405195732824792356336290495638403232032519450956768884619637383132370978229718547964954232750080)) (RowT.nd (RowT.lf 864141190500584526530072573867159186629326260851414095255661946683253653202347316276905445777554657715789677745901359903704339265540116651514317454370463484691969345338644566268595115685766057100682464068044630033286811949152356719949296170850667141042981951785863071575269615223616224337501992729031272513825999502849862831406445170799351946364422100247669052353212919937313118288583159533884784597556739006742315685614055006607004790257964611282848708069720230222118056477789900876987384718507896083682607923802128744572754148411011477564113513460269056) (RowT.lf 1404155555628801961680402888848840740928881193987911542834630065392615532413503997008058830716107290606670721354361549212820537575461066288030527035924617712131507115322769408))) (RowT.nd (RowT.nd (RowT.lf 1342395912810552758934308363786909821250274200286158345025359901880903340685018133940885632316009273323120974586956195115016486901431411528243194046106557780891633465736955015213508068207870019918120633062780414767172314326848777348138260413861407218202956238205420548421415816567287822934748248028069883023087103117105445101243220143432622777170204005096768912891526726514568687026011978900944524830626873598388260314670291760944392497866003121518941163301096402353379200044550927119268571391010515925462491369183565200200128615827495898789846448171028480733008550551381034610936954077287022790939247563223168905327992801768184802249491379686882672640) (RowT.lf 3437267884464228226389127661762667100629948860838284086941721130680517138052809470356973006170853572268160976707039909801633808749523239693936314453066899972086862715909500702809366645369128973071499252135289803164752614360507647258791537155015454546413150280056431443968)) (RowT.nd (RowT.lf 16156625486705046570326107084247656378758056591034288255519813572119147622572160763748574430620586961319542153418853705547513857084179920759784099456322944172207774814429342362010897696500009182474560271798000990167086172795504577960714233897437529529303435580055134667892273863188435692013187143388035798892200859761475638923871952840547250849985333599452485958765616087277388054520544856381125976307152032478349173508810264958336273013193410518288636681507569664) (RowT.lf 0)))) (RowT.nd (RowT.nd (RowT.nd (RowT.lf 3678588420973002849358251754395813325357809244276427182456485351157412458668104558147102660626933859643377034293322483626570158760175826332776031172230990022154589175041575901791847167822298461847607920608005307139315463514889946752715921979074811324054652851824733002213003478016331073482094424504629125076108190882660835255270566838651570141792513881368141387154906657436350350035539676321195842511561067541023887849052116268169490667036431961218634608309514353160074980828503673965023937511218828475036165546689582245293883184313750476445896025904787789759067164733460997748627433006760219662064701206812708566555616922919056035252114387176033199462411677422777495191586616490014245729366251143168) (RowT.lf 3016028602530220424423616947175072279884046282946940044262873870094168557899986907155806420290725145858317458703030992279801128581950097983465244519508619310982423685755752601643351626790917656785648664051061903529912944892384686243577057482126437571036897527739451675551748882227288148249930769854081271434097721344)) (RowT.nd (RowT.lf 23612934602561621820567570802431199892022553933130674359404232864807381602715114611520824733752652112259238117372476095209084145403306331299261217481237442525463098679206228963010086649609031413672744960589122940226739946349354698732901094604954312747050876333244489136066107287074051908506703442241410873289371656768416504083004914991127895018130624188631009442821361643528558200462006130298038538094434479786778502570818640641534901636747539030132380480242381226417142463520081541151891532348149579100993880064) (RowT.lf 0))) (RowT.nd (RowT.nd (RowT.lf 48908530609570803925079962293235676921457910868329490255889872875540132355001518143114104989896536160417222833141186880466008961759871007935443852231991108100818220576884650965737312412111150545212118446292958067850624505063813166591124712505972128781876165602224638278668214528093329751674978537522972832141345590556466631712266606420929712732302952111042475723166681867413776354984117606473849600740883843602914007987232593954331378831388680775446648289115893684187404262814413912520560958940414914815699590701659086234849913063846446359408576351973515048156628028308331354597191934232790960527937548320768) (RowT.lf 0)) (RowT.nd (RowT.lf 0) (RowT.lf 0))))) (RowT.nd (RowT.nd (RowT.nd (RowT.nd (RowT.lf 4447140521849672011812205411588337949557146495377756888942049758405539515837684264118275101071716053038804008078701063197761264512530254498864270971087372470355995040094525939810035236886213350750442996321050413873670621914117447790557490658087364546337977719225913559241127049724065958357123147679645010062218206674613073704529774034868998581461292690510115579326619392156827914011399168972280022174349574402136471100490586772646280356197818543060983012440221428673228498418239903461472135282012332306048899066836337941328828320975703970294906987347752493829533155269293293156347803415253090157390480995981765108433760310360822296967437905218882045502457516266049779127237340361845676503343889423865688680405051452791193600) (RowT.lf 5299230305547512149448101533749736738278136450018418091116725244956468293791618944734803476379167254307458638804139574765038681756122202425899881656383814136870517161991028723490707074797586142887342424441362997700717651509231605757477412959560614375288978715100635569875688892523953046535131386316979301169825185886551890023344272626740625408)) (RowT.nd (RowT.lf 24177423588164445612533049506286849101459674717978706827002732785118595087840181601942150361985356899956529699463055907800826784123833587952316064427323091805601046555298651612147213036878652300655584584424944729402620071495184962125672132158701521698820009973610805342641654213217496167026749831647615792367992463362343212157898372195596488175111075305018213134321018475698657319059939707692097322309200090549761382281923531453053913261213217232772087827523429397861079078810293639328013250183182636182813979051530104578314879167889408) (RowT.lf 0))) (RowT.nd (RowT.nd (RowT.lf 1172586490360363332261322721881814316662771383802767907731932064223347634750313444952614396157451248287642976197458438248635494330025752551658336133344632498559595513834902651202767952624330633059778577001852848101145097577679890466086319314239168139552064652759149980682130086045922669574651084690746063610090690924221820935703989333510595628441907962304318668208567264439525919842479828090591009935781097604392896366738887658924954914310231218268076040502971467906618375331410025180137276459787295493124743275369084812069376309571798521643512738991754714074837963420823793939886372904686012753703150613846033447720574720336199680) (RowT.lf 0)) (RowT.nd (RowT.lf 0) (RowT.lf 0)))) (RowT.nd (RowT.nd (RowT.nd (RowT.lf 24896115882272788684595491948694069573240087022058895243424813896324917831059645104155731534366939408915346474253051472431059905783365511022815523981554810434376490358276611619051525813885712286161068434763392701290566415873100911915196002056577882201068395838279440002730475578813178747509796714358710747754636059711271632286143906296259164792052635204622624124878954570885084953113895422389030690366214880408644271193979814529447282608670419001807163997424599842984364466802249683263416737639843314842067088024423719882468033342676009548929657811829971869143849771185398724408901632) (RowT.lf 0)) (RowT.nd (RowT.lf 0) (RowT.lf 0))) (RowT.nd (RowT.nd (RowT.lf 0) (RowT.lf 0)) (RowT.nd (RowT.lf 0) (RowT.lf 0)))))))) (RowT.nd (RowT.nd (RowT.nd (RowT.nd (RowT.nd (RowT.nd (RowT.nd (RowT.lf 1044682596988680555460168500654734669897617176981536284170810519636436829153656372626163661491532822114149593742937079145402849302493383200533365734270263003889861346288257625052081848042577182348512299839631136398680234205661816051799423237501743302219999844796767841530670847014532413177825500792911185930595002291912834795329781209249218771544333563511532339068484144648686185086906626884101324626646393997929050029992917082106866555548401743352943815587385229659575448177772220636272912952492653976285706772172031435988439610683451365093427652466615275528616388733385470640608) (RowT.lf 113942339071719105303347938358353550886384037265585232336820250884431961869364194793641833809531415931593051484724934117066363937396618888898979196836786025371964227109759339396454836151182772052938801558863466879113622815754981813894084084718236473291678009210354219543720453274766465500796659788631385199288908885990933647794496893616128)) (RowT.nd (RowT.lf 389891366885768775466582622947024971231264057229424952601849381611086762524978627168531610172489985651223923527569805373634449742963857818714220389844412550179410365375669281133161861314832366625104859368002959524161146009547897517350629769384446378465208046997300036363184205395283619095332963160208247285122657498533601559931197724413389300805694285582435508145211298263699460195557515295536464111670487920716181777378082673592325566827856218507391398874062131050222734203439744457101486622663813271890377470388035608316628434944) (RowT.lf 62242792894137825756667124122173001533989353533610065685703683145233297986535701500895013541570146092675989158540419630873888527619447882263501381482507360547737348287122809420775424))) (RowT.nd (RowT.nd (RowT.lf 1110403873447313761611101980892637959502983561985930929559025055048207876756308807246623170015139494012037793370473248814792900852715732900617351022519374381302159045516315177966324603156090502019837183708217797706072367609681178648503971827699122367528935067602124091760841937448086109252717832564557981831031547980433971146646680834624714409173938586397204595482375532578189776962725689185368532448716939481554212044423480796995562343647779612277090578163565066488257240565561695353167608366653975183951111714497443263596123852144579662439445793386747031863906151760444405358765013482768931058530401280147713050853821846126592) (RowT.lf 132949764890022633564390992235612221927347330851524703989089405123714972291358442106767940554651133211162573372250274982385585773632703609112286577998327984588203555348971531187501492276947781491344149868492540223177503273854845062061924761026527431001248770802338786459202355200)) (RowT.nd (RowT.lf 606575561702263474002736188758509554245114285308651860272143391016648305003348112091769280309535220278666346886079890524172636952029646051287095938295951744570136405653264558100934967086648091227027125808538535147683259337723752607842153769745412472752957331834557295427965648081068626047346088586186266157435367959653308757583449555932367968555725802937304895596794158215193635272951724188567804702701657244728641765127603036056307846708068270193662423369932700011986944) (RowT.lf 474284397516478495601621164832300343165198094457731914880950405618483620864851968)))) (RowT.nd (RowT.nd (RowT.nd (RowT.lf 3448571293176379778155741864264078125445642740950742481301790912483684070259686084800340644307731801660403187415522214068929101749578549574101697692451860074248118994430137833969133115837744324799060250993808980526404384628731357996241953159696719717164503811217681927591274045065601875408666093248765591470456902934453371055705397431814095085523239638650232159602998020854234379105921889012307229075639311244830410380056864707272801067831822288980302994990305357512991579036974623484339492445516160909020838579701178364780784039845476951825735793951281400607368129940078276155842136418130793532840948879519835057176810568110407186380032485667601585994686268868876465747263488) (RowT.lf 103630139001333125227748090657139115835919119619307662026002416571766616411349961174525218471978211743725411121038929267511703089198229199909602349661366349258667337207535766378698132905250762308385292118772828915456317606016251106265698390972059301879276735145676908583414633446206634474080812842781410737889771319396975771648)) (RowT.nd (RowT.lf 768309799109566323385330627630945385469688180851444632258735068004808611989329601797015394724950729315587131715248165762596930786172544127774454951230205583914494274699388706693404533588759170502258923955780721312523364013307321330797357672232676136054663909671742404171300606792940275640197640791901440225866801675451276612141617372196461797850482540200257980350893450966006852578846987284504118887098506591947369026202925328251753807333622616403714010990604905725076215338886579634188980247421832136091733049370214400) (RowT.lf 1238486668521359222655052611917454894248406245564105986363801284031061786030790803880736674189008014666718609811896446092030303818054297976832))) (RowT.nd (RowT.nd (RowT.lf 1388622678975998436259526095564646714686969994091460389242413818284373580095014025917034137266324319430065180093679694350092046271372785672563979219431933643921507386001238541188439203950211619193063187708613315150206494317363188982922831294086922738572927523759814616470886652281825292285808991300415182267722519867376616315730444066677475629366973228133069915196343251700023352869454355653744725990116647833591450639249377335716651131518823175514623923345081491036751835420175512838441987078481303453254447715181408889638927160021445063200828896027867924309769947440729974731351238587957190348839413533273533448192) (RowT.lf 2308360555215537212649954455036809605014988435232816969771645989382354852195443780381922552115373955295233124666714752588456542769356804353110003133576165532402169584803381473677445679384727193813060932397441265670273195427658222949892096)) (RowT.nd (RowT.lf 12446611530038099095422294000171598074877791558354900594167448433338296035207271975774606601114177550122105405107103713163279159768634212866956818794076768192479708059959683316051129501415902884727280296411093418175224017735832380778652609088578131330018635864500705576982244928449121795016447404719590370888962597606251592348287823441649126883077108766106496006289572521175612640611676726869474639830588184909898565316056224628736) (RowT.lf 0))))) (RowT.nd (RowT.nd (RowT.nd (RowT.nd (RowT.lf 3448571293176379778155741864264078125445642740952824488564504625786704883029467695150078835955845112106803840027779654953265079876558701186271629456859416901310945751980984134145378567795742010122005261889734540711655494765054989489722155933449193463170411123493356435263402969122183641922526083409345609990884228210234930991515521182002795660178398811309295996127148993830234179243460687678604317396453595169095839105083331029080104566225109242206770395863019378034820574989331969834657206159964652360528447244078389301042768569383058757027520003513800145699939443086471170190507651287982986208223483833622663780724385594875600678591058523427167428505286465735988731598340096) (RowT.lf 125281046187723066381034159303341719755171395403470290448838164813637477037813793831365136020576134800205819974187941939044141205293446878210123599459756148107620774007645145308187083226433467173514772490847262099848884077398443115084004081463284198999916482988030447211469338043583181333751482290093602121067618100340848797497020910902305961283682304)) (RowT.nd (RowT.lf 389891366885768775466581816670575746962599401704287198733568025811947407375153962542914136558810547562034194480041104310565294453480950859010576199468934992807440812674025699445548636263725283608060537225258327330076445744511388864529438557280078430097296048787738514363359835918437668623639079541776486256234384463464629979845129957977822093405968855454805148497261360384075636213235782990507080057965939042805957663905353434139243253185522714251263769045255714022743793985861743599121951773899379013428451173483979868793871532032) (RowT.lf 28793048285914444845608858767913660459153926940099726815631860250823483106530132621921457077115449988541599702521875392166580595024301329996161806938886809499729920))) (RowT.nd (RowT.nd (RowT.lf 1220904153563293897111295531406115471408432121657595391011305687560331257004674558673696643738780496059434618199441492567046787269454397034903156254597984878878246859580930752025729405958712684003936767621051734653849408428269007032714647930765688348535513717702045292831484073132992193986345963632028159333708755471496963749079798278853711682104385931975901101865434936529506088737389110847499759027621083625450581681835469051158838472999455987323746862317301633359598283738744145176744368279395220091274449435548715757994275905807930411169928679032529823930814148677593083001013359753198913660374813247106484064749274356537062999659118592) (RowT.lf 2790636676180023789304236963877099456983263039389481308564909514293372581081485669338681081468735392792027577148522985964740491894830360089703019515173211583778907426202359884737620419159848838523816442960426515092725139558232158253716260807928663770921011511296)) (RowT.nd (RowT.lf 8563149929305185241120016591865443846075205333292662763761115466862051701724785300418253857948394033476559906749968650935199964062426279190103137129726942427549403483866580571990327546874751762363878218325307390162249081090414280793017017539435844484594447688400772379886391349075409156918193466751635775007165927556343457714980747355936628071159075055062887364265963601863043429598750310188196053585801248820921794384608488807829317588316919431168) (RowT.lf 0)))) (RowT.nd (RowT.nd (RowT.nd (RowT.lf 3345659869642405805692972867724144281993419126012222760877732825821151459055845086409836305921618674472265735126880927830051523128715034528793856681681752244008004989677923351433318252999680050784894232800661210646531044948400166408919419499303062533372729988919782800069918643373564166340192532432613286823293400930263455345930516837814503193124597731579906173062236371819522139339163962995766701670487861502477849150863633261474961085608758917338823646144859082789112023208031397477127200208685876974882134765358402485203244432396134487695358981154652231313450841359578233707302184384489959477618606308131698151551527900929149104097801776247900232411716575108055541577117697630359519232) (RowT.lf 4820064717853835507791283733224315708382152197987697883932470740768504475457606440348475592150050945452680172159894958918399961289331456407067685457356332821531181063169161396075784524741630609317204989181483464353138870248715237631730927491579223629489289798989617121473406074156982163879943863894397195124736)) (RowT.nd (RowT.lf 410093408837755532702130557606225815330734137617298067348074076515929768803484500601929842317187700869277701486234920970276035072787917830998851459527477550247464214985292577379548719208806214803853563490033374615263441797807858645272907525998364851956891102285447781110468258839129335449728589760816223974885287412859857051108162590689702903234720644869132003838059948164423036604631451009986610077954731682918372577746686966405438031322854651858410653929358341118716942600756275993879841603500113920) (RowT.lf 0))) (RowT.nd (RowT.nd (RowT.lf 39746458797909932658913460841055135181378972901293955708177462161535447349217357697624293572602007355799619909604946743045565354681407947066316386144090874054053343314588644738570446444011167912359087385160848825069025729778576057434032516151521757712674596939770619611704004191304410367642387374697272438617440322846527376200804974084892727064415440669607385703207705461151439209391930523716126283947815593860898422795603294136035494395272913818850167922798702558191132478065513727498050569727016822749605055210806610653700566597952151100310090647865479517995628732710309372876488396073344062980096) (RowT.lf 0)) (RowT.nd (RowT.lf 0) (RowT.lf 0)))))) (RowT.nd (RowT.nd (RowT.nd (RowT.nd (RowT.nd (RowT.lf 3448571293176379778155741864264078125445642740952824488564504625786704884751663738060311981642382787026529467358469979590200442779654948223056407448324293467620320597210268571090448278344899683138103709719586217214034382692993120520092407388647458091515584880192368751344799492999041288335292338797299302835886748883954408465733147744808038052332273733881486075132157636901231939520224968784391815325630012204756782481666558032772852981707858101407073263246082303487844901081385172086808281387153021228700570127123997574015192061114446225608371871153543916860174401843479614641971123198611994162186068103206242679045232066331498712606137037452328457483195535576933721838714880) (RowT.lf 189403274020243256963027477725106401847306991768865631449469002251981718785061317862820758284196236930244893977443452870641684457892421701607181308379216491434809150039136046102194752725500544740305948219500555322881955522394797662145838931652208747415143844351353420769085270277839467767241013784843723111732344339640554528188442978954790733160642677693520805888)) (RowT.nd (RowT.lf 1021257770591599896011287287806104732056489277951549100204261994935211531412157473951182363406261939819185516661438224834891751869458979954089181741820690558860718602360862423233630483505004314033655361957571851148375751448145179888693284223843509127225393902273334288693333554931310268226583138537938397116472867966100616112891429200774880387026161342803197119146091657016135384499733083763488996138045125975711351381634913097860888716894117936718965128200498444939216184499503068222318349875353369421374184827135244058652313257372999838055434967605837824) (RowT.lf 1646232722173352504467908674123970272788710806543807579988469227979235986403680088068757561284011456413570193279362583105087756568484210532265196691887819239657155688028558065664))) (RowT.nd (RowT.nd (RowT.lf 1342395912810552761116337337408652625061512602631214840838916997148782327539218671209103745651430100857875344731397985632198093234616414382004189004864749775638115471514451507123362803812018641788741100674969970721136290290447051302246360250023977637933978037315106224352601978408976570660434422613981897515224839235635633499941493901544724074373025744174514646207710703407263784437997659241651978799509501309713420805426121813785099098540083708811091661598197367086231038840616319652217411768348876567849550159676698125986484093000870352361775168802277464684975564393544651732683934648145587617523225651351492133053497244137839523536492093824521207808) (RowT.lf 3068337474355398092766398707213450586050060818949203997891987255563527257969600990644090944853022052484928289235856423517137744730696528166916748946051398115002839155437870758306691857908200823735503590010906310243185361163762241216012426004076343877118623947901724467920896)) (RowT.nd (RowT.lf 16043039513586392909589256129724458735542892658326505660249997060018353198435042103653429920458495306559914988365590559868012247410859242610997744047400996080085899986924097496074325510620088061849083935122453330303367934030213011672574992684694325015025460908774353310301774652754445603508901955369582753185175858390978915972968968268961720243736337736735597014166323038820559977144165035397383148789722668868460546880501614424389947670808853390199380354609375608832) (RowT.lf 0)))) (RowT.nd (RowT.nd (RowT.nd (RowT.lf 3678588420973002852545802714963021845387165451388395036986044714011911447879269564577198144570759282483753888124071075663015007592176837747012285974004680260037687717432636487729901780679418478462905861875076839215390644950632455291564827683837597744513488781525107517947145906277222812252488390539883980294510891460598902440522056962538877736315638202095402602444949289839183263632879897191001704660548771050561657473100455235645789200853238431502032434488979080930096353156926958880654924815550081263426282636534625501775289054781130727385158247603251186362656234332801307594290849217607596782727352136650573917485706562113350245417563887002540818122507516647254392829649387794072947737107024052224) (RowT.lf 5139124613927412780714521097991393149155808156888994470989844891800752373601513552937530093201689361989993531252141179451306598488343684840334387538005656621982976991987266554076902471149072702752588478748372192256729787580901851157013058403008697237680529606502243484330558431757343701675691546436465193484089198446116864)) (RowT.nd (RowT.lf 23446928516870885570192672104512431852548692690181402449804702949120837995222388742569696592668045075699220701171986803605965761667637600235058878671136038721551819336783260126988538686347240645618567545654454156911375065828422741968155744230712644025769839024227481223046659841415716015448585132945170331519335041642538954175680958072324899339917869656055754380338804986498836390469172102832068847312421332280814548454845613013782868449303203394304745133501256278840652875137071717655954424898112119428372634796032) (RowT.lf 0))) (RowT.nd (RowT.nd (RowT.lf 51647408323706768944884438887058848950874542277990360378128087948085854619819050501038172260435014970299041895699053558691862288917065632965261365302599840584920185848204337189997036994695702551081554250121915593462945146998654861815799190278781764491199337386400661638771594687901068570986090450581342106414488747082616569178977773693637288636817608556355775085907436001760957775094220116592014585897533398535472577900259139803403380687996091331888781691419503461361411633082191521856859911146472727980536026634262587161427678618451504136388410291770034354487646430811339742102924141031792184929994464072564736) (RowT.lf 0)) (RowT.nd (RowT.lf 0) (RowT.lf 0))))) (RowT.nd (RowT.nd (RowT.nd (RowT.nd (RowT.lf 4447140521849672011812205411588337949557149682928717456150569787761746627805538793677637957752733266222163975585879474987055458430834018794813929932520394813277466760140986528618701832225464233502906595413592379347350185840191078948622358000469578925231649711668277773581648900175649507410738173088953019654234816574147096717427068426594281252029599595288210689637702989271836244974122047366209675995347773350750793897749044754115868362490251261357462440910469637018206424386939785680413897714810137002593550246579907064772374198674075211592267990982161954460496535911198830070048153375380560640531500628691732569789157880769387731632962064069228819860752632279493698669458693889746410423547348343158170107385510775469637632) (RowT.lf 5421283060314356220666941677400765443002243575728637563111803000075476535682157574608663669148416278051509479008099028019795208550534214143128329206341324618163686725505548806259715547317047753746409451814242695597142865489644684929874263086980776880174894886146691405534190063326429052474497313157227920188482946609509791346763946537061235818496)) (RowT.nd (RowT.lf 16635364987126134419907490844611231857889183496629150560410640788945280075592400643482044888206666758579839665438512223321360982722704051022439088837799944945003843128271606237819441134192006242919757659576724407481407807053486138006263147811668333335027212471389408736967791237098949430767816765546174837855630384014190378355379208318609951490013078256450281155788600041228117210185030893909753186299922430065559618520921984938220950794288576067090888725132348781902708335579012310405873477121048160578120402243255034880777485549568) (RowT.lf 0))) (RowT.nd (RowT.nd (RowT.lf 60545886045203723954861942972176794467435169624054469214367580193726376646149662223827887695537319622573744207088878165944010546037771263664204941354218415969040973016030709735108996813340628722166228599987733508866777588674769858027182050821688905824363347149910572157278250398589518938072645908051981604335972864240906238637648305551145352458138779371814568329758686610814169974746902119199833011586129357662962520749344168725214277639818312202755287093214690687955163306435672952277703731493397534353597276621790683900350872821656465960217013269146109840002322826968634496852221821888578911231647379434742949993146666138815707480064) (RowT.lf 0)) (RowT.nd (RowT.lf 0) (RowT.lf 0)))) (RowT.nd (RowT.nd (RowT.nd (RowT.lf 25493622663447335613025783755462727242997849110588308729267009429836715859005076586655469091191745954729314789635124707769405343522166283287363096557112125884801526126875250297908762433418969381028934077197714126121540009854055333801160706105935751373894037338398146562796006992704695037450031835503319805700747325144342151461011360047369384747061898449533567103876049480586326991988628912526367426935004037538451733702635330078154017391278509057850535933362790239215989214005503675661738739343199554398276698137009889159647266142900233778103969599313891194003302165693848293794715271168) (RowT.lf 0)) (RowT.nd (RowT.lf 0) (RowT.lf 0))) (RowT.nd (RowT.nd (RowT.lf 0) (RowT.lf 0)) (RowT.nd (RowT.lf 0) (RowT.lf 0))))))) (RowT.nd (RowT.nd (RowT.nd (RowT.nd (RowT.nd (RowT.nd (RowT.lf 3448571293176379778155741864264078125445642740951575284206876397804892395023159520357437453050220386108388791902845168984958459726456078151192579470682163872932512389060585706059374160272230393252663283184328847315345129068890011011100692798583432522348865867282832370614992057957378896206754190685393435805497765212905004284466298909760934660340167430790621243312386180131190308355876555378874056998747281607895395499013536686907173199343704477984166240001856988596092093713019928786880494473007894069382669144683779770189822300998141029697595471503743098561266651750642286869451568206525886591293573071779767223976156360704556127857964680807779139458649210404935789640155136) (RowT.lf 137747835651211285871249542500335185569009424396974321598128229189941650374619320296764601171238536549930376702876847605707421869332153347750208191614557411452037620671004693880389502734485274300666520593069045269575900417006350804373646879999901673460649600869000784962094746587228474050172836660440968259817282180159322273088844997696061892587711375373563330560)) (RowT.nd (RowT.lf 628466320364633060628134290981592775283426311317595124148718363871271948241942558993533704276571977088497987691607930540902284655866649475169394596545603634718127515401731552843150526262041370456465073414220782990249846281214107512662206035916801309022618943834001869419911466094596146206225888555054991390081325586078463348554518528562239197855303297983747950945657693583176831520293361181641752785012134182555811118255210880660890893832982015600779695757181546898431157470401357628498472356057257934288521467905019711184847969483502656193752184557404160) (RowT.lf 1726198476656063039109887432498055525526868752471475189625886688369516071368671968553833266284463007141564226877598379143889180606849603091286988644726554450466047631769186110309138432))) (RowT.nd (RowT.nd (RowT.lf 1342395912811773660903554141679103400317668833446173468246599577462598987034448328743961230208152955524052421206498724787107008632592261130605232626297669401491510053228040706464415588747552348939353959034300596687241619936552452996304347189571593529447748441350201291864556425663589470055596318359466912735037374397351326531607732084440128492841776215929488190182530223811917870221484949976589066197241617901582149722281601704225319309512233284213451363704853544697878466497762846454824960419154263217996413690703437337553550453980841451626669367009884446297944217394582349782695258182147693053064905362023132180633563342704888556429971313987963322368) (RowT.lf 3687137567563774387048916512633811408511260626681995579367161339646768689347935031571525049510930594574225080623799011139160723460698886638269277878546246214355768071685878682639208372256598090066532399766602656747582993437600756716819071477677484827342599932368366277604791025664)) (RowT.nd (RowT.lf 16822346200998365531565477750600589164006641032124335780548550789404487715979576010436111794900726521592507344318084142317991422247683633998908870719484370568964291465455094760154686102185319229996312397452228792008432411480322244573400564487505138240755778066136180309596315821546019722113162096121268610823437088006899460351081420633213848636902050157367245631739179332700893734285640496789023226985464994641979716993942760174872725973044139686396848034988467201855455232) (RowT.lf 0)))) (RowT.nd (RowT.nd (RowT.nd (RowT.lf 3678588420976348506034014057025644657662150172848509262493296796150987486670018592796514639009712094137018531521745377302225655354157372550512607690383048566750854375092494792491247036467904134407301672498846968955845007988287582835130676373113820047012977449166843165747888922595353449376693191593048975601846466547790378438465136297859058152342201424701869136664278099129488403484761919241555138105135097227663310372902571406887294722043748297512888491000902077875259276984545943791778038700959609482092058553718444574757918650924015770692023098387638027453149240249501515301092538868457481788935398593768061546602281015668603191219280716780177961489615188862349067303464955214756691849557217116160) (RowT.lf 103629953696359065199007837944506723480951872517765890724607748200942641391294428780930580101822847048697217447319469390627244994679189916423017088970350128916726447693385031450791883190205715264194788372273570722862967203702601199122120091101881112606474539286921298717810585764841630515019659595685416293143512017476171857920)) (RowT.nd (RowT.lf 25354195470147230886014403851682951323576470058948852039740439550055819799806947568083766445263167348423934684509134064512927065897945519366017714726881334404567785751329431803569185923142200302414508800481065925939423183843563661828349471518463238862734387056204470315024250493298523328956557775896455717906169883592800356978320181552451053405214190004998427420276962732178604372293734462096628263999781997193758393391958280497393544977193367138257282810145742554752775451695272568804453372184776481659584314920459567104) (RowT.lf 0))) (RowT.nd (RowT.nd (RowT.lf 54156232830439148953151145390436619597512224043686020123856037948252073093831380698176602516157906257496288154824530784358878191463501013152181901383538930441173268795966711073338333063750040998202891829375837765331001170459261520383363451745763867483123836399282460178536563671460550877890310780308781380575678952460901751643415798028579413569639660709589313216480475612982498059977196952975588286422091980902731693844342127778493503308296189464426611150861897261500503564570792057222578738190323787214918544664048526595381189535021404401317613710103055543291238343834431381415315784106552522105153875159353640615936) (RowT.lf 0)) (RowT.nd (RowT.lf 0) (RowT.lf 0))))) (RowT.nd (RowT.nd (RowT.nd (RowT.nd (RowT.lf 4447140521849672011812205411588337952902803171140059518773382062746468087919764300930940996615989832845032234538261203206130420963052989028417444697220564693465375845941032465998110339039159848235476046662132794353788599651791319739788275960374670006284002478917416395730097793673505452271167494127380020154236246225571076036167849213998535488811435663708617032737653039418123489444149853124645079022694587863805262785731568510365715789428370726070591999783547163451675768844941255314715549962967782678900715016434225744691254364994684499651119846975793437971618673622214767334180501507169180167183530286494108602188967928463300416027412155501883167452345872079405785126698612314934540595790176119801222044578525203815989248) (RowT.lf 6718189694580361559328215001293823828980119514089668613491066994876352842404613997912759692251442334630968252671486794094784985654356882549334011440892911862481627811710276815162498344164045887804441768803926836199247842944684316399325402587017138856510651788482583187992789518543579289249733647121978035581097793053185239191390747758683363508943323136)) (RowT.nd (RowT.lf 571586788630477031870346970604104760155869723445801368918886644581241964628968098060532690209836138502225366157908088182021727089360598486979857425767829266418827919253582894885451645439122821273863844286475001281435538897495033964238728325741535727846750384054382754833161099925879502403455584176721402759831595601126156535105517390559461355217250647680942259692222510475865440213645754055113636776023918961741846585474775330942630323435399082650694790000795054038072461299127756026912663995852001864412124859999961429815512009648738580561920) (RowT.lf 0))) (RowT.nd (RowT.nd (RowT.lf 1220901970418364382553941389749517916956707331816664291168235416700055189299948945516599209017232969103876148674595214280203192296440515113967403599284313497058347488623888974546234867147611920620466606413571921754238554170892948830662079933945260646429301615211046602631959377653125499831353416426900269632090351450989447024055187172391931783775064962927987079751018613345146856261912776270780175874290612927858525291305128473813239041099885390924994614052577346602934696398703513212987039308301909859354946210593391728800326291894593526380137172131398118745016505296872033181021041191323446601383464904180792773231016584013496751837151232) (RowT.lf 0)) (RowT.nd (RowT.lf 0) (RowT.lf 0)))) (RowT.nd (RowT.nd (RowT.nd (RowT.lf 92786211894221753350799554931637176456331395541874859431294173752388174644906658460775409415952873156941301817473112990800186958921892832659530026872341503092552710471893059669649831426422350324664121741177017386116901062031151067412291009313271002741746085465710193953600839080204715367858598545419287121837635785127613344460515508838178655193532259870263544872678287510990394770712300563631280799264423562327746009440895363975911756364002735634221909189096002647145209859613815958257650287829742199206245344765095531506985585684643025383072053293077827943642320451053440077856100243220284041387067713552919818583114766310449865437912985495844947954607982946162921480391103837029355487232) (RowT.lf 0)) (RowT.nd (RowT.lf 0) (RowT.lf 0))) (RowT.nd (RowT.nd (RowT.lf 0) (RowT.lf 0)) (RowT.nd (RowT.lf 0) (RowT.lf 0)))))) (RowT.nd (RowT.nd (RowT.nd (RowT.nd (RowT.nd (RowT.lf 4447140521849672011812209090176758922559995847300368676102254582187775195663778073772764104612478929804986682210664646463737491922323005553181306191769648067880838552231380909763437123303247838607608999820722801428018231251362940772993875006443058877694358854272680565241215157675925128440942679855936827069705966779072211928483995719477065999998308439717373049404383289133007640150524879986801624976863120502607237161244761132291872334102006673422858198899268873906679369447277516220018464034003971226375601200592428626400452968536891259193356623202311329680715495900801740270476526848240399869503600807335069562219517695352156245353697614375955862116834252651652919156135952158655854695916289867972212592494938017924907008) (RowT.lf 6250308042668027474358463117130025836180146029907162209145400193535865253403599552924498375319686944656482847655955529582383989353424267470074928013028421030807994233452135736148313142570799875305403043971381918024285170005762931582835456911887629373385436048951052185889898427384353361688235093213301056756112163602143643176764664979706988798746659262887043792896)) (RowT.nd (RowT.lf 33701506429522796534643391178289236940421881844141372718166925420008305386016150868925675426750209757872553440869221960249180657782781538900778002932335025288514317546162365343493976358168645639228770374593956352461998720008394055476382887383882752819782446981096914780081110466659210025730805927527181099184530701393758118664657494750664102049130867969376501241878498305426242522492950550279483583890683737540054444199664195468722079341471290219848185966122430746576351740271780435878352727805931240432598636516126729485236739173385067918461731343156903936) (RowT.lf 0))) (RowT.nd (RowT.nd (RowT.lf 71985980824465891697789404253121170328968577843728232297834206673248055417311624171779408285621267309188131022018799540972641143414476112416097352827338590767420543444824868162657761375168713801171504847321557224201425273887535609864897406763905480634717752184114928170826016386179654837462022151750649399772081471761000200166600747204123439707087669316644887936744636685726727293113808595985984899410512481185852977058165832073751568616055431877684544817623464403049277213053919961752157095765055831161588484864789249038397758551053248008609216329146974165004488837824893116183783867256271269783306356075423019967657516495434458507883634120690956763136) (RowT.lf 0)) (RowT.nd (RowT.lf 0) (RowT.lf 0)))) (RowT.nd (RowT.nd (RowT.nd (RowT.lf 102019518874984612355446400993980720286137476093540536264193442616793295871234690831788053054087133264655663265626161617767516284398802306064100545325217358280003216797558056528517345940958871720710563223977991873918671190389842155847660677015028043371084719303394580477320045061509653354758455884444199841479383806452213022694318715799925893743687394878553117243166001604065241146600517740434131270283711164421362387371354138772321179905964695910816433956730149257577801412834338274902144582494999010530711200259607900123801543109225262967899730362774133190657991867803344632233818747154010598826380032396999622214789851696832853491791091725110643657822888433125786537589943506336387000476207448850432) (RowT.lf 0)) (RowT.nd (RowT.lf 0) (RowT.lf 0))) (RowT.nd (RowT.nd (RowT.lf 0) (RowT.lf 0)) (RowT.nd (RowT.lf 0) (RowT.lf 0))))) (RowT.nd (RowT.nd (RowT.nd (RowT.nd (RowT.lf 123334030472630903794258496748049905801051529382695463123490242847346681513520847658462374164080089644867922922707194886516631726148873292356556583498830751704456780212638489973969638158699857410321065741354899241104673121840103996248214080326154500637253958925279534242077127234229251949193540341561820904209871390762759947874314558588912085107558398740174870701383777714167834618829037114192291108119237249088489319927434343839817081286623888372568400000830457908844436025962305515641950570558609684932681248064584726660182294684414538198086091861211969193713577080817115322761330351068511536055873861189955383920758750880617582757282076820433852598685875519071052588131953287413978688047066829813188580044226984067689611264) (RowT.lf 0)) (RowT.nd (RowT.lf 0) (RowT.lf 0))) (RowT.nd (RowT.nd (RowT.lf 0) (RowT.lf 0)) (RowT.nd (RowT.lf 0) (RowT.lf 0)))) (RowT.nd (RowT.nd (RowT.nd (RowT.lf 0) (RowT.lf 0)) (RowT.nd (RowT.lf 0) (RowT.lf 0))) (RowT.nd (RowT.nd (RowT.lf 0) (RowT.lf 0)) (RowT.nd (RowT.lf 0) (RowT.lf 0))))))))) (RowT.nd (RowT.nd (RowT.nd (RowT.nd (RowT.nd (RowT.nd (RowT.nd (RowT.nd (RowT.lf 759769161446313131243758909567079759925539765077480933942407650644681330293568271000846299266569507065630747197773139447259612972849207042710906618824505013658898958522860372373369498196740433552655009391185337564545093288307454838846995218587733528488471409808309651778885233644719056819900137026419366667457901822092035988252285535628942032216535303177946370160343678713421645409821410264142054682980045854605577140834008759226664835924194932587645796719526404535459033640041056567864387744498625917705072786955170824424348611107485198906030244989977770398985556749334543870976) (RowT.lf 85456754303789328977511059801020720867849801067447270863824350617145953810582985421783494660534800015545870474882655300869622791414045583181571905136740709288158096367800960183062896500458929234288737546692068393951761001585941977809065842608864163811260358990234697200711367685647790101889898694053603116072251717083477000410393919619072)) (RowT.nd (RowT.lf 714800839290576088355400588498784967081792339070451552398528570684713030054926046555832957138725599814792506988161388362158969052111102756946791072661888707452602285033528284406914276557903943781524977347854164034561719766300832568776363324029015176863388484303550908800930685942718810981055804719586461803930882089007428963693118909778239845662595852255710393296384214810969518362398995131078531788101811555935327510314843633410391156723501641053454705948804551754334381054464435399435556213304019512489786821600113671575059824640) (RowT.lf 62242792942806845187192192086435220964016218932025757464831581409045029233096773554742769016086064754640276709926850864224088614180808440329363055893639009054210881553012156952215552))) (RowT.nd (RowT.nd (RowT.lf 832802905085485321208326485669478469836081204841772420932822804630290461961123478490897658305742586103409577405322175946371346210148928974443965837417005396440136648415793271741645518880264782172406663749645314641080582238492079690139676024597424459913688184650842707074231666916010777889220027588897453512376223956186911406067664573114838723421317069607867582508647141083155707854430134711217987998525157974503590215014678655877913795135962330603599113297669407622032902590585441982163761419897015873100100014190885334190728056387918784345429400389873518137825881526533038505069699414444159977106897739831488000668245723971584) (RowT.lf 132949739652866650310033145212785193732692358840369665295887936689897194697919682466517893009055483857941617962146383403253561034789444096403921178734695583304701605453097720774062917956508152122949021228076979051313330581443771616373461721231178963867029054363044652545795424256)) (RowT.nd (RowT.lf 606575561985898871897688951797454885224521222372462735405392001520575411160108580686457913981603909126534908125650041180217628406435963030186531571461272620212731116160913930230537941195922789355376704637760300093153679566493715106708429994185513779747448084253067210877294718395286691305842593028418962882650813096741362478911307430354917243743778927433262824759747688934189276237164994678461974411886258202090615271142538032092712074288590874446818656953777630664982528) (RowT.lf 15177100720527311859251877274633610981286339022647421276190412979791475867675262976)))) (RowT.nd (RowT.nd (RowT.nd (RowT.lf 3448571293176379778155741864264078125445642740950742481301790912483684070259686084800340644309144972300693329839635605640723870103040053537145812229584738304447226268776174818030707036925787184585947345278948801024399517444530911889854570158500983432321000145773878814979557676467532516639161112401336645533188830256090907401479575819748865164480399777511678615066566365159326143657129675148138110515898563691252619269794752001625298548883588202397190525143249751239711811856273103831918436293580982111313707072124859145678705725533183409186194791912820553584000654567621331351434169096067434889050255268041636725660621878512731567445643242159580679785823334352843982770274304) (RowT.lf 103630139179278812720935745051178894394226044690002034913716462617835022758348225311180541461771801617621878700710705360240376076885296364790869831887386685867670217487547704251979127814098570548251786621168468282589605510560749015157693778269783870647149328915381107329308233080938707059380259998956591459130510623517647568896)) (RowT.nd (RowT.lf 650108422206021465174137464456309793092752327116558030230972479525865825501792542705830343040570619995460697573352251393551090869126384456998156931843314503802504977853256078679967889627769481995611956129351667314593110931133771642571516837171414246131294508050744252289303035859418136926239631789845865897255795807149773853411258936856965784470915829423002638134937546001246846892746817378574565275682666840452002569901906511483605958028978236643333824776092915791688667268662982540643272978774408593707759592013824000) (RowT.lf 39631611188297158496520024928665722192391490863563510623667461552827407573479915353855698868423407470719633370301333865036035417091510158491648))) (RowT.nd (RowT.nd (RowT.lf 1388622319513729332459742679351076586739509951947448874855863759367665893566480237629247951469025386282110622459166099927329613230887860839268015275450271590751625765571120116505017492346353369189887358843891925478776453565167729934307495889892239835348732326611035293062792057590789963111273080769501537429129006094715284560153971846173729006117531519636897306047784184477151835285996526395101519381069673773903896491490220505775171611120252517107791921992325530993783225179900139370444671841929229243180018347694675132197800622480374861606318004534053753731153537268039098514713410405362571434897809879089293557760) (RowT.lf 84735195463298853113283251319621740875824761697472928578953344799954895338950718995545660502102899852095163928393787197991742635141032691077950239756609748079664814984707398082846913681481647920215705418199113301110460785303001264631578624)) (RowT.nd (RowT.lf 327122794184479889382933161942273219318183724242373800987342010993908859225653155132044742634064857161362509066594660409702194177105421443135140110756664152813378243168829681604966336815580282428333647196929703448355171749975950625010802634943577486996563879215427279733233088165725459906549458483768647108149088514201494133048581685302248196506367191138115341134462046581638530129214930313130007598626121330914823600868004888313856) (RowT.lf 0))))) (RowT.nd (RowT.nd (RowT.nd (RowT.nd (RowT.lf 3448571293176379778155741864264078125445642740952824488564504625786704883029467695150078835956589685885021226896398538684640818041285730156047561356960026727595896655541406045589828189428306847025832896634261700639118895724900024136700943205798805275392189399431124672025566729012528521570496509575182876082650631039320294297635885568565229654675765636192685598127725190263355342449499318123649766291350389176246190433695776400309762780078221624256714740727502655799072884974172750269079970720139129399535075930422972057485792073033661725848108614474447957620622391963890292675735515126040311464665865820487276223594069755050791918112000754652780197149000963591384096502185984) (RowT.lf 85456754303789328977510883080594791362746807645683615829365937049331715009342509322341551489604396072243369544259802353253200582709449726163656479951239424546836112657587873210428789536365354637480969152345282244040640809233168033424728825672201359980024800362470570865277208227551107102066005724824832583775625874066903445332314134937600)) (RowT.nd (RowT.lf 571587811423597263763683931715030813929914892057019312759966842260148603044770571078702856999542741554421759410159569490725090339976439432407387164699964301149110054135034815416516444246274772645872318469787967519961032086064407139798348059146378079661188097487086399241001189226647880711936922270193474134006958991316233178440251323020666671953548436784092656364706252813739728867993451798669128710061857410395309710977698103794844312768376229658617512506601177693375242134456042951748403786315248515511781150586361800951126220889312536297472) (RowT.lf 28821166523107967687265206514011371279795689439254212244540475499178575919893777497579274855448911586633595039674736009487150940074524663452021521473603333443813376))) (RowT.nd (RowT.nd (RowT.lf 1220904154664814539571030782924327725297409207836164347367994597989630175396838136968659309506924041790751563586836655231810992917947709427741267241446147633732052854947214747793871404611057877726630889259967503275676849612222143593797573698669634871330220587061549434455922376670435264438286337994690621624749107253530811036327906153841816542324139355295086047782356645274707290704520954847073601996932161888416973181685470392987498203114233464233583327548534363598141619426386113816473132398034965934974625484141057955602575454208807920809630196693700163303016598287468534917632456223123405926143950023217890201814275245126520588552110080) (RowT.lf 61561638053476349722713415512013474130106105691640440650584355834454667338653842044062955611776726111617316866112357619916983598367628381446595325286781755265266879511326338743624497920367667308654693153377648734324941977555289374397761041765626918342729138176)) (RowT.nd (RowT.lf 466914347297894247678050989168121558612871695309641324524560738884021587605387434863918682511419724127616478996376015229989257665906979350414042755439609323488117333301682103847038061193631496231387956159603278351240732297375182413240507978195472806765694378480194997210462879088133519217633972204057121021527658819045694194882928617876621784305682161955380517105761433080330310716783393432811334267221116771933741519749647837592421964175792182712019714048) (RowT.lf 0)))) (RowT.nd (RowT.nd (RowT.nd (RowT.lf 3345659872660919972896768814721640690243388685225820642368735656513542563629799141694415824939853186627061792037763917775807913509332984566018505094252926011095406222980660530432883774654182190844196168593860503773291099803276358537071743619241632439317786580038804067436236808871735685996885335798185089034206077856340529155901688489991683573088207101502835724083836272227374509773387699682801426059718881008558485447398872891327692701236067085082223048993854613124012144474741313872764576902848686715570979910891822823592460418978120253231586222666003968348955709359492639895111709481224854180303702597127408885924547088737091600628578099931112229354487943028226188543354206189986512896) (RowT.lf 89972434811928104341824488968565938987032680679399996864331645692224636152292312202644516042220564193539592687530754643421707825094946334722314775892368422373949448155384599573953140082575888122449197257467386335586402892767101809665603647872274891408854642727357054475556361504178737287875303887561163800576)) (RowT.nd (RowT.lf 577975948726951823765981140457503367340977965941378771914852587731154959893398126201122031849409405242380712309609114666883520420359382009339446357692249365929809359412127706054611920729158879308876435753610822189776717244076003845437824494919422358706672621083210827440395384919724250248813065094606453007317421883102952483924148378639199216208874927135493086013764624612975031636169147517491486383424768647565493294460457234827092764662501932007394779797270000828975544552019326806645641000942783430656) (RowT.lf 0))) (RowT.nd (RowT.nd (RowT.lf 1234549133554857729198218635097206483878352526478849642262234574037604860454000715620135146852987532691439766396041736481255863989494089543623627100097996293683484941791026878711972187734284101156881039756608831552112568171503245300190261309733714570032440850559814427723825735158273009976062446100469842131352151612327717714746396488069340270511883511459092331266077208866144756203253481088892511701515676920402244003315931515819440811058098004043286165673417760212079198011433309315725593592696736825073329092791753302607445024588995421182193762317022516678956589973348295370385978760813889827373056) (RowT.lf 0)) (RowT.nd (RowT.lf 0) (RowT.lf 0)))))) (RowT.nd (RowT.nd (RowT.nd (RowT.nd (RowT.nd (RowT.lf 3448571293176379778155741864264078125445642740951575284206876397804892395023159520356810922377688202129213988368483305076865706814503630558950456375198305201089229154019478505013556381491480494355302618899030676405198718045216690024781268068301254637595828414039528894054456605490639929129550903036508181791134161985825866027108818194999237716749188909792947786162304129916855013331629282107522286697797322092429552471214455518763597443021838105728390212298019083750344064591455144130216093729437897340620779120360781518454149181080865071833119640635965116168433375485829132487024572610092569292047502610264328150855742207419297708796494422041472082376218287569518105083248640) (RowT.lf 223840232933014758154469974294661625756479222292205143568211710807365110203960000913763777450998432338658257456048780484589822962483237521166445136554417639573707878906533255373961764372278277310269280862332028598564966770994333082220760507435356467573126794125623740907495692926456315864000733155498372412253220922367820889706864737462436780837385848696074141696)) (RowT.nd (RowT.lf 864141190500584527552126784976909510799466282015294462622628542502967869002319652674402294391052789058078491165598571524369630833463407320060003531830927505641443167287240345101361547215044808960413995023000961425488129658552707925079868147798569983545833238874526362949062166749061661942461336276039015430287892401985614396911947243651156590258901804268848378012698861128571172871798017386686871684735147846019039336582324616781768177696896267727053151309090671383071764367734840513899613773709673599412592175663861914818862505356169054273342480517693440) (RowT.lf 52679447109547280142973077571967048729238745809401842559631015295335551564917762818200241961088366605234246184939602659362808210191494737032486294140410215669028982016913858101248))) (RowT.nd (RowT.nd (RowT.lf 832802905085485321208326485669478469000706177405170358403747609400044056753002879075214418100043740172577664486799145024551366758977342326158534643455202503566163844922803707753629887018531158931278523693154565672481858436853631043016998949202302740676761402882863065245254451141622903652282141642483073167067594630299724757176041229727288370205790660331364146643476380138423042576483344296571473769687622008037620175789863026375569274414373172748316482805837773639508254513687358555139142508783296881101374675779192951731270970124749800649047022547063699038599983775241851535077492022468877211180055019670250523139068710092800) (RowT.lf 67621699985365151533156770277151075556821295300490904509360414233758600832319664912130030881630825858837013127668561727647799206634781748208217782964770412597674385603955779932838660011198558056092355928282356631579584760230121536869696758989403923942342741118851578068992)) (RowT.nd (RowT.lf 301289053365129073572514575753539264114011872157505671717773024351455508909007664397663727135245779185691475821165977639255438629834720637193898728154566878301385010278526379491716550182133480058644239150562862120091418108636212060957647138843323124543284253858726837557265523013518968150282838729516146754841737826304002852695254623546460479603865912730456067709779580648883291759856115586893067512932596888713770331795700983346044500310579287165611893405515776) (RowT.lf 0)))) (RowT.nd (RowT.nd (RowT.nd (RowT.lf 3678588420973002852548821229130225641334162947796645006545258311893402450709961955681772098025801134513390717915763251655345595889459716445813501887329471642436256427726668047416439685520097978338786573271463085909196242153026200246839988159210001574249149623175172982114911913141952855090781657812799417355758059011221818611131594394070658419428764869887044265403476258622266014924304927074816312227509967856489784893549936415420236931457866084737120537182402297121464757625354111576102814904267531743285577708927591520859953457985096891348240910104633044481695135527825340621736006744857193551181243751332014800355871111917400742063246651908921310990755604927799982620117090465898706196414846730240) (RowT.lf 164451830812189877411402605240486458671858257713889277610524709825632386953067476857091335337140950997745676659082845264392458453918417436193791428788653886968289223435167659899129803116018192100502243342245302449090268202747765932475035916470055885800324449385111128192733682017017566437331253977325477241395548558851047424)) (RowT.nd (RowT.lf 750302428083341143143796433633848187559719184057032753792280011199507872410364445512835396070782768953696732451852134184108011316623107471804864901977357034104987225016510144145662810468645549394647642409391895129127052222455896921070047908321284731258588153675940542426090848675811508957924235892706322244245746726367696795248136080183553500051801700580620336869274648748730437480199287659087801261899279267129405453587947462879771286852457107109440909549813145635322145878344754942141557952428252774388454389710848) (RowT.lf 0))) (RowT.nd (RowT.nd (RowT.lf 963121833542317369602389641331701566002165470508459334100611699499390572523949419679803236926541665239576491664750869700726157701972165757738916126151990832363034404301037500531999678901198522087865029406310720033701369369088568413275950972944502140552427486789973193082884671788642668567948004425164758818086496360611719504044335099556205520338036381127514070198042309008025107694798154132707763983314280017718971757275959053070183135288746179257375202331765852046589846238578329322895314163336501827444552157930854896717420460266655300519551626987891827142643262608296179734228886929391270482448871317307392) (RowT.lf 0)) (RowT.nd (RowT.lf 0) (RowT.lf 0))))) (RowT.nd (RowT.nd (RowT.nd (RowT.nd (RowT.lf 4447140521849672011812205411588337949557149685947231623354365734759243036055508352891235839244815409479545869136119520504276192898493675799528493581838829887926259844468291035552548094122526541190229331809160440625011800855059311367233462896949385114776609867841285126430279563079546715568656330745367391631231867813804993178496036758787809624258331339117804322217735909029671756773651373770652282946444719118038079454071516056943934852943226667916577186740473428464347707141731783743944094217008514596647242240288024470823614144598888564879523527194246441968821149608664043307510262457749658445894079555254674342558670431406360688503528409149053882712346098701149362796511777109024770046426516648609887499510700156295053312) (RowT.lf 119593879089676372926393897175189723929146211873847602037047943069916115284904349213460305450631347113294554382543202319273931671773080232776054993372831900776373872768230505634659484476195378471503335101297152250728489151325119141082357539574329212219665564030983873574489660249035392016231601951380036255679641704073596735876142820384493797376)) (RowT.nd (RowT.lf 907059977829499553884413525423235406728192400110937645717795079689417424310030163871362040511930730192682401730155948989085345029743227805560994463506016383383081257343246341695587693947167297798751100340085514162804458810190987632157911151487471794512267491667605927375125644268361487845569916678907846102283898720385986498551146727589483466745252240388719251018969045592460396771109107632181039421546897124011716554610267349321919501841940772696324923925384637655038615535460295903449441527452441231937732400322696815956451903495049576448) (RowT.lf 0))) (RowT.nd (RowT.nd (RowT.lf 1137053566410049291889767487885395701006324581883558483017439520377809525402781473268746626472320406162937548521461204931009172224339423364377260517809122319342546244357353927962710313809942988984729777813881943007914289420819509516153139911022229592746207335940948793244662355945368876872267228303331458770188890701072016583478996849056926287979887000783307652836813597773884147814654587325442395636788774415850784647902065002453180329749708825427262901206495382049518229881598792971932327837028810028446690467213482912392042741477298762729296371374722280520603181726677219261892541358965935565136142658433782430463743517446373376) (RowT.lf 0)) (RowT.nd (RowT.lf 0) (RowT.lf 0)))) (RowT.nd (RowT.nd (RowT.nd (RowT.lf 815795925230314739616825080174807271775931171538825879336544301754774907488162450772975010918135870551338073268323990648620970992709321065195619089827588028313648836060008009533080397869407020192925890470326852035889280315329770681637142595389944043964609194828740690009472223766550241198401018736106233782423914404618948846752363521515820311905980750385074147324033583378762463743636125200843757661920129201230455478484330562500928556520912289851217149867609287654911654848176117621175639658982385740744854340384316453108712516572807480899327027178044518208105669302203145401430888677376) (RowT.lf 0)) (RowT.nd (RowT.lf 0) (RowT.lf 0))) (RowT.nd (RowT.nd (RowT.lf 0) (RowT.lf 0)) (RowT.nd (RowT.lf 0) (RowT.lf 0))))))) (RowT.nd (RowT.nd (RowT.nd (RowT.nd (RowT.nd (RowT.nd (RowT.lf 3448571293176379778155741864264078125445642740951575284206876397804892395023159520357437453051633556748678934326958560556753228079917582114236694007815042103131619663406622690120948276908048915376016051030519170479458463803181906548525069147085936986911302559265724284297133373607608616743500262181822952050890133887103046083377896350119878241230376919522495621289703674099181451442073971808788068269167188480768441243900204913979071042846736716327875990700598374781358222662724798525320827406696525993891323177688061556516198196979149834072630305370982795352889880111091283056239744691821283555047588506128173545634693919652609948201586119759675163255485332484241328959389696) (RowT.lf 137747835651211285871361163264248318397542216706786248909495229929244273113866356240988700367115607271103509267893391991734756596058025171311790959957918225944918894083286996883153041054034133094488203555159658948438152430051644993630215792247679995682231994241348473468438943018067941742802874631517223384121812175977348363891147310646507516456584241181397876736)) (RowT.nd (RowT.lf 628466320364633060628849806621722641947870067294265750582849014474986203321093844239657749917228086722727608885753752185693408202773240438454809711489294755999044330454015497376359310379385574911041897153981437554915022376574596474166762593629241405187992339383133462595838908383354314897356699569549823508617857949751416970739822747261200577456584038167081923034732846161361398065198681900408406633503528314472086986870430590942577982610536317701375603459121952699586885542463432925439995637325051073754835495746825153229728490166610080094261736391049216) (RowT.lf 55238351252994017251516443532031002646198062998656720367444999731494436875648484159057838210833985462463375678197509618227868400316397855254890437124361519652420581961890060476400795648))) (RowT.nd (RowT.nd (RowT.lf 1342395912811773660904655662321563135569187047408480919900868877696669953826055839494203001491220773713932562612196552033761136343949485112755243451092842722288203058093163852469269475252032051234338435106246578131024300694762796300863799707569978523240080084398734909577919831519070668267687492001428907552202086482303667986835370791238124360551366556005632033162568601945130407919579239752613757653099846046944017615211749538072946780184025636450072162258499053659711317741189623792569238497391902451004177540481710585637854035511442057650136485408769894533430540056712242813142623763401515495531122991818491467226986567600428286956958439937341915136) (RowT.lf 117988402161933470558928396401116646053549172618043986735848438819886609106712827740958608774378969797493791507693107970430446198390260718317503292260300501133133477885667679636973399656134262354298871252453757809860091197270017851838402007176564289146827887176454355322710024781824)) (RowT.nd (RowT.lf 538315078432437291721813622763774189433812014332532344041945709424578641638048241199158988649742261836784232317627497700199889833861570859972681694628473050793216423095609164914516939112827091770434523808437537930194078820636228677562465712823943029881592421642597253453496511434613451304109967451503262826082878253523680217897009771260673667744850265075984776687721688719419227269903023392332893942600811549288009582342337879531633278239285208102981612453150915444969832448) (RowT.lf 0)))) (RowT.nd (RowT.nd (RowT.nd (RowT.lf 3678588420976348506037032571192848453609147669256759232052510394032478489500710983901088593066705092130605063938175130948810816904287298937838141595470946913041637449302671157015627331487406933590271985720905714242250692814926645798423907568431218053487197029270471932312454275585787858926729951722509617174577164736851670790254620943906071576171273870851287523609069594061495924080601043890127349488289162198565013170801725908654986377064213967246065047321074349426308446777548688352244451194969071981483226097836754009303039977596914998851059401312809385536148077066426941808318457403891382804938101057401009158702309155613224621183627337102236235902913201931986808823078922771079531726544360701952) (RowT.lf 103629953693343036596565395505186360228305099659259759947054685592219251171935409640499015613243962508690426677722789503329394629146932213943830191711462031446268506889093907743400888743163110125786507953963213997859864448318739734939076415533161231236713213527553582043737313638166065884014818326299054023484389859524809326592)) (RowT.nd (RowT.lf 666360265562167297250444796041910435870975413407819917847630874301994193221717191712211445962334029840196503214379730714069740891796845415275260463119090388885849672247305891094284568799544066853658461509940797024417352071085716793546654021634357888112903213507079499584595012403017003311043901896237534907028740977813763369380761119942108738153164883765169755376430615716685575470218576143064623716911578919467255967167912701257609721338050039968689836868031106716654495456090811481755951362996723233156928026595458809856) (RowT.lf 0))) (RowT.nd (RowT.nd (RowT.lf 1682125413672731141726664405206729676182660804648361471834688022128080260795714494724625998607507163810714996976839965951608593602075595541177162541883641640923738962490378889405516776425130102158327305582717985013444540345933514619323424676397796027669609925388018821992882824536244274681701719805312577585621000368525469096760461977073555016342023866196081638834762865705055260290744979923373716365467882670785339387220222351160166455490496952038691370760891315802683393721203029109861306239834647766001132774619924361791684952503740852753353391373333981896641438032843669200868183920136430949925686387772026492289024) (RowT.lf 0)) (RowT.nd (RowT.lf 0) (RowT.lf 0))))) (RowT.nd (RowT.nd (RowT.nd (RowT.nd (RowT.lf 4447140521849672011812205411588337952902803174158573685977178009743964496169733860144538878108094184179883074363733470744598917066326617031102460421659133222848347381180776080273270324966342361780489930682781567289579377583331211091683921860657752874214461254002009638588224704410038174437992122065967995660924680256589177483685895239266340802403082629454696258905123704909280192085488949899559313389422939910972750001962415405153639222841045513890231647581308053976355623637711366703784893711879476287962188469241723195067906048532185931090905611372726913403178806801472556698025617982198749815937360759957118432245587397663815656140858794517091939806067358392400379418715051295953357031797725589920968633202777980311437312) (RowT.lf 125280926822027753488162706167561520871148901687170314033680648865261261223265248063811445630910806351552886014937440110408418997445343622945511690039056768859666275883352376788144407804552995012132522955403372274250961391823147675244905386469502893140833904917195427009238758062475340423596611500898584604421781917951130691341181383370578823454130176)) (RowT.nd (RowT.lf 805580130203365055322972915911578956032717830784011539235756253319054879839317907774023754185441710538645128973207037727500755066690705688562624819589650963542314057794356092820583835927215220511839003073218190566765268302653534660975054236479308076649100739060664017778922056623030533070244611874095765397968359396993638163992469587470953255875602254511791955091201691673115619940686900424527918433145529720827334294837103329896572319220330075948977423283531201360769341053143024818452694441134283914666955542906845239532108949220807095359635456) (RowT.lf 0))) (RowT.nd (RowT.nd (RowT.lf 1220901971519885025013676641267730170845684417995232466781985685276483571908866129034164319811520474098462328944563028697912428210775664277483767465996893430227826250387429176337005098559218500527492295452467127588682663594214278649311565001627421376849300473647558174045497470606198783810968577640031686388524032982377036856455953956711419273225833864998254478325796861158365366124088670352404781077148006038082553918395173337838185686953606187706663445587254978990789739752089125637017252989571258710113703368805833603982708055649494377003314316278124076345782833239702918986037417209033303083300372794668769421296878014344202378675224576) (RowT.lf 0)) (RowT.nd (RowT.lf 0) (RowT.lf 0)))) (RowT.nd (RowT.nd (RowT.nd (RowT.lf 2969158780615096107225585757812389646602604657339995501801413560076421588637013070744813101310491941022121658159139615705605982685500570645104960859914928098961686735100577909428794605645515211040034893121920314117352010057869675533178054811015277622048183705089629236769010927766189755942779876837637406664692323197167890795850676387435267537563748893333459035112129613554531258405509905946570921207954078284486626028524088670034571221494184235697330900474329391226166304204245829503586630636049541874180021750346173152478966655703467834089532082535444841138179133991807310303389502118243603197814349990865523836682046752193918625595640516322396445957644900757893102080833128157821532110848) (RowT.lf 0)) (RowT.nd (RowT.lf 0) (RowT.lf 0))) (RowT.nd (RowT.nd (RowT.lf 0) (RowT.lf 0)) (RowT.nd (RowT.lf 0) (RowT.lf 0)))))) (RowT.nd (RowT.nd (RowT.nd (RowT.nd (RowT.nd (RowT.lf 4447140521849672011812209090176758922559995850318882843306050529185271603913747632986361986104561073062368575760904693689376700958073393826049370626611471363939075925192599194496353353702936347384643416024505500808106422837638922318696618684593271900685497095107049483278650029874153748112265857712604156839163572838021940815830172616495580393390709264076561324855435658320493856417044354531984543188936191650166670089124584995323519315476720836878852741688878150818503200226855540723811983621885080345325859462091600979001828230147583666256889822720836517211049163365109399331787529967211885631930287663504105817890541319189207212540255370469039375569029212787944078430184554373426128288785409835261177027110726757884362752) (RowT.lf 229436238756340126985747997399953583159293722003916388020072341420095146755661785752924173003220102111748322198199542917079346703695228728762338753189375419187627264390552327633804938018439187884418798791078621987654430844391609967907627770656083901363337483007432682903614742798847731038265480688775993106737011139448876853500696434131645243109256336363429166055424)) (RowT.nd (RowT.lf 885744720263099139692550687070589207446447443413035160718319615858874307052222616896981634771454016547947504952303144725026213901143529755936191579860202874411950473239200567761093920217950924660583641864373410897875093276241256576858182819312942165297591748512774681986164717029074691092106769945548900641734268769531041520630623647661533212920840343866703018508664623918047717555521304648160000827027614264453456392302127323932522828103391914774753981994841580992579587399698473770482411692621016099241497941396041109231958168150302281127885390073619808256) (RowT.lf 0))) (RowT.nd (RowT.nd (RowT.lf 1342395912810552758934271720459086059896141032130738320970633642103976841265486109932455871515330845472839917246786394358888091683081284164044412934841435000413306147867857550783849562999234675797427263198675620384404117100438734744703533909935316548689349178015612409352438297527556030824054023233235883802911755838867453484235897538673623931259642090469422008897165772453416698970465030117036501705711627602615551690953600465645710390810500595857019588711409875534988071502026483632971906043380421896788424742335482681670827419578093739012632247518941240318067878730268205043161010867356753047757977722577980489579305559227828116826748115385887752192) (RowT.lf 0)) (RowT.nd (RowT.lf 0) (RowT.lf 0)))) (RowT.nd (RowT.nd (RowT.nd (RowT.lf 3264624603999507595374284831807383049156399234993297160454190163737385467879510106617217697730788264468981224500037171768560521100761673794051217450406955464960102937521857808912555070110683895778281495972193370891686928460753110005096369539879426904702352074271874581024846547073713882616613610020115779135072594439677091480205518617128907555952708083763807880607807299171926439745437096722996655022669305341479100580370508758156361944836859192172348031773912123936397691414404400082055562421761008936246637630811099164798366248696172966325816983438193628551548522772979386626940512376088997906619112986084565526012300172006973770287542938062063956159548937456067287226706459594797779006588752572186624) (RowT.lf 0)) (RowT.nd (RowT.lf 0) (RowT.lf 0))) (RowT.nd (RowT.nd (RowT.lf 0) (RowT.lf 0)) (RowT.nd (RowT.lf 0) (RowT.lf 0))))) (RowT.nd (RowT.nd (RowT.nd (RowT.nd (RowT.lf 3946688975124188921416271895937596985633648940246254819951687771115093808432667125070795973250562868635773533526630236368532215236763945355409810671962584054542616966804431679167028421078395437130274103723356775715349539898883327879942850570436944020392126685608945095746468071495336062374193290929978268934715884504408318331978065874845186723441868759685595862444280886853370707802529187654153315459815591970831658237677899002874146601171964427922188800026574653083021952830793776500542418257875509917845799938066711253125833429901265222338754939558783014198834466586147690328362571234192369153787963558078572285464280028179762648233026458253883283157948016610273682820222505197247318017506138554022034561415263490166067560448) (RowT.lf 0)) (RowT.nd (RowT.lf 0) (RowT.lf 0))) (RowT.nd (RowT.nd (RowT.lf 0) (RowT.lf 0)) (RowT.nd (RowT.lf 0) (RowT.lf 0)))) (RowT.nd (RowT.nd (RowT.nd (RowT.lf 0) (RowT.lf 0)) (RowT.nd (RowT.lf 0) (RowT.lf 0))) (RowT.nd (RowT.nd (RowT.lf 0) (RowT.lf 0)) (RowT.nd (RowT.lf 0) (RowT.lf 0)))))))) (RowT.nd (RowT.nd (RowT.nd (RowT.nd (RowT.nd (RowT.nd (RowT.nd (RowT.lf 3448571293176379778155741864264078125445642740951575284206876397804892395023159520357437454543941752895069334190700060372028609335265767088821645220134453193388901372821677859143215444332600776423728813915049545219165806809742732601548514703452576835892251218338898521285164302818657429481787190532766389777104604689893845024469460571670188346878013798091799843328073510634908923168336842888687542181826648614353497726099557837609394799501762636083996822675423618123074350370373217927039792466561053036902892286918103849823540602366104825891293515310952230045180763633767268814186149609036530225666641459750247334168713324061720401468790995611237049760889263064395386586136576) (RowT.lf 137747835651211285990721688443505810596275042621079518723262320297394359029261463990796544356397408589816063400883498705733127622256602190431653162485784100635542608905844732597562530208272878124252881665862380984012860172846826899608947541500849183309081393966036056457280785592002574752073141311009857407696435775860974424047879579924585653676550289017247105024)) (RowT.nd (RowT.lf 628466320364633061650194935298896714638361531081450556425574603032565160384360088728921995046734149644701417605124564154320763811228624504868150972663185574417292944713768872247264514805315923617352819176227339561278157471977825956718234618696948841650782215746816743570403092907665949626159318541380798172830402959776318695637071342439321375164056441934082301982818968883720197684603529905053801078960469037786968278928132070819937301525753576882889618511904155882990375762894780221200145598038620044644368764122301734783860702678285251381228514664513536) (RowT.lf 56564071683014428942046432433715162185334729895058471627259335186640207850874304690607805004348696990067889350990442852595263672320133298785465521024693463773327020707443917251707012120576))) (RowT.nd (RowT.nd (RowT.lf 1342395912811773663086662427865836993105193227731485963796530635789446235411797444248478556907639177724234775067316596862862001526854905034427279512098232347970280412752655424393762288940874145948834416857484644772885202116531871218701865452465451404654122397522804963912408403677495011807290402880232940846771472410493250967499182007843782619142801886657060132080489186739582290277996580324359738701556136831647575291554975992001527807402233324559166756762229802381769737376760023402621607687304516209087364134816753627455804936205595884809695824198708901626549526001710457478245345541109238391987551955399169766250028609944744039694898130187509039104) (RowT.lf 120820123813929759114818896285984732234096988215115631144703142777545316412553135114535732822374173723008207441880645997008018586360181117362807697524203395952009808173002872672721579942104206215300133675552035856304799528963301596096727334180535822822362314583846626184553792328957952)) (RowT.nd (RowT.lf 551234640314314441738337118961072670083665894182383921252225787336679272328461112465113387029066849112664078372869034697017860993923084837192710513138826485401295531898895166436762945035348310022453636299472004382527855068891121496083337865695992249774901112118247980788492848522414070908759668624990434253108942521144983285003053833242041725960304993532302121712161442718494853358271229608280266718039865679809673936389803476081768013068657232041604715663458472537226819403776) (RowT.lf 0)))) (RowT.nd (RowT.nd (RowT.nd (RowT.lf 3678588420976348509224583531760056973638503876368727086582069756886977478711875990331184076769750056586605622336015917597353224504546280289748393940017077485558384245836729803268045160480523093626828244732096637141252416369963525915745970123594623724633318417802875355892145611515319020720767186406034823456667502190696225529181983882857967425599635047302829694894670404267346768885753590667689213889236645451947396260519898922398449266477967136239463324509797440565913556101005046757309366012382460557331014237330060561489606343164091442816402316857915674107132636096047340621189034614958632097417820537426391467047760734036883894071607682072606516240049360504870781811162926838158304958715466350592) (RowT.lf 176578977175094912088490301025400358920821168338306146841809636467175119942502995567739651850536701933585021567836002365745832519811513308778937409439394018035381766794446111185559292660534806392389573564565196631827830988552003239241846775086882741115227308447095077726630695342518712052229404721026266782851803229383407592592637952)) (RowT.nd (RowT.lf 805631097681835543053465076934703101049466985617190069084665656344100010824263996229700493588804723444112901045691702737136887884123536937323784211922748548499119190485926032289466907801569767016491055397960208206765596581083048519585737272848281045364946259792796702940140173046873834308673908301240754742868201594212079651608688167336498989947205652467737139561509410904421137624307147014569625903101233824572911055771070053208697914247784513069454449840235385853648439743007979272408090902042017363104919500948932764106752) (RowT.lf 0))) (RowT.nd (RowT.nd (RowT.lf 1456076414171667664106976327497304792632133527290104621561556652491796811582514420149575348163782936215284382154278953645263665297179560140101204525941765277677161125486783972234020344864489964719821206465040687093455798944135221135720024204863272138517999357724127422096539957315669881462450935903668843891280092151809686152690507929233694454521742173403528646017030124866391724102919785831961820138745530476963953871923322433658776311596855200182656567787161235067052550520073078505886236491337956749736149419233004542537192386507484499365973222610627287413429966712159459035081151052571890868841144772097314840501026816) (RowT.lf 0)) (RowT.nd (RowT.lf 0) (RowT.lf 0))))) (RowT.nd (RowT.nd (RowT.nd (RowT.nd (RowT.lf 4447140521849672011812205411588337952902806361709534253185698039100171608137588389703901734789089189285774095595679660512645350772415260261352065231815878006914161006146756210906860556048158774189742998393876681379339076099290313907755861959509099406077350971147733933882554263985381225702268985614434894173884392436102824599750912070892042060604229720888885528864406420478111191189217998595245471959781466586277429656966630307423456411276264740217476761956917544079180920676866104420811946163836532943664036798345937723608018536460647149586869054938409856171409749385219024408305739339213471575788249364033953029488597807222185669307227635486480762419281360271414235160132550787878482436311342874618759961772472903625867264) (RowT.lf 125281046182552932745654904900202311328795410524609717228406205603388961240167769533974541762146370022060189567222375606738807143362210524087408518846288594921844924111896645101354376661352765978893211403460961954480555911206838202074017871578159513772880124755619970963877822138692029908295660712461800011174220684999901001369551979429422072216944640)) (RowT.nd (RowT.lf 571586788613841666883220836184197269311258901681321023177790196151388930065838148719077906864412878538165910143855931984491951352035479486624729989683115297035136198641927054374592784194814513583745525601020260263500994074670408684209942904169035670982147910677286769648426636549562957768844713418730564051904282150438950999633759723254407118638021133789941268912936946133592120747195726384736284084719696675747405579884766536616508512667957262356509351472148570319500551641107608777397016564389648663391868646281163291202228475908057175425024) (RowT.lf 0))) (RowT.nd (RowT.nd (RowT.lf 2080340803771942176348350602084130961341982324284212481586780562037697056542327708582299276680748743411626357741729464704463890098490639665330826791663728385823641020702963056351695714469329734958257776900857451373969086114111012164426479898538910224013315968239685733921266030672327586939157307578171872468932921986065121282808568533535876353200794131450423961221367220522879519799384723834211011787388917427103288136737236944984810664442269746342013433251584000092185340123843533262276049893930461199805894424362050786475845773552558094768554472430244700867470152846916415854061661359591867037241700599010591491097026841581152478383819615895552) (RowT.lf 0)) (RowT.nd (RowT.lf 0) (RowT.lf 0)))) (RowT.nd (RowT.nd (RowT.nd (RowT.lf 3040418591349858413798999815999886998121067169116155393844647485518255706764301384442688615741943747606652577954958966482540526269952584340587479920552886373336767216742991779255085676181007576104995730556846401656168458299258547745974328126479644284977340114011780338451467190032578310085406593881740704424644938953899920174951092620733713958465278866773462051954820724279840008607242143689288623316944976163314305053208666798115400930810044657354066842085713296615594295505147729411672709771314730879160342272354481308138461855440351062107680852516295517325495433207610685750670850169081449674561894390646296408762415874246572672609935888714133960660628378376082536530773123233609248881508352) (RowT.lf 0)) (RowT.nd (RowT.lf 0) (RowT.lf 0))) (RowT.nd (RowT.nd (RowT.lf 0) (RowT.lf 0)) (RowT.nd (RowT.lf 0) (RowT.lf 0)))))) (RowT.nd (RowT.nd (RowT.nd (RowT.nd (RowT.nd (RowT.lf 4447140521849672011812209090176758922559999037869843410514570558541478715881602162545724842785556078168259596992851844815727927617706530687687513415844316365393533012887208963213370499415009964405371253635392627486437088650107435570125264713431954006933745152767610619908314940692410410559016252627626263374490361586777411479269928838834827192564656252384184608364692251451324876412014010015834457811013582036573312352761124275967143393483938460438180764220033072338147389263669634796742709884771100706145828657751091866132675902628226462019527295221456928163704884538066242710644868542289645072896628554330303314987127580533758523614570881989897625574812744497651541291803288579383280973219096227960138483830118143687131136) (RowT.lf 234713719928201815935936271281572665155820641912820659205284947297756116827344844636001986008436792269634222702475367176608513269090029567721479033122692635863641240170987829245062049962162540824189386624327654280796469674594387307091915974868772965385328466498226479459697296175246430398706300924402688018046059544303802424167036128118133475094126172022104947374948352)) (RowT.nd (RowT.lf 1070867409313628043088082874119172303982293839713986627411844239397683193616547680050349984216851677341597114669986046395801713278343250091666477883251831904384843078779118510916042468793117072233930579609151707327609299829971619489454901551732606938580549110487870855643085690251770798486784095368100823068329513198951274609355029123429931850427802662532775524138279024560060227878452649527521167437642936167326778379178302025735127121340556128940727314640420294421913295936205704284079276456006944425519461430470393233084606259765155409921940909952462305099776) (RowT.lf 0))) (RowT.nd (RowT.nd (RowT.lf 1342395912810552758933134666892676010604252227764686467586996919911734614484034672577548570449262164611270670010886597902144833937796749500778643339108760327918629613507750400630264755671003172571243550790196405918344165783039639988345549979872185576868878283965050260663707702415452780753764221828956138921593316056606075947497082697248822512556679795106447167949198213237550814110711610301858333743003849916641556665184844142736053500162452794639326232835525089275631241446630852995385256710508040779641441636273745403565940128715852324363722797217692025668246427686151949394709962452100762703019274284271364018907316590359937088722342327697931239424) (RowT.lf 0)) (RowT.nd (RowT.lf 0) (RowT.lf 0)))) (RowT.nd (RowT.nd (RowT.nd (RowT.lf 3342975594495495777663267667770760242336152816633136292305090727667082719108618349176030922476328747889216280153763666448504759122963255606657267631572819254242678167110679892248945720544121270486275541437873315917661686678769305483655511925045479871073386410111108067681905265660242205521509427382585466937580354223639426506873923164004637990811706699190151177865478883573143320797076517149212403861781238725388160416135483402094075133739655988120791649606218483646379938682801724686426254107496768071129395172733501708546526924999576002377378669257248728526639154772691597196264634801014833626695944588627324634658607289277630949178732371862629817059803958119617068079529926490901252540419732424492056576) (RowT.lf 0)) (RowT.nd (RowT.lf 0) (RowT.lf 0))) (RowT.nd (RowT.nd (RowT.lf 0) (RowT.lf 0)) (RowT.nd (RowT.lf 0) (RowT.lf 0))))) (RowT.nd (RowT.nd (RowT.nd (RowT.nd (RowT.lf 4041409510527169455530262421440099313288856514812164935630528277621856059835051136072495076608574485425897592009247657468277147103999805521192876306357188779212128032368347111330667378238433248795755357417430667356580975186246771147478000991543341175087471438659971407832414143602628340982018257816624605769938356802134048344258633389221609522214557277066167974853233972812162276251592901655810094537060830469763904563296984324686199776488037880924106543657786206492321217712610892694643871170513189712520892123959008991139721500042181546735460217758978708892727436505317064006543215800674440733071621888570924033238115254719418841917976373174885396795645857498725504503909227541682936415091613168207217671919453506849035650072576) (RowT.lf 0)) (RowT.nd (RowT.lf 0) (RowT.lf 0))) (RowT.nd (RowT.nd (RowT.lf 0) (RowT.lf 0)) (RowT.nd (RowT.lf 0) (RowT.lf 0)))) (RowT.nd (RowT.nd (RowT.nd (RowT.lf 0) (RowT.lf 0)) (RowT.nd (RowT.lf 0) (RowT.lf 0))) (RowT.nd (RowT.nd (RowT.lf 0) (RowT.lf 0)) (RowT.nd (RowT.lf 0) (RowT.lf 0))))))) (RowT.nd (RowT.nd (RowT.nd (RowT.nd (RowT.nd (RowT.nd (RowT.lf 832802905085485321208326485669478469627236849891768187891772355887282430271731005432129624437518954348309091713340166703392424433335285009915903759889355598347525560731202044898691529517179047030552398379401129502597914155294268214826313017602228293540429378430351779852798246310195066893086994928965011589900841188916297547597375229905480775632672322774299056915267433492680575998309323941136058266189974990609610299461686742663400379785261912061677498628598913604038209940998069856348244361687268614882110840914770292374840248772206376901393956182872777366461419413972933447293216343200898144370890913291456359233021078929408) (RowT.lf 137747835651211285871244372366699806314606284985437666116890078807746386913532213175507037227264884193680648737299973160542472819989664081784827859628569320636249252676179247243633892255783326907056146419564834712617088709682087785603398900921059578356285404166144488398539850311040391488604675169441008524853753195950511494302749587213912583087356938680715444224)) (RowT.nd (RowT.lf 628466320364633060628117135761449801457305781691054495991439850692228773238308362553193512460638605152983872449843139667380649763422051238787059391846607022998356084041279298967858426146319479107783726469656089717828463071526996791607936459188682958659909701300462374698512940280945728647456515559343590152846702865216223821085815821928308727563266406192419643024514477410446411158041008132811439977556007344963727635576217743797506936332278644442437375522669927626317822670263629186441995201380464599019767645264893583342812885600946160449953935155789824) (RowT.lf 0))) (RowT.nd (RowT.nd (RowT.lf 1342395912811773660903517498351279638963535667054282192133100699531425256700826950150598776237437566203994264749962368683251112380982827469008785034381080028495366672842449554080663657332340373648952253880965047541582747476706606490930679128606945048614337506990763416506066781347010483618101739578727121181750655955545121091908240386250530165864778050897441424648291696057931760332487806891452830367981213264386909519919641286768150825490392588274288488664316400979255338505447849622341444558030575383114165321130445899570402101195133302312802719010964582820847736822403274530054117926139853594745815658291147989664205223971896016424926109081874202624) (RowT.lf 0)) (RowT.nd (RowT.lf 0) (RowT.lf 0)))) (RowT.nd (RowT.nd (RowT.nd (RowT.lf 1009906439728468978147339896520935998763878208428608876004073294610145473089621590412412544110091518545782369094303691000172153388046287931681811500576084426812023650964516164185479624062292258497720371077068715407288692535442435128670326559307718440667766275034667482367459482012488464100486649583434695620071254814433814623614815286741079845487585441860261445405726848667781520843549440722384445652844016160580122493603194877062023922687573394296488386373590258243539650110415091131107908886200123123688661651138301689514589079487882361682585524049454870010956569196203836801903027844741715459897776752700082356224) (RowT.lf 0)) (RowT.nd (RowT.lf 0) (RowT.lf 0))) (RowT.nd (RowT.nd (RowT.lf 0) (RowT.lf 0)) (RowT.nd (RowT.lf 0) (RowT.lf 0))))) (RowT.nd (RowT.nd (RowT.nd (RowT.nd (RowT.lf 1220901970382831458603627349377962682960288716133484672600049924165331693086758068628935818346450072787613595410779264777887465657763531238152012031910297497362985464926202389775861909473806666512798783626190859387992816850591932259338594284300359189787143776304749211120364026332315914626859630690481614291629525873034485147086134510676288082648531541863144519793280770420866808335989698145654426836300926909804526797662352633044792117625060402696347052349327840225602291543136944664637557343046928783399853927448583743064083172711741965442485859465603030705969306325210344456476833053667083495555154824785433830422775231908664236964839424) (RowT.lf 0)) (RowT.nd (RowT.lf 0) (RowT.lf 0))) (RowT.nd (RowT.nd (RowT.lf 0) (RowT.lf 0)) (RowT.nd (RowT.lf 0) (RowT.lf 0)))) (RowT.nd (RowT.nd (RowT.nd (RowT.lf 0) (RowT.lf 0)) (RowT.nd (RowT.lf 0) (RowT.lf 0))) (RowT.nd (RowT.nd (RowT.lf 0) (RowT.lf 0)) (RowT.nd (RowT.lf 0) (RowT.lf 0)))))) (RowT.nd (RowT.nd (RowT.nd (RowT.nd (RowT.nd (RowT.lf 1342395912810552758933134666892676010604251264642852925269627318337889208012783410028903142164735964241822706220613792792563550455914878763350343463335228456141995216072036945296479147878940723532607780122385927712144313204789777227598503178670737654064342968442582423358403331254317998403248680191553646559189765164203254268654770539113374760358396936890025118779843990912846617030393838932095387591561530033176776793271145935192798988369464222618982606977628938585926426644590220949498879099318070302193520719249618917882241039109337952452157167448887565772959222437525598658934500696870895740188352342187532420822484345499271310543047584760698241024) (RowT.lf 0)) (RowT.nd (RowT.lf 0) (RowT.lf 0))) (RowT.nd (RowT.nd (RowT.lf 0) (RowT.lf 0)) (RowT.nd (RowT.lf 0) (RowT.lf 0)))) (RowT.nd (RowT.nd (RowT.nd (RowT.lf 0) (RowT.lf 0)) (RowT.nd (RowT.lf 0) (RowT.lf 0))) (RowT.nd (RowT.nd (RowT.lf 0) (RowT.lf 0)) (RowT.nd (RowT.lf 0) (RowT.lf 0))))) (RowT.nd (RowT.nd (RowT.nd (RowT.nd (RowT.lf 0) (RowT.lf 0)) (RowT.nd (RowT.lf 0) (RowT.lf 0))) (RowT.nd (RowT.nd (RowT.lf 0) (RowT.lf 0)) (RowT.nd (RowT.lf 0) (RowT.lf 0)))) (RowT.nd (RowT.nd (RowT.nd (RowT.lf 0) (RowT.lf 0)) (RowT.nd (RowT.lf 0) (RowT.lf 0))) (RowT.nd (RowT.nd (RowT.lf 0) (RowT.lf 0)) (RowT.nd (RowT.lf 0) (RowT.lf 0))))))))))


section ScoreLemmas

theorem slt_irrefl (a : Score) : slt a a = false := by
  cases a <;> simp [slt]

theorem sle_refl (a : Score) : sle a a = true := by
  simp [sle, slt_irrefl]

theorem slt_asymm {a b : Score} (h : slt a b = true) : slt b a = false := by
  cases a <;> cases b <;> simp_all [slt] <;> omega

theorem sle_of_slt {a b : Score} (h : slt a b = true) : sle a b = true := by
  simp [sle, slt_asymm h]

theorem slt_trans {a b c : Score} (h1 : slt a b = true) (h2 : slt b c = true) :
    slt a c = true := by
  cases a <;> cases b <;> cases c <;> simp_all [slt] <;> omega

theorem sle_total (a b : Score) : sle a b = true ∨ sle b a = true := by
  cases a <;> cases b <;> simp [sle, slt] <;> omega

theorem slt_of_sle_of_slt {a b c : Score} (h1 : sle a b = true) (h2 : slt b c = true) :
    slt a c = true := by
  cases a <;> cases b <;> cases c <;> simp_all [slt, sle] <;> omega

theorem slt_of_slt_of_sle {a b c : Score} (h1 : slt a b = true) (h2 : sle b c = true) :
    slt a c = true := by
  cases a <;> cases b <;> cases c <;> simp_all [slt, sle] <;> omega

theorem sle_trans {a b c : Score} (h1 : sle a b = true) (h2 : sle b c = true) :
    sle a c = true := by
  cases a <;> cases b <;> cases c <;> simp_all [slt, sle] <;> omega

theorem slt_negInf_int (z : Int) : slt Score.negInf (Score.int z) = true := rfl

theorem slt_int_posInf (z : Int) : slt (Score.int z) Score.posInf = true := rfl

theorem slt_of_not_sle {a b : Score} (h : ¬ sle a b = true) : slt b a = true := by
  simpa [sle] using h

theorem slt_eq_false_of_not {a b : Score} (h : ¬ slt a b = true) : slt a b = false :=
  Bool.not_eq_true _ ▸ (by simpa using h)

end ScoreLemmas

section ListLemmas

theorem set_get?_self : ∀ (l : Board) (m : Nat) (a : String),
    l.get? m = some a → l.set m a = l
  | [], _, _, h => by simp at h
  | c :: l, 0, a, h => by simp_all
  | c :: l, m + 1, a, h => by
      simp only [List.get?] at h
      simp [List.set, set_get?_self l m a h]

theorem mem_enumFilterMap : ∀ (l : Board) (n m : Nat),
    (m ∈ ((l.enumFrom n).filter (fun p => p.2 == " ")).map (fun p => p.1)) ↔
      (∃ k, m = n + k ∧ l.get? k = some " ")
  | [], n, m => by simp [List.enumFrom]
  | c :: l, n, m => by
      rcases eq_or_ne c " " with rfl | hc
      · simp only [List.enumFrom, List.filter, beq_self_eq_true, List.map,
          List.mem_cons, mem_enumFilterMap l (n + 1) m]
        constructor
        · rintro (rfl | ⟨k, rfl, hk⟩)
          · exact ⟨0, by simp⟩
          · exact ⟨k + 1, by omega, by simpa using hk⟩
        · rintro ⟨k, rfl, hk⟩
          cases k with
          | zero => left; omega
          | succ k => right; exact ⟨k, by omega, by simpa using hk⟩
      · have hcb : (c == " ") = false := by simpa using hc
        simp only [List.enumFrom, List.filter, hcb, mem_enumFilterMap l (n + 1) m]
        constructor
        · rintro ⟨k, rfl, hk⟩
          exact ⟨k + 1, by omega, by simpa using hk⟩
        · rintro ⟨k, rfl, hk⟩
          cases k with
          | zero => simp_all
          | succ k => exact ⟨k, by omega, by simpa using hk⟩

theorem mem_available_moves (b : Board) (m : Nat) :
    m ∈ available_moves b ↔ b.get? m = some " " := by
  have h := mem_enumFilterMap b 0 m
  simp only [available_moves, List.enum]
  rw [h]
  constructor
  · rintro ⟨k, rfl, hk⟩; simpa using hk
  · intro hm; exact ⟨m, by omega, hm⟩

theorem space_mem_iff (b : Board) : " " ∈ b ↔ ∃ m, b.get? m = some " " := by
  constructor
  · intro h
    rcases List.get_of_mem h with ⟨n, hn⟩
    exact ⟨n, by rw [List.get?_eq_get n.2, hn]⟩
  · rintro ⟨m, hm⟩
    exact List.get?_mem hm

theorem available_moves_ne_nil (b : Board) (h : " " ∈ b) :
    available_moves b ≠ [] := by
  rcases (space_mem_iff b).mp h with ⟨m, hm⟩
  have : m ∈ available_moves b := (mem_available_moves b m).mpr hm
  exact List.ne_nil_of_mem this

theorem available_moves_nil (b : Board) (h : " " ∉ b) :
    available_moves b = [] := by
  rcases hA : available_moves b with _ | ⟨m, ms⟩
  · rfl
  · exfalso
    have : m ∈ available_moves b := by rw [hA]; exact List.mem_cons_self m ms
    exact h (List.get?_mem ((mem_available_moves b m).mp this))

theorem le_fst_of_mem_enumFrom : ∀ (l : Board) (n : Nat) (q : Nat × String),
    q ∈ l.enumFrom n → n ≤ q.1
  | [], n, q, h => by simp [List.enumFrom] at h
  | c :: l, n, q, h => by
      simp only [List.enumFrom, List.mem_cons] at h
      rcases h with rfl | h
      · simp
      · have := le_fst_of_mem_enumFrom l (n + 1) q h
        omega

theorem pairwise_enumFrom : ∀ (l : Board) (n : Nat),
    List.Pairwise (fun p q : Nat × String => p.1 < q.1) (l.enumFrom n)
  | [], n => by simp [List.enumFrom]
  | c :: l, n => by
      simp only [List.enumFrom, List.pairwise_cons]
      refine ⟨fun q hq => ?_, pairwise_enumFrom l (n + 1)⟩
      have := le_fst_of_mem_enumFrom l (n + 1) q hq
      omega

theorem sorted_available_moves (b : Board) :
    List.Sorted (· < ·) (available_moves b) := by
  have h1 : List.Pairwise (fun p q : Nat × String => p.1 < q.1) (b.enum) :=
    pairwise_enumFrom b 0
  have h2 := h1.filter (fun p => p.2 == " ")
  simpa [available_moves, List.Sorted, List.pairwise_map] using h2

end ListLemmas

section MasterLemmas

/-- The loop of `minimax` restores the board it was given, and its score
only depends on the scores of the recursive calls on the boards with one
extra mark. -/
theorem searchLoop_master (pt : Bool) (place : String) (d : Nat)
    (next : Board → SearchRes) (g : Board → Score) (better : Score → Score → Bool)
    (hnx : ∀ b1, (next b1).1 = g b1 ∧ (next b1).2.1 = b1) :
    ∀ (ms : List Nat) (best : Score) (b : Board) (tr : List TraceEv),
      (∀ m ∈ ms, b.get? m = some " ") →
      (searchLoop pt place d next better ms (best, b, tr)).1 =
        ms.foldl (fun acc m =>
          if better (g (b.set m place)) acc then g (b.set m place) else acc) best ∧
      (searchLoop pt place d next better ms (best, b, tr)).2.1 = b := by
  intro ms
  induction ms with
  | nil => intro best b tr _; simp [searchLoop]
  | cons m ms ih =>
      intro best b tr hmem
      have hm : b.get? m = some " " := hmem m (List.mem_cons_self m ms)
      have hrest : ∀ m2 ∈ ms, b.get? m2 = some " " :=
        fun m2 h2 => hmem m2 (List.mem_cons_of_mem m h2)
      have hb2 : ((next (b.set m place)).2.1).set m " " = b := by
        rw [(hnx (b.set m place)).2, List.set_set, set_get?_self b m " " hm]
      simp only [searchLoop]
      rw [hb2, (hnx (b.set m place)).1]
      rw [List.foldl_cons]
      exact ih (if better (g (b.set m place)) best then g (b.set m place) else best) b _ hrest

/-- Master lemma for `minimax`: the final board equals the initial board
(every speculative move is undone), and the returned score is the pure
score function `spure`, independent of the print flag. -/
theorem minimaxF_master : ∀ (fuel : Nat) (b : Board) (d : Nat) (flag : Bool)
    (ai hu : String) (pt : Bool),
    (minimaxF fuel b d flag ai hu pt).1 = spure fuel b d flag ai hu ∧
    (minimaxF fuel b d flag ai hu pt).2.1 = b := by
  intro fuel
  induction fuel with
  | zero => intro b d flag ai hu pt; simp [minimaxF, spure]
  | succ fuel ih =>
      intro b d flag ai hu pt
      have hmem : ∀ m ∈ available_moves b, b.get? m = some " " :=
        fun m hm => (mem_available_moves b m).mp hm
      simp only [minimaxF, minimaxStep, spure]
      split_ifs with h1 h2 h3 h4
      · simp
      · simp
      · simp
      · have h := searchLoop_master pt ai d
          (fun b1 => minimaxF fuel b1 (d + 1) false ai hu pt)
          (fun b1 => spure fuel b1 (d + 1) false ai hu)
          (fun s best => slt best s)
          (fun b1 => ih b1 (d + 1) false ai hu pt)
          (available_moves b) Score.negInf b
          (emit pt (TraceEv.nodeInfo true d (available_moves b).length) []) hmem
        simpa using h
      · have h := searchLoop_master pt hu d
          (fun b1 => minimaxF fuel b1 (d + 1) true ai hu pt)
          (fun b1 => spure fuel b1 (d + 1) true ai hu)
          (fun s best => slt s best)
          (fun b1 => ih b1 (d + 1) true ai hu pt)
          (available_moves b) Score.posInf b
          (emit pt (TraceEv.nodeInfo false d (available_moves b).length) []) hmem
        simpa using h

theorem minimax_eq_spure (b : Board) (d : Nat) (flag : Bool) (ai hu : String) :
    minimax b d flag ai hu = spure (b.length + 1) b d flag ai hu :=
  (minimaxF_master (b.length + 1) b d flag ai hu false).1

theorem pickLoop_congr (f g : Nat → Score) :
    ∀ (ms : List Nat) (p : Score × Option Nat), (∀ m ∈ ms, f m = g m) →
      pickLoop f ms p = pickLoop g ms p := by
  intro ms
  induction ms with
  | nil => intro p _; rfl
  | cons m ms ih =>
      intro p h
      have hm := h m (List.mem_cons_self m ms)
      simp only [pickLoop, hm]
      exact ih _ (fun m2 h2 => h m2 (List.mem_cons_of_mem m h2))

/-- Master lemma for the loop of `best_move`: the board is restored and the
`(best_score, move_choice)` pair is `pickLoop` over the recursive scores. -/
theorem bestMoveLoop_master (ai hu : String) :
    ∀ (ms : List Nat) (p : Score × Option Nat) (b : Board) (tr : List TraceEv),
      (∀ m ∈ ms, b.get? m = some " ") →
      (bestMoveLoop ai hu ms (p, b, tr)).1 =
        pickLoop (fun m => spure (b.length + 1) (b.set m ai) 0 false ai hu) ms p ∧
      (bestMoveLoop ai hu ms (p, b, tr)).2.1 = b := by
  intro ms
  induction ms with
  | nil => intro p b tr _; simp [bestMoveLoop, pickLoop]
  | cons m ms ih =>
      intro p b tr hmem
      obtain ⟨best, choice⟩ := p
      have hm : b.get? m = some " " := hmem m (List.mem_cons_self m ms)
      have hrest : ∀ m2 ∈ ms, b.get? m2 = some " " :=
        fun m2 h2 => hmem m2 (List.mem_cons_of_mem m h2)
      have hmf := minimaxF_master ((b.set m ai).length + 1) (b.set m ai) 0 false ai hu true
      have hb2 : ((minimaxF ((b.set m ai).length + 1) (b.set m ai) 0 false ai hu true).2.1).set m " " = b := by
        rw [hmf.2, List.set_set, set_get?_self b m " " hm]
      simp only [bestMoveLoop]
      rw [hb2, hmf.1]
      simp only [List.length_set]
      simp only [pickLoop]
      exact ih _ b _ hrest

/-- Master lemma for `best_move`: board restored, and
`(best_score, move_choice)` characterised by `pickLoop`, independently of
the `PRINT_TREE` flag. -/
theorem bestMoveFull_master (b : Board) (ai hu : String) (pt : Bool) :
    (bestMoveFull b ai hu pt).1 =
      pickLoop (fun m => spure (b.length + 1) (b.set m ai) 0 false ai hu)
        (available_moves b) (Score.negInf, none) ∧
    (bestMoveFull b ai hu pt).2.1 = b := by
  have hmem : ∀ m ∈ available_moves b, b.get? m = some " " :=
    fun m hm => (mem_available_moves b m).mp hm
  have h := bestMoveLoop_master ai hu (available_moves b) (Score.negInf, none) b
    (emit pt (TraceEv.boardState 0 b) []) hmem
  simp only [bestMoveFull]
  exact h

theorem minimax_spure_set (b : Board) (m : Nat) (ai hu : String) :
    minimax (b.set m ai) 0 false ai hu =
      spure (b.length + 1) (b.set m ai) 0 false ai hu := by
  rw [minimax_eq_spure, List.length_set]

theorem best_move_char (b : Board) (ai hu : String) :
    best_move b ai hu =
      (pickLoop (fun m => minimax (b.set m ai) 0 false ai hu)
        (available_moves b) (Score.negInf, none)).2 ∧
    bestScore b ai hu =
      (pickLoop (fun m => minimax (b.set m ai) 0 false ai hu)
        (available_moves b) (Score.negInf, none)).1 := by
  have h := bestMoveFull_master b ai hu true
  have hc := pickLoop_congr
    (fun m => minimax (b.set m ai) 0 false ai hu)
    (fun m => spure (b.length + 1) (b.set m ai) 0 false ai hu)
    (available_moves b) (Score.negInf, none)
    (fun m _ => minimax_spure_set b m ai hu)
  constructor
  · show (bestMoveFull b ai hu true).1.2 = _
    rw [h.1, hc]
  · show (bestMoveFull b ai hu true).1.1 = _
    rw [h.1, hc]

end MasterLemmas

section PickLemmas

theorem find?_congr (p q : Nat → Bool) :
    ∀ (l : List Nat), (∀ a ∈ l, p a = q a) → l.find? p = l.find? q
  | [], _ => rfl
  | a :: l, h => by
      have ha := h a (List.mem_cons_self a l)
      cases hpa : p a with
      | true =>
          rw [List.find?_cons_of_pos _ hpa, List.find?_cons_of_pos _ (ha ▸ hpa)]
      | false =>
          rw [List.find?_cons_of_neg _ (by simp [hpa]), List.find?_cons_of_neg _ (by simp [← ha, hpa])]
          exact find?_congr p q l (fun x hx => h x (List.mem_cons_of_mem a hx))

/-- Every nonempty list of moves has a move whose score is greatest. -/
theorem exists_max (f : Nat → Score) :
    ∀ (ms : List Nat), ms ≠ [] →
      ∃ m, m ∈ ms ∧ ms.all (fun m2 => sle (f m2) (f m)) = true
  | [], h => absurd rfl h
  | a :: ms, _ => by
      rcases eq_or_ne ms [] with rfl | hne
      · exact ⟨a, List.mem_cons_self a [], by simp [sle_refl]⟩
      · obtain ⟨m, hm, hall⟩ := exists_max f ms hne
        rw [List.all_eq_true] at hall
        by_cases h : sle (f m) (f a) = true
        · refine ⟨a, List.mem_cons_self a ms, ?_⟩
          rw [List.all_eq_true]
          intro x hx
          rcases List.mem_cons.mp hx with rfl | hx
          · exact sle_refl _
          · exact sle_trans (hall x hx) h
        · have hlt : slt (f a) (f m) = true := slt_of_not_sle h
          refine ⟨m, List.mem_cons_of_mem a hm, ?_⟩
          rw [List.all_eq_true]
          intro x hx
          rcases List.mem_cons.mp hx with rfl | hx
          · exact sle_of_slt hlt
          · exact hall x hx

/-- Characterisation of the loop of `best_move`: the recorded choice is the
first move that strictly beats the initial best and is not beaten by any
move of the list (first-found tie-break of the strict comparison). -/
theorem pickLoop_char (f : Nat → Score) :
    ∀ (ms : List Nat) (s : Score) (c : Option Nat),
      (pickLoop f ms (s, c)).2 =
        match ms.find? (fun m => slt s (f m) && ms.all (fun m2 => sle (f m2) (f m))) with
        | some m => some m
        | none => c
  | [], s, c => rfl
  | m :: ms, s, c => by
      have hstep : pickLoop f (m :: ms) (s, c) =
          pickLoop f ms (if slt s (f m) = true then (f m, some m) else (s, c)) := rfl
      have hfc : (m :: ms).find?
          (fun m1 => slt s (f m1) && (m :: ms).all (fun m2 => sle (f m2) (f m1))) =
          if (slt s (f m) && (m :: ms).all (fun m2 => sle (f m2) (f m))) = true
          then some m
          else ms.find? (fun m1 => slt s (f m1) && (m :: ms).all (fun m2 => sle (f m2) (f m1))) := by
        by_cases hb : (slt s (f m) && (m :: ms).all (fun m2 => sle (f m2) (f m))) = true
        · rw [if_pos hb]
          exact List.find?_cons_of_pos _ (by simpa using hb)
        · rw [if_neg hb]
          exact List.find?_cons_of_neg _ (by simpa using hb)
      by_cases hsm : slt s (f m) = true
      · by_cases hallm : ms.all (fun m2 => sle (f m2) (f m)) = true
        · -- head move is a maximum of the whole list: it is found and kept
          have hall2 := List.all_eq_true.mp hallm
          have hhead : (slt s (f m) && (m :: ms).all (fun m2 => sle (f m2) (f m))) = true := by
            simp [List.all_cons, hsm, hallm, sle_refl]
          have hnone : ms.find? (fun m2 => slt (f m) (f m2) && ms.all (fun m3 => sle (f m3) (f m2))) = none := by
            rw [List.find?_eq_none]
            intro x hx
            have hfx : slt (f m) (f x) = false := by
              have h2 := hall2 x hx
              simpa [sle] using h2
            simp [hfx]
          rw [hstep, if_pos hsm, pickLoop_char f ms (f m) (some m), hnone, hfc, if_pos hhead]
        · -- some later move strictly beats the head
          obtain ⟨w, hw, hww⟩ : ∃ w, w ∈ ms ∧ slt (f m) (f w) = true := by
            have hcon : ¬ (∀ x ∈ ms, sle (f x) (f m) = true) := by
              intro hcon
              exact hallm (List.all_eq_true.mpr hcon)
            push_neg at hcon
            obtain ⟨w, hw, hns⟩ := hcon
            exact ⟨w, hw, slt_of_not_sle hns⟩
          have hne : ms ≠ [] := List.ne_nil_of_mem hw
          have hhead : (slt s (f m) && (m :: ms).all (fun m2 => sle (f m2) (f m))) = false := by
            have hargs : (m :: ms).all (fun m2 => sle (f m2) (f m)) = false := by
              rcases h2 : (m :: ms).all (fun m2 => sle (f m2) (f m)) with _ | _
              · rfl
              · exfalso
                have h3 := (List.all_eq_true.mp h2) w (List.mem_cons_of_mem m hw)
                simp [sle, hww] at h3
            simp [hargs]
          have hcongr : ms.find? (fun m2 => slt (f m) (f m2) && ms.all (fun m3 => sle (f m3) (f m2))) =
              ms.find? (fun m2 => slt s (f m2) && (m :: ms).all (fun m3 => sle (f m3) (f m2))) := by
            apply find?_congr
            intro x hx
            cases hax : ms.all (fun m3 => sle (f m3) (f x)) with
            | false => simp [List.all_cons, hax]
            | true =>
                have hx2 := List.all_eq_true.mp hax
                have h1 : slt (f m) (f x) = true :=
                  slt_of_slt_of_sle hww (hx2 w hw)
                have h2 : slt s (f x) = true := slt_trans hsm h1
                simp [List.all_cons, hax, h1, h2, sle_of_slt h1]
          obtain ⟨m2, hm2, hmax⟩ := exists_max f ms hne
          have hsome : ms.find? (fun m2 => slt (f m) (f m2) && ms.all (fun m3 => sle (f m3) (f m2))) ≠ none := by
            intro hnone
            have h4 := List.find?_eq_none.mp hnone m2 hm2
            have hmm2 : slt (f m) (f m2) = true :=
              slt_of_slt_of_sle hww ((List.all_eq_true.mp hmax) w hw)
            simp [hmm2, hmax] at h4
          rw [hstep, if_pos hsm, pickLoop_char f ms (f m) (some m), hfc,
            if_neg (by rw [hhead]; simp), ← hcongr]
          rcases hfind : ms.find? (fun m2 => slt (f m) (f m2) && ms.all (fun m3 => sle (f m3) (f m2))) with _ | y
          · exact absurd hfind hsome
          · rfl
      · -- the head move does not improve on the running best
        have hsmf : slt s (f m) = false := slt_eq_false_of_not hsm
        have hhead : (slt s (f m) && (m :: ms).all (fun m2 => sle (f m2) (f m))) = false := by
          simp [hsmf]
        have hcongr : ms.find? (fun m2 => slt s (f m2) && ms.all (fun m3 => sle (f m3) (f m2))) =
            ms.find? (fun m2 => slt s (f m2) && (m :: ms).all (fun m3 => sle (f m3) (f m2))) := by
          apply find?_congr
          intro x hx
          cases hsx : slt s (f x) with
          | false => simp [hsx]
          | true =>
              have hmsle : sle (f m) s = true := by simp [sle, hsmf]
              have h1 : slt (f m) (f x) = true := slt_of_sle_of_slt hmsle hsx
              simp [List.all_cons, hsx, sle_of_slt h1]
        rw [hstep, if_neg hsm, pickLoop_char f ms s c, hcongr, hfc,
          if_neg (by rw [hhead]; simp)]

/-- With an initial best of `-math.inf` and every score a real int, the
choice of the loop is exactly the first move attaining the maximum. -/
theorem pickLoop_firstArgmax (f : Nat → Score) (ms : List Nat)
    (hfin : ∀ m ∈ ms, slt Score.negInf (f m) = true) :
    (pickLoop f ms (Score.negInf, none)).2 = firstArgmax f ms := by
  rw [pickLoop_char]
  have hcongr : ms.find? (fun m => slt Score.negInf (f m) && ms.all (fun m2 => sle (f m2) (f m))) =
      ms.find? (fun m => ms.all (fun m2 => sle (f m2) (f m))) := by
    apply find?_congr
    intro x hx
    simp [hfin x hx]
  rw [hcongr]
  rcases h : ms.find? (fun m => ms.all (fun m2 => sle (f m2) (f m))) with _ | y <;>
    simp [firstArgmax, h]

/-- On a nonempty move list with finite scores the loop always records a
move. -/
theorem pickLoop_some (f : Nat → Score) (ms : List Nat) (hne : ms ≠ [])
    (hfin : ∀ m ∈ ms, slt Score.negInf (f m) = true) :
    ∃ m, m ∈ ms ∧ (pickLoop f ms (Score.negInf, none)).2 = some m := by
  rw [pickLoop_firstArgmax f ms hfin]
  obtain ⟨m, hm, hmax⟩ := exists_max f ms hne
  rcases hfind : ms.find? (fun m2 => ms.all (fun m3 => sle (f m3) (f m2))) with _ | y
  · exfalso
    have := List.find?_eq_none.mp hfind m hm
    simp [hmax] at this
  · exact ⟨y, List.mem_of_find?_eq_some hfind, by simp [firstArgmax, hfind]⟩

/-- When every candidate has the same int score, the first candidate is
kept (strict comparison: equal scores never replace the choice). -/
theorem pickLoop_const (f : Nat → Score) (m : Nat) (ms : List Nat) (z : Int)
    (hconst : ∀ m2 ∈ m :: ms, f m2 = Score.int z) :
    (pickLoop f (m :: ms) (Score.negInf, none)).2 = some m := by
  rw [pickLoop_char]
  have hhead : (slt Score.negInf (f m) && (m :: ms).all (fun m2 => sle (f m2) (f m))) = true := by
    have h1 : f m = Score.int z := hconst m (List.mem_cons_self m ms)
    have h2 : (m :: ms).all (fun m2 => sle (f m2) (f m)) = true := by
      rw [List.all_eq_true]
      intro x hx
      rw [hconst x hx, h1]
      exact sle_refl _
    rw [Bool.and_eq_true]
    refine ⟨?_, h2⟩
    rw [h1]
    rfl
  have hfind : (m :: ms).find?
      (fun m1 => slt Score.negInf (f m1) && (m :: ms).all (fun m2 => sle (f m2) (f m1))) = some m :=
    List.find?_cons_of_pos _ (by simpa using hhead)
  rw [hfind]

end PickLemmas

section Finiteness

theorem count_set_space : ∀ (l : Board) (m : Nat) (s : String),
    l.get? m = some " " → s ≠ " " → (l.set m s).count " " + 1 = l.count " "
  | [], m, s, h, _ => by simp at h
  | c :: l, 0, s, h, hs => by
      simp only [List.get?] at h
      injection h with h
      subst h
      simp [List.count_cons, hs]
  | c :: l, m + 1, s, h, hs => by
      simp only [List.get?] at h
      have := count_set_space l m s h hs
      simp only [List.set, List.count_cons]
      omega

theorem check_winner_none_space (b : Board) (h : check_winner b = none) : " " ∈ b := by
  unfold check_winner at h
  rcases hf : WIN_COMBINATIONS.find? (winningTriple b) with _ | t
  · rw [hf] at h
    by_cases hsp : " " ∈ b
    · exact hsp
    · simp [hsp] at h
  · rw [hf] at h
    simp at h

theorem winning_symbol_cases (b : Board) (h9 : b.length = 9) :
    check_winner b = none ∨ check_winner b = some "Tie" ∨
      ∃ w, check_winner b = some w ∧ w ∈ b ∧ w ≠ " " := by
  unfold check_winner
  rcases hf : WIN_COMBINATIONS.find? (winningTriple b) with _ | t
  · by_cases hsp : " " ∈ b
    · simp [hsp]
    · simp [hsp]
  · right; right
    refine ⟨cellAt b t.1, rfl, ?_, ?_⟩
    · have ht : t ∈ WIN_COMBINATIONS := List.mem_of_find?_eq_some hf
      have htlt : t.1 < 9 := by
        have : ∀ t2 ∈ WIN_COMBINATIONS, t2.1 < 9 := by decide
        exact this t ht
      have hlt : t.1 < b.length := by omega
      have hcell : cellAt b t.1 = b.get ⟨t.1, hlt⟩ := by
        simp [cellAt, List.getD_eq_getElem?_getD, List.getElem?_eq_getElem hlt,
          List.get_eq_getElem]
      rw [hcell]
      exact List.get_mem b t.1 hlt
    · have hw := List.find?_some hf
      simp only [winningTriple, Bool.and_eq_true, bne_iff_ne, ne_eq] at hw
      exact hw.2

theorem foldMax_finite (g : Nat → Score) :
    ∀ (ms : List Nat) (acc : Score),
      (∀ m ∈ ms, ∃ z, g m = Score.int z) →
      ((∃ z, acc = Score.int z) ∨ (acc = Score.negInf ∧ ms ≠ [])) →
      ∃ z, ms.foldl (fun acc2 m =>
        let s := g m
        if slt acc2 s then s else acc2) acc = Score.int z
  | [], acc, _, hacc => by
      rcases hacc with ⟨z, hz⟩ | ⟨_, hne⟩
      · exact ⟨z, hz⟩
      · exact absurd rfl hne
  | m :: ms, acc, hg, hacc => by
      obtain ⟨z, hz⟩ := hg m (List.mem_cons_self m ms)
      have hg2 : ∀ m2 ∈ ms, ∃ z2, g m2 = Score.int z2 :=
        fun m2 h2 => hg m2 (List.mem_cons_of_mem m h2)
      rw [List.foldl_cons]
      rcases hacc with ⟨za, hza⟩ | ⟨hza, _⟩
      · apply foldMax_finite g ms _ hg2
        left
        subst hza
        by_cases h : slt (Score.int za) (g m) = true
        · rw [hz] at h
          exact ⟨z, by rw [hz]; simp [h]⟩
        · have h2 : slt (Score.int za) (g m) = false := by simpa using h
          exact ⟨za, by simp [h2]⟩
      · apply foldMax_finite g ms _ hg2
        left
        subst hza
        rw [hz]
        exact ⟨z, by simp [slt]⟩

theorem foldMin_finite (g : Nat → Score) :
    ∀ (ms : List Nat) (acc : Score),
      (∀ m ∈ ms, ∃ z, g m = Score.int z) →
      ((∃ z, acc = Score.int z) ∨ (acc = Score.posInf ∧ ms ≠ [])) →
      ∃ z, ms.foldl (fun acc2 m =>
        let s := g m
        if slt s acc2 then s else acc2) acc = Score.int z
  | [], acc, _, hacc => by
      rcases hacc with ⟨z, hz⟩ | ⟨_, hne⟩
      · exact ⟨z, hz⟩
      · exact absurd rfl hne
  | m :: ms, acc, hg, hacc => by
      obtain ⟨z, hz⟩ := hg m (List.mem_cons_self m ms)
      have hg2 : ∀ m2 ∈ ms, ∃ z2, g m2 = Score.int z2 :=
        fun m2 h2 => hg m2 (List.mem_cons_of_mem m h2)
      rw [List.foldl_cons]
      rcases hacc with ⟨za, hza⟩ | ⟨hza, _⟩
      · apply foldMin_finite g ms _ hg2
        left
        subst hza
        by_cases h : slt (g m) (Score.int za) = true
        · rw [hz] at h
          exact ⟨z, by rw [hz]; simp [h]⟩
        · have h2 : slt (g m) (Score.int za) = false := by simpa using h
          exact ⟨za, by simp [h2]⟩
      · apply foldMin_finite g ms _ hg2
        left
        subst hza
        rw [hz]
        exact ⟨z, by simp [slt]⟩

/-- On a well-formed 9-cell board the pure score is always a real int:
every infinity introduced as the initial best of a level is replaced by a
child score before the level returns. -/
theorem spure_finite (ai hu : String) (hai : ai ≠ " ") (hhu : hu ≠ " ") :
    ∀ (fuel : Nat) (b : Board) (d : Nat) (flag : Bool),
      b.count " " < fuel → b.length = 9 →
      (∀ c ∈ b, c = " " ∨ c = ai ∨ c = hu) →
      ∃ z, spure fuel b d flag ai hu = Score.int z := by
  intro fuel
  induction fuel with
  | zero => intro b d flag hcnt _ _; omega
  | succ fuel ih =>
      intro b d flag hcnt h9 hcells
      have hterm : check_winner b = some ai ∨ check_winner b = some hu ∨
          check_winner b = some "Tie" ∨ check_winner b = none := by
        rcases winning_symbol_cases b h9 with h | h | ⟨w, hw, hwb, hwsp⟩
        · right; right; right; exact h
        · right; right; left; exact h
        · rcases hcells w hwb with h | h | h
          · exact absurd h hwsp
          · left; rw [hw, h]
          · right; left; rw [hw, h]
      simp only [spure]
      split_ifs with h1 h2 h3 h4
      · exact ⟨10 - (d : Int), rfl⟩
      · exact ⟨(d : Int) - 10, rfl⟩
      · exact ⟨0, rfl⟩
      all_goals {
        have hnone : check_winner b = none := by
          rcases hterm with h | h | h | h
          · exact absurd h h1
          · exact absurd h h2
          · exact absurd h h3
          · exact h
        have hsp : " " ∈ b := check_winner_none_space b hnone
        have hne : available_moves b ≠ [] := available_moves_ne_nil b hsp
        have hcpos : 0 < b.count " " := List.count_pos_iff.mpr hsp
        first
        | · apply foldMax_finite
            · intro m hm
              have hget := (mem_available_moves b m).mp hm
              apply ih (b.set m ai) (d + 1) false
              · have := count_set_space b m ai hget hai
                omega
              · simp [h9]
              · intro c hc
                rcases List.mem_or_eq_of_mem_set hc with h | h
                · exact hcells c h
                · right; left; exact h
            · right; exact ⟨rfl, hne⟩
        | · apply foldMin_finite
            · intro m hm
              have hget := (mem_available_moves b m).mp hm
              apply ih (b.set m hu) (d + 1) true
              · have := count_set_space b m hu hget hhu
                omega
              · simp [h9]
              · intro c hc
                rcases List.mem_or_eq_of_mem_set hc with h | h
                · exact hcells c h
                · right; right; exact h
            · right; exact ⟨rfl, hne⟩
      }

theorem minimax_finite (b : Board) (d : Nat) (flag : Bool) (ai hu : String)
    (hai : ai ≠ " ") (hhu : hu ≠ " ") (h9 : b.length = 9)
    (hcells : ∀ c ∈ b, c = " " ∨ c = ai ∨ c = hu) :
    ∃ z, minimax b d flag ai hu = Score.int z := by
  rw [minimax_eq_spure]
  apply spure_finite ai hu hai hhu
  · have := List.count_le_length " " b
    omega
  · exact h9
  · exact hcells

end Finiteness




section SpecEvaluateLemmas

theorem firstWinningSymbol_eq : ∀ (ts : List (Nat × Nat × Nat)) (b : Board),
    firstWinningSymbol ts b = (ts.find? (winningTriple b)).map (fun t => cellAt b t.1)
  | [], _ => rfl
  | t :: ts, b => by
      by_cases h : winningTriple b t = true
      · have hf : (t :: ts).find? (winningTriple b) = some t := List.find?_cons_of_pos _ h
        rw [hf]
        simp [firstWinningSymbol, h]
      · have hf : (t :: ts).find? (winningTriple b) = ts.find? (winningTriple b) :=
          List.find?_cons_of_neg _ h
        rw [hf]
        have hfalse : winningTriple b t = false := by simpa using h
        simp only [firstWinningSymbol, hfalse, Bool.false_eq_true, if_false]
        exact firstWinningSymbol_eq ts b

end SpecEvaluateLemmas

section TerminalLemmas

theorem spure_terminal_ai (b : Board) (fuel d : Nat) (flag : Bool) (ai hu : String)
    (h : check_winner b = some ai) :
    spure (fuel + 1) b d flag ai hu = intScore (10 - (d : Int)) := by
  simp [spure, h]

theorem spure_terminal_hu (b : Board) (fuel d : Nat) (flag : Bool) (ai hu : String)
    (hne : ai ≠ hu) (h : check_winner b = some hu) :
    spure (fuel + 1) b d flag ai hu = intScore ((d : Int) - 10) := by
  simp [spure, h, Ne.symm hne]

theorem spure_terminal_tie (b : Board) (fuel d : Nat) (flag : Bool) (ai hu : String)
    (hta : ai ≠ "Tie") (hth : hu ≠ "Tie") (h : check_winner b = some "Tie") :
    spure (fuel + 1) b d flag ai hu = intScore 0 := by
  simp [spure, h, Ne.symm hta, Ne.symm hth]

theorem minimax_terminal_ai (b : Board) (d : Nat) (flag : Bool) (ai hu : String)
    (h : check_winner b = some ai) :
    minimax b d flag ai hu = intScore (10 - (d : Int)) := by
  rw [minimax_eq_spure]
  exact spure_terminal_ai b b.length d flag ai hu h

theorem minimax_terminal_hu (b : Board) (d : Nat) (flag : Bool) (ai hu : String)
    (hne : ai ≠ hu) (h : check_winner b = some hu) :
    minimax b d flag ai hu = intScore ((d : Int) - 10) := by
  rw [minimax_eq_spure]
  exact spure_terminal_hu b b.length d flag ai hu hne h

theorem minimax_terminal_tie (b : Board) (d : Nat) (flag : Bool) (ai hu : String)
    (hta : ai ≠ "Tie") (hth : hu ≠ "Tie") (h : check_winner b = some "Tie") :
    minimax b d flag ai hu = intScore 0 := by
  rw [minimax_eq_spure]
  exact spure_terminal_tie b b.length d flag ai hu hta hth h

end TerminalLemmas

section Claims

/-- C1: under the stated precondition (a 9-cell board of valid cells with
at least one empty cell — implied by the in-progress outcome — and an
in-progress outcome), `best_move` scores the empty cells in ascending
index order and returns the first move attaining the maximum backed-up
score; a later move with an equal score never replaces the choice
(characterised by `firstArgmax`, the find-first-maximum function). -/
theorem best_move_first_argmax (b : Board) (ai hu : String)
    (h9 : b.length = 9) (hcells : ∀ c ∈ b, c = " " ∨ c = ai ∨ c = hu)
    (hai : ai ≠ " ") (hhu : hu ≠ " ")
    (hprog : check_winner b = none) :
    List.Sorted (· < ·) (available_moves b) ∧
    best_move b ai hu =
      firstArgmax (fun m => minimax (b.set m ai) 0 false ai hu) (available_moves b) := by
  refine ⟨sorted_available_moves b, ?_⟩
  rw [(best_move_char b ai hu).1]
  apply pickLoop_firstArgmax
  intro m hm
  have hcells2 : ∀ c ∈ b.set m ai, c = " " ∨ c = ai ∨ c = hu := by
    intro c hc
    rcases List.mem_or_eq_of_mem_set hc with h | h
    · exact hcells c h
    · right; left; exact h
  obtain ⟨z, hz⟩ := minimax_finite (b.set m ai) 0 false ai hu hai hhu (by simp [h9]) hcells2
  rw [hz]
  rfl

theorem best_move_first_argmax_witness :
    check_winner ["X", "X", " ", "O", "O", " ", " ", " ", " "] = none ∧
    (List.Sorted (· < ·) (available_moves ["X", "X", " ", "O", "O", " ", " ", " ", " "]) ∧
      best_move ["X", "X", " ", "O", "O", " ", " ", " ", " "] "X" "O" =
        firstArgmax
          (fun m => minimax ((["X", "X", " ", "O", "O", " ", " ", " ", " "] : Board).set m "X") 0 false "X" "O")
          (available_moves ["X", "X", " ", "O", "O", " ", " ", " ", " "])) :=
  ⟨by decide, best_move_first_argmax ["X", "X", " ", "O", "O", " ", " ", " ", " "] "X" "O"
    (by decide) (by decide) (by decide) (by decide) (by decide)⟩

/-- C2: for every board and depth, `minimax` scores an already-terminal
outcome before any recursion: a completed line of the AI symbol gives
`10 - depth`, a completed line of the human symbol gives `depth - 10`, and
a full board with no winning triple gives `0` (for distinct symbols that
are not the literal string `"Tie"`, as the data model prescribes). -/
theorem minimax_terminal_scores (b : Board) (d : Nat) (flag : Bool) (ai hu : String)
    (hne : ai ≠ hu) (hta : ai ≠ "Tie") (hth : hu ≠ "Tie") :
    (check_winner b = some ai → minimax b d flag ai hu = intScore (10 - (d : Int))) ∧
    (check_winner b = some hu → minimax b d flag ai hu = intScore ((d : Int) - 10)) ∧
    (" " ∉ b → (∀ t ∈ WIN_COMBINATIONS, winningTriple b t = false) →
      minimax b d flag ai hu = intScore 0) := by
  refine ⟨fun h => minimax_terminal_ai b d flag ai hu h,
    fun h => minimax_terminal_hu b d flag ai hu hne h, fun hsp hw => ?_⟩
  have hfind : WIN_COMBINATIONS.find? (winningTriple b) = none :=
    List.find?_eq_none.mpr (fun t ht => by simp [hw t ht])
  have hcw : check_winner b = some "Tie" := by
    unfold check_winner
    rw [hfind]
    simp [hsp]
  exact minimax_terminal_tie b d flag ai hu hta hth hcw

theorem minimax_terminal_scores_witness :
    minimax ["X", "X", "X", "O", "O", " ", " ", " ", " "] 3 true "X" "O" = intScore (10 - ((3 : Nat) : Int)) ∧
    minimax ["O", "O", "O", "X", "X", " ", " ", " ", " "] 2 false "X" "O" = intScore (((2 : Nat) : Int) - 10) ∧
    minimax ["X", "O", "X", "X", "O", "O", "O", "X", "X"] 5 true "X" "O" = intScore 0 :=
  ⟨(minimax_terminal_scores ["X", "X", "X", "O", "O", " ", " ", " ", " "] 3 true "X" "O"
      (by decide) (by decide) (by decide)).1 (by decide),
   (minimax_terminal_scores ["O", "O", "O", "X", "X", " ", " ", " ", " "] 2 false "X" "O"
      (by decide) (by decide) (by decide)).2.1 (by decide),
   (minimax_terminal_scores ["X", "O", "X", "X", "O", "O", "O", "X", "X"] 5 true "X" "O"
      (by decide) (by decide) (by decide)).2.2 (by decide) (by decide)⟩

/-- C3: `check_winner` examines the 8 fixed triples in the fixed source
order and returns the symbol of the first all-equal non-empty triple, else
`Tie` (encoded `'Tie'`) when no empty cell remains, else in-progress
(encoded `None`): it refines the specification's `evaluate`. -/
theorem check_winner_refines_evaluate (b : Board) :
    WIN_COMBINATIONS =
      [(0, 1, 2), (3, 4, 5), (6, 7, 8), (0, 3, 6), (1, 4, 7), (2, 5, 8), (0, 4, 8), (2, 4, 6)] ∧
    check_winner b =
      (match evaluate b with
        | Outcome.Win s => some s
        | Outcome.Tie => some "Tie"
        | Outcome.InProgress => none) := by
  refine ⟨rfl, ?_⟩
  unfold check_winner evaluate
  rw [firstWinningSymbol_eq]
  cases hf : WIN_COMBINATIONS.find? (winningTriple b) with
  | none =>
      by_cases h : " " ∈ b <;> simp [h]
  | some t => simp

/-- C4: the search is side-effect-free with respect to the board: after
every `minimax` call (at any fuel, depth, flag and symbols) and after every
`best_move` call, the board component of the result equals the board that
was passed in — each speculative move is written and then erased. -/
theorem search_restores_board :
    (∀ (fuel : Nat) (b : Board) (d : Nat) (flag : Bool) (ai hu : String) (pt : Bool),
      (minimaxF fuel b d flag ai hu pt).2.1 = b) ∧
    (∀ (b : Board) (ai hu : String) (pt : Bool), (bestMoveFull b ai hu pt).2.1 = b) :=
  ⟨fun fuel b d flag ai hu pt => (minimaxF_master fuel b d flag ai hu pt).2,
   fun b ai hu pt => (bestMoveFull_master b ai hu pt).2⟩

/-- C5 counterexample: on a board whose outcome is already a win for `"X"`
but which still has empty cells, `best_move` raises no `InvalidState`
error: it silently returns the index 5. -/
theorem best_move_silent_on_won_board :
    check_winner ["X", "X", "X", "O", "O", " ", " ", " ", " "] = some "X" ∧
    " " ∈ (["X", "X", "X", "O", "O", " ", " ", " ", " "] : Board) ∧
    best_move ["X", "X", "X", "O", "O", " ", " ", " ", " "] "X" "O" = some 5 := by
  exact ⟨by decide, by decide, by decide⟩

/-- C5 amended: `best_move` performs no `InvalidState` check at all.  On a
well-formed board with no empty cell the loop body never runs and the
function's `move_choice` stays `None` (the Python then crashes with a
`TypeError` on `move_choice + 1` in the final print, not with an
`InvalidState` error); with at least one empty cell it always returns the
index of some empty cell, even when the outcome is already terminal. -/
theorem best_move_invalid_state_behavior (b : Board) (ai hu : String)
    (hai : ai ≠ " ") (hhu : hu ≠ " ") (h9 : b.length = 9)
    (hcells : ∀ c ∈ b, c = " " ∨ c = ai ∨ c = hu) :
    (" " ∉ b → best_move b ai hu = none) ∧
    (" " ∈ b → ∃ m, m ∈ available_moves b ∧ best_move b ai hu = some m) := by
  constructor
  · intro hsp
    rw [(best_move_char b ai hu).1, available_moves_nil b hsp]
    rfl
  · intro hsp
    rw [(best_move_char b ai hu).1]
    apply pickLoop_some
    · exact available_moves_ne_nil b hsp
    · intro m hm
      have hcells2 : ∀ c ∈ b.set m ai, c = " " ∨ c = ai ∨ c = hu := by
        intro c hc
        rcases List.mem_or_eq_of_mem_set hc with h | h
        · exact hcells c h
        · right; left; exact h
      obtain ⟨z, hz⟩ := minimax_finite (b.set m ai) 0 false ai hu hai hhu (by simp [h9]) hcells2
      rw [hz]
      rfl

theorem best_move_invalid_state_behavior_witness :
    best_move ["X", "O", "X", "X", "O", "O", "O", "X", "X"] "X" "O" = none ∧
    (∃ m, m ∈ available_moves ["X", "X", "X", "O", "O", " ", " ", " ", " "] ∧
      best_move ["X", "X", "X", "O", "O", " ", " ", " ", " "] "X" "O" = some m) :=
  ⟨(best_move_invalid_state_behavior ["X", "O", "X", "X", "O", "O", "O", "X", "X"] "X" "O"
      (by decide) (by decide) (by decide) (by decide)).1 (by decide),
   (best_move_invalid_state_behavior ["X", "X", "X", "O", "O", " ", " ", " ", " "] "X" "O"
      (by decide) (by decide) (by decide) (by decide)).2 (by decide)⟩

/-- C6: on the board `X X · / O O · / · · ·` with the AI playing `"X"`,
`best_move` returns index 2, completing the AI's winning top row. -/
theorem best_move_takes_winning_row :
    best_move ["X", "X", " ", "O", "O", " ", " ", " ", " "] "X" "O" = some 2 := by decide

/-- C8: the trace never influences the returned values: at every fuel,
board, depth, maximizing flag and symbol pair, `minimax` returns the same
score for any two settings of its `print_tree` flag, and the index
returned by `best_move` is the same for any two settings of the global
`PRINT_TREE`. -/
theorem trace_never_influences_result :
    (∀ (fuel : Nat) (b : Board) (d : Nat) (flag : Bool) (ai hu : String) (pt pt2 : Bool),
      (minimaxF fuel b d flag ai hu pt).1 = (minimaxF fuel b d flag ai hu pt2).1) ∧
    (∀ (b : Board) (ai hu : String) (pt pt2 : Bool),
      (bestMoveFull b ai hu pt).1.2 = (bestMoveFull b ai hu pt2).1.2) := by
  constructor
  · intro fuel b d flag ai hu pt pt2
    rw [(minimaxF_master fuel b d flag ai hu pt).1, (minimaxF_master fuel b d flag ai hu pt2).1]
  · intro b ai hu pt pt2
    rw [(bestMoveFull_master b ai hu pt).1, (bestMoveFull_master b ai hu pt2).1]

/-- C10 counterexample: on the board `X · O / X · O / · · O` (O has already
won on the column 2-5-8, empty cells 1, 4, 6, 7 remain), `best_move` with
AI `"X"` returns 6, not the lowest empty index 1: placing `"X"` at 6
completes the triple (0,3,6), which precedes (2,5,8) in check order, so
that candidate scores 10 while the others score -10. -/
theorem best_move_won_board_not_lowest :
    check_winner ["X", " ", "O", "X", " ", "O", " ", " ", "O"] = some "O" ∧
    " " ∈ (["X", " ", "O", "X", " ", "O", " ", " ", "O"] : Board) ∧
    available_moves ["X", " ", "O", "X", " ", "O", " ", " ", "O"] = [1, 4, 6, 7] ∧
    best_move ["X", " ", "O", "X", " ", "O", " ", " ", "O"] "X" "O" = some 6 := by
  exact ⟨by decide, by decide, by decide, by decide⟩

/-- C10 amended: on a board with empty cells whose outcome is already a
win for one of the two (distinct) symbols, `best_move` raises no error;
and provided no single AI placement changes the detected winner (which is
automatic when the AI itself is the winner), every candidate move receives
the same terminal score (`10 - 0` for an AI win, `0 - 10` for a human
win), so the strict comparison keeps the first candidate: the
lowest-index empty cell is returned. -/
theorem best_move_won_board_first_empty (b : Board) (ai hu w : String)
    (hne : ai ≠ hu) (hwin : check_winner b = some w) (hw : w = ai ∨ w = hu)
    (hsp : " " ∈ b)
    (hstab : ∀ m ∈ available_moves b, check_winner (b.set m ai) = some w) :
    List.Sorted (· < ·) (available_moves b) ∧
    (∀ m ∈ available_moves b,
      minimax (b.set m ai) 0 false ai hu = intScore (if w = ai then 10 else -10)) ∧
    best_move b ai hu = (available_moves b).head? := by
  have hscore : ∀ m ∈ available_moves b,
      minimax (b.set m ai) 0 false ai hu = intScore (if w = ai then 10 else -10) := by
    intro m hm
    have hterm := hstab m hm
    rcases hw with hwa | hwh
    · rw [hwa] at hterm
      rw [if_pos hwa, minimax_terminal_ai (b.set m ai) 0 false ai hu hterm]
      norm_num
    · have hwne : w ≠ ai := by
        rw [hwh]
        exact fun hcon => hne hcon.symm
      rw [hwh] at hterm
      rw [if_neg hwne, minimax_terminal_hu (b.set m ai) 0 false ai hu hne hterm]
      norm_num
  refine ⟨sorted_available_moves b, hscore, ?_⟩
  rw [(best_move_char b ai hu).1]
  rcases hms : available_moves b with _ | ⟨m0, rest⟩
  · exact absurd hms (available_moves_ne_nil b hsp)
  · have hconst : ∀ m2 ∈ m0 :: rest,
        minimax (b.set m2 ai) 0 false ai hu = Score.int (if w = ai then 10 else -10) := by
      intro m2 h2
      have := hscore m2 (hms ▸ h2)
      simpa [intScore] using this
    rw [pickLoop_const (fun m => minimax (b.set m ai) 0 false ai hu) m0 rest
      (if w = ai then 10 else -10) hconst]
    rfl

theorem best_move_won_board_first_empty_witness :
    (∀ m ∈ available_moves ["O", "O", "O", "X", "X", " ", " ", " ", " "],
      minimax ((["O", "O", "O", "X", "X", " ", " ", " ", " "] : Board).set m "X") 0 false "X" "O" =
        intScore (if "O" = "X" then 10 else -10)) ∧
    best_move ["O", "O", "O", "X", "X", " ", " ", " ", " "] "X" "O" =
      (available_moves ["O", "O", "O", "X", "X", " ", " ", " ", " "]).head? :=
  ⟨(best_move_won_board_first_empty ["O", "O", "O", "X", "X", " ", " ", " ", " "] "X" "O" "O"
      (by decide) (by decide) (Or.inr rfl) (by decide) (by decide)).2.1,
   (best_move_won_board_first_empty ["O", "O", "O", "X", "X", " ", " ", " ", " "] "X" "O" "O"
      (by decide) (by decide) (Or.inr rfl) (by decide) (by decide)).2.2⟩

end Claims

section TableScan

theorem cond_true_true {a b : Bool} (h : cond a b false = true) : a = true ∧ b = true := by
  cases a <;> simp_all

theorem digit_mod (r i n : Nat) (h : i < n) :
    r % 32 ^ n / 32 ^ i % 32 = r / 32 ^ i % 32 := by
  have hn : n = i + (n - i) := by omega
  rw [hn, pow_add, Nat.mod_mul_right_div_self]
  have hd : (32 : Nat) ∣ 32 ^ (n - i) := dvd_pow_self 32 (by omega)
  rw [Nat.mod_mod_of_dvd _ hd]

theorem digit_div (r i k : Nat) :
    r / 32 ^ k / 32 ^ i % 32 = r / 32 ^ (k + i) % 32 := by
  rw [Nat.div_div_eq_div_mul, ← pow_add]

/-- If a row scan succeeds, every nonzero slot of the row was checked. -/
theorem scanRowB_entry (t : RowT) (o : Nat) :
    ∀ (k x r : Nat), scanRowB t o k x r = true →
      ∀ i, i < 2 ^ k → r / 32 ^ i % 32 ≠ 0 →
        checkEntry t (x + i) o (r / 32 ^ i % 32) = true
  | 0, x, r, hscan, i, hi, hv => by
      have hi0 : i = 0 := by omega
      subst hi0
      simp only [pow_zero, Nat.div_one] at hv ⊢
      simp only [scanRowB] at hscan
      have hb : (r % 32 == 0) = false := by
        simpa using hv
      rw [hb] at hscan
      simpa using hscan
  | k + 1, x, r, hscan, i, hi, hv => by
      simp only [scanRowB] at hscan
      by_cases hr : r = 0
      · subst hr
        simp at hv
      · have hb : (r == 0) = false := by simpa using hr
        rw [hb] at hscan
        obtain ⟨hlow, hhigh⟩ := cond_true_true hscan
        by_cases hik : i < 2 ^ k
        · have hdig := digit_mod r i (2 ^ k) hik
          have := scanRowB_entry t o k x (r % 32 ^ 2 ^ k) hlow i hik (by rw [hdig]; exact hv)
          rwa [hdig] at this
        · have hj : i - 2 ^ k < 2 ^ k := by
            have : 2 ^ (k + 1) = 2 ^ k + 2 ^ k := by rw [pow_succ]; omega
            omega
          have hexp : 2 ^ k + (i - 2 ^ k) = i := by omega
          have hdig : r / 32 ^ 2 ^ k / 32 ^ (i - 2 ^ k) % 32 = r / 32 ^ i % 32 := by
            rw [digit_div, hexp]
          have := scanRowB_entry t o k (x + 2 ^ k) (r / 32 ^ 2 ^ k) hhigh (i - 2 ^ k) hj
            (by rw [hdig]; exact hv)
          rw [hdig] at this
          have hx : x + 2 ^ k + (i - 2 ^ k) = x + i := by omega
          rwa [hx] at this

/-- If the trie scan succeeds, every row reachable by a full-depth lookup
was scanned with the O-mask it belongs to. -/
theorem scanT_look (t : RowT) :
    ∀ (u : RowT) (k p pre : Nat), k + p = 9 → fullDepth u k = true →
      scanT t u p pre = true → ∀ osuf, osuf < 2 ^ k →
        scanRowB t (pre + osuf * 2 ^ p) 9 0 (lookRow u osuf) = true
  | RowT.lf row, k, p, pre, hkp, hfd, hscan, osuf, hos => by
      have hk : k = 0 := by
        simpa [fullDepth] using hfd
      subst hk
      have h0 : osuf = 0 := by omega
      subst h0
      simpa [lookRow, scanT] using hscan
  | RowT.nd l r, k, p, pre, hkp, hfd, hscan, osuf, hos => by
      rcases k with _ | k
      · simp [fullDepth] at hfd
      · simp only [fullDepth] at hfd
        have hkne : ((k + 1 : Nat) == 0) = false := by simp
        rw [hkne] at hfd
        simp only [cond] at hfd
        rw [Bool.and_eq_true] at hfd
        have hfl : fullDepth l k = true := by simpa using hfd.1
        have hfr : fullDepth r k = true := by simpa using hfd.2
        simp only [scanT] at hscan
        obtain ⟨hsl, hsr⟩ := cond_true_true hscan
        simp only [lookRow]
        obtain ⟨q, hq⟩ : ∃ q, osuf = 2 * q + osuf % 2 := ⟨osuf / 2, by omega⟩
        by_cases he : osuf % 2 = 0
        · have hbe : (osuf % 2 == 0) = true := by simpa using he
          rw [hbe]
          simp only [cond]
          have hq2 : osuf / 2 < 2 ^ k := by
            have h2 : 2 ^ (k + 1) = 2 * 2 ^ k := by rw [pow_succ]; omega
            omega
          have := scanT_look t l k (p + 1) pre (by omega) hfl hsl (osuf / 2) hq2
          have harith : pre + osuf / 2 * 2 ^ (p + 1) = pre + osuf * 2 ^ p := by
            rw [pow_succ]
            have : osuf = 2 * (osuf / 2) := by omega
            calc pre + osuf / 2 * (2 ^ p * 2) = pre + 2 * (osuf / 2) * 2 ^ p := by ring
            _ = pre + osuf * 2 ^ p := by rw [← this]
          rwa [harith] at this
        · have hbe : (osuf % 2 == 0) = false := by simpa using he
          rw [hbe]
          simp only [cond]
          have hq2 : osuf / 2 < 2 ^ k := by
            have h2 : 2 ^ (k + 1) = 2 * 2 ^ k := by rw [pow_succ]; omega
            omega
          have := scanT_look t r k (p + 1) (pre + 2 ^ p) (by omega) hfr hsr (osuf / 2) hq2
          have harith : pre + 2 ^ p + osuf / 2 * 2 ^ (p + 1) = pre + osuf * 2 ^ p := by
            rw [pow_succ]
            have hodd : osuf = 2 * (osuf / 2) + 1 := by omega
            calc pre + 2 ^ p + osuf / 2 * (2 ^ p * 2)
                = pre + (2 * (osuf / 2) + 1) * 2 ^ p := by ring
            _ = pre + osuf * 2 ^ p := by rw [← hodd]
          rwa [harith] at this

/-- A successful `checkAll` certifies every present entry of the table. -/
theorem lookup_checked (t : RowT) (hfd : fullDepth t 9 = true) (hca : checkAll t = true) :
    ∀ x o, x < 512 → o < 512 → tval t x o ≠ 0 → checkEntry t x o (tval t x o) = true := by
  intro x o hx ho hv
  have h1 := scanT_look t t 9 0 0 (by omega) hfd hca o (by norm_num; omega)
  have h1b : scanRowB t o 9 0 (lookRow t o) = true := by
    simpa using h1
  have h2 := scanRowB_entry t o 9 0 (lookRow t o) h1b x (by norm_num; omega) hv
  simpa [tval] using h2

end TableScan

section TableBits

theorem free_split {x o p : Nat} (h : freeB x o p = true) :
    bitN x p = false ∧ bitN o p = false := by
  simpa [freeB] using h

theorem cellB_X (b : Bool) : cellB true b = "X" := rfl

theorem cellB_O : cellB false true = "O" := rfl

theorem cellB_eq_space : ∀ (a b : Bool), (cellB a b == " ") = (!a && !b) := by decide

theorem space_eq_cellB : ∀ (a b : Bool), (" " = cellB a b) ↔ (a = false ∧ b = false) := by decide

theorem cellB_triple : ∀ (a0 b0 a1 b1 a2 b2 : Bool),
    (a0 && b0) = false → (a1 && b1) = false → (a2 && b2) = false →
    (cellB a0 b0 == cellB a1 b1 && cellB a1 b1 == cellB a2 b2 && cellB a0 b0 != " ")
      = ((a0 && a1 && a2) || (b0 && b1 && b2)) := by decide

theorem bit_add_0 : ∀ n < 512, bitN n 1 = false →
      bitN (n + 1) 1 = true ∧
      bitN (n + 1) 2 = bitN n 2 ∧
      bitN (n + 1) 4 = bitN n 4 ∧
      bitN (n + 1) 8 = bitN n 8 ∧
      bitN (n + 1) 16 = bitN n 16 ∧
      bitN (n + 1) 32 = bitN n 32 ∧
      bitN (n + 1) 64 = bitN n 64 ∧
      bitN (n + 1) 128 = bitN n 128 ∧
      bitN (n + 1) 256 = bitN n 256 ∧
      n + 1 < 512 ∧
      popB (n + 1) = popB n + 1 := by decide

theorem bit_add_1 : ∀ n < 512, bitN n 2 = false →
      bitN (n + 2) 2 = true ∧
      bitN (n + 2) 1 = bitN n 1 ∧
      bitN (n + 2) 4 = bitN n 4 ∧
      bitN (n + 2) 8 = bitN n 8 ∧
      bitN (n + 2) 16 = bitN n 16 ∧
      bitN (n + 2) 32 = bitN n 32 ∧
      bitN (n + 2) 64 = bitN n 64 ∧
      bitN (n + 2) 128 = bitN n 128 ∧
      bitN (n + 2) 256 = bitN n 256 ∧
      n + 2 < 512 ∧
      popB (n + 2) = popB n + 1 := by decide

theorem bit_add_2 : ∀ n < 512, bitN n 4 = false →
      bitN (n + 4) 4 = true ∧
      bitN (n + 4) 1 = bitN n 1 ∧
      bitN (n + 4) 2 = bitN n 2 ∧
      bitN (n + 4) 8 = bitN n 8 ∧
      bitN (n + 4) 16 = bitN n 16 ∧
      bitN (n + 4) 32 = bitN n 32 ∧
      bitN (n + 4) 64 = bitN n 64 ∧
      bitN (n + 4) 128 = bitN n 128 ∧
      bitN (n + 4) 256 = bitN n 256 ∧
      n + 4 < 512 ∧
      popB (n + 4) = popB n + 1 := by decide

theorem bit_add_3 : ∀ n < 512, bitN n 8 = false →
      bitN (n + 8) 8 = true ∧
      bitN (n + 8) 1 = bitN n 1 ∧
      bitN (n + 8) 2 = bitN n 2 ∧
      bitN (n + 8) 4 = bitN n 4 ∧
      bitN (n + 8) 16 = bitN n 16 ∧
      bitN (n + 8) 32 = bitN n 32 ∧
      bitN (n + 8) 64 = bitN n 64 ∧
      bitN (n + 8) 128 = bitN n 128 ∧
      bitN (n + 8) 256 = bitN n 256 ∧
      n + 8 < 512 ∧
      popB (n + 8) = popB n + 1 := by decide

theorem bit_add_4 : ∀ n < 512, bitN n 16 = false →
      bitN (n + 16) 16 = true ∧
      bitN (n + 16) 1 = bitN n 1 ∧
      bitN (n + 16) 2 = bitN n 2 ∧
      bitN (n + 16) 4 = bitN n 4 ∧
      bitN (n + 16) 8 = bitN n 8 ∧
      bitN (n + 16) 32 = bitN n 32 ∧
      bitN (n + 16) 64 = bitN n 64 ∧
      bitN (n + 16) 128 = bitN n 128 ∧
      bitN (n + 16) 256 = bitN n 256 ∧
      n + 16 < 512 ∧
      popB (n + 16) = popB n + 1 := by decide

theorem bit_add_5 : ∀ n < 512, bitN n 32 = false →
      bitN (n + 32) 32 = true ∧
      bitN (n + 32) 1 = bitN n 1 ∧
      bitN (n + 32) 2 = bitN n 2 ∧
      bitN (n + 32) 4 = bitN n 4 ∧
      bitN (n + 32) 8 = bitN n 8 ∧
      bitN (n + 32) 16 = bitN n 16 ∧
      bitN (n + 32) 64 = bitN n 64 ∧
      bitN (n + 32) 128 = bitN n 128 ∧
      bitN (n + 32) 256 = bitN n 256 ∧
      n + 32 < 512 ∧
      popB (n + 32) = popB n + 1 := by decide

theorem bit_add_6 : ∀ n < 512, bitN n 64 = false →
      bitN (n + 64) 64 = true ∧
      bitN (n + 64) 1 = bitN n 1 ∧
      bitN (n + 64) 2 = bitN n 2 ∧
      bitN (n + 64) 4 = bitN n 4 ∧
      bitN (n + 64) 8 = bitN n 8 ∧
      bitN (n + 64) 16 = bitN n 16 ∧
      bitN (n + 64) 32 = bitN n 32 ∧
      bitN (n + 64) 128 = bitN n 128 ∧
      bitN (n + 64) 256 = bitN n 256 ∧
      n + 64 < 512 ∧
      popB (n + 64) = popB n + 1 := by decide

theorem bit_add_7 : ∀ n < 512, bitN n 128 = false →
      bitN (n + 128) 128 = true ∧
      bitN (n + 128) 1 = bitN n 1 ∧
      bitN (n + 128) 2 = bitN n 2 ∧
      bitN (n + 128) 4 = bitN n 4 ∧
      bitN (n + 128) 8 = bitN n 8 ∧
      bitN (n + 128) 16 = bitN n 16 ∧
      bitN (n + 128) 32 = bitN n 32 ∧
      bitN (n + 128) 64 = bitN n 64 ∧
      bitN (n + 128) 256 = bitN n 256 ∧
      n + 128 < 512 ∧
      popB (n + 128) = popB n + 1 := by decide

theorem bit_add_8 : ∀ n < 512, bitN n 256 = false →
      bitN (n + 256) 256 = true ∧
      bitN (n + 256) 1 = bitN n 1 ∧
      bitN (n + 256) 2 = bitN n 2 ∧
      bitN (n + 256) 4 = bitN n 4 ∧
      bitN (n + 256) 8 = bitN n 8 ∧
      bitN (n + 256) 16 = bitN n 16 ∧
      bitN (n + 256) 32 = bitN n 32 ∧
      bitN (n + 256) 64 = bitN n 64 ∧
      bitN (n + 256) 128 = bitN n 128 ∧
      n + 256 < 512 ∧
      popB (n + 256) = popB n + 1 := by decide

theorem boardOf_setX_0 (x o : Nat) (hx : x < 512) (hf : bitN x 1 = false) :
    (boardOf x o).set 0 "X" = boardOf (x + 1) o := by
  obtain ⟨h1, h2, h3, h4, h5, h6, h7, h8, h9, hlt, hpop⟩ := bit_add_0 x hx hf
  simp [boardOf, List.set, h1, h2, h3, h4, h5, h6, h7, h8, h9, cellB]

theorem boardOf_setX_1 (x o : Nat) (hx : x < 512) (hf : bitN x 2 = false) :
    (boardOf x o).set 1 "X" = boardOf (x + 2) o := by
  obtain ⟨h1, h2, h3, h4, h5, h6, h7, h8, h9, hlt, hpop⟩ := bit_add_1 x hx hf
  simp [boardOf, List.set, h1, h2, h3, h4, h5, h6, h7, h8, h9, cellB]

theorem boardOf_setX_2 (x o : Nat) (hx : x < 512) (hf : bitN x 4 = false) :
    (boardOf x o).set 2 "X" = boardOf (x + 4) o := by
  obtain ⟨h1, h2, h3, h4, h5, h6, h7, h8, h9, hlt, hpop⟩ := bit_add_2 x hx hf
  simp [boardOf, List.set, h1, h2, h3, h4, h5, h6, h7, h8, h9, cellB]

theorem boardOf_setX_3 (x o : Nat) (hx : x < 512) (hf : bitN x 8 = false) :
    (boardOf x o).set 3 "X" = boardOf (x + 8) o := by
  obtain ⟨h1, h2, h3, h4, h5, h6, h7, h8, h9, hlt, hpop⟩ := bit_add_3 x hx hf
  simp [boardOf, List.set, h1, h2, h3, h4, h5, h6, h7, h8, h9, cellB]

theorem boardOf_setX_4 (x o : Nat) (hx : x < 512) (hf : bitN x 16 = false) :
    (boardOf x o).set 4 "X" = boardOf (x + 16) o := by
  obtain ⟨h1, h2, h3, h4, h5, h6, h7, h8, h9, hlt, hpop⟩ := bit_add_4 x hx hf
  simp [boardOf, List.set, h1, h2, h3, h4, h5, h6, h7, h8, h9, cellB]

theorem boardOf_setX_5 (x o : Nat) (hx : x < 512) (hf : bitN x 32 = false) :
    (boardOf x o).set 5 "X" = boardOf (x + 32) o := by
  obtain ⟨h1, h2, h3, h4, h5, h6, h7, h8, h9, hlt, hpop⟩ := bit_add_5 x hx hf
  simp [boardOf, List.set, h1, h2, h3, h4, h5, h6, h7, h8, h9, cellB]

theorem boardOf_setX_6 (x o : Nat) (hx : x < 512) (hf : bitN x 64 = false) :
    (boardOf x o).set 6 "X" = boardOf (x + 64) o := by
  obtain ⟨h1, h2, h3, h4, h5, h6, h7, h8, h9, hlt, hpop⟩ := bit_add_6 x hx hf
  simp [boardOf, List.set, h1, h2, h3, h4, h5, h6, h7, h8, h9, cellB]

theorem boardOf_setX_7 (x o : Nat) (hx : x < 512) (hf : bitN x 128 = false) :
    (boardOf x o).set 7 "X" = boardOf (x + 128) o := by
  obtain ⟨h1, h2, h3, h4, h5, h6, h7, h8, h9, hlt, hpop⟩ := bit_add_7 x hx hf
  simp [boardOf, List.set, h1, h2, h3, h4, h5, h6, h7, h8, h9, cellB]

theorem boardOf_setX_8 (x o : Nat) (hx : x < 512) (hf : bitN x 256 = false) :
    (boardOf x o).set 8 "X" = boardOf (x + 256) o := by
  obtain ⟨h1, h2, h3, h4, h5, h6, h7, h8, h9, hlt, hpop⟩ := bit_add_8 x hx hf
  simp [boardOf, List.set, h1, h2, h3, h4, h5, h6, h7, h8, h9, cellB]

theorem boardOf_setO_0 (x o : Nat) (ho : o < 512) (hfx : bitN x 1 = false)
    (hfo : bitN o 1 = false) :
    (boardOf x o).set 0 "O" = boardOf x (o + 1) := by
  obtain ⟨h1, h2, h3, h4, h5, h6, h7, h8, h9, hlt, hpop⟩ := bit_add_0 o ho hfo
  simp [boardOf, List.set, h1, h2, h3, h4, h5, h6, h7, h8, h9, hfx, cellB]

theorem boardOf_setO_1 (x o : Nat) (ho : o < 512) (hfx : bitN x 2 = false)
    (hfo : bitN o 2 = false) :
    (boardOf x o).set 1 "O" = boardOf x (o + 2) := by
  obtain ⟨h1, h2, h3, h4, h5, h6, h7, h8, h9, hlt, hpop⟩ := bit_add_1 o ho hfo
  simp [boardOf, List.set, h1, h2, h3, h4, h5, h6, h7, h8, h9, hfx, cellB]

theorem boardOf_setO_2 (x o : Nat) (ho : o < 512) (hfx : bitN x 4 = false)
    (hfo : bitN o 4 = false) :
    (boardOf x o).set 2 "O" = boardOf x (o + 4) := by
  obtain ⟨h1, h2, h3, h4, h5, h6, h7, h8, h9, hlt, hpop⟩ := bit_add_2 o ho hfo
  simp [boardOf, List.set, h1, h2, h3, h4, h5, h6, h7, h8, h9, hfx, cellB]

theorem boardOf_setO_3 (x o : Nat) (ho : o < 512) (hfx : bitN x 8 = false)
    (hfo : bitN o 8 = false) :
    (boardOf x o).set 3 "O" = boardOf x (o + 8) := by
  obtain ⟨h1, h2, h3, h4, h5, h6, h7, h8, h9, hlt, hpop⟩ := bit_add_3 o ho hfo
  simp [boardOf, List.set, h1, h2, h3, h4, h5, h6, h7, h8, h9, hfx, cellB]

theorem boardOf_setO_4 (x o : Nat) (ho : o < 512) (hfx : bitN x 16 = false)
    (hfo : bitN o 16 = false) :
    (boardOf x o).set 4 "O" = boardOf x (o + 16) := by
  obtain ⟨h1, h2, h3, h4, h5, h6, h7, h8, h9, hlt, hpop⟩ := bit_add_4 o ho hfo
  simp [boardOf, List.set, h1, h2, h3, h4, h5, h6, h7, h8, h9, hfx, cellB]

theorem boardOf_setO_5 (x o : Nat) (ho : o < 512) (hfx : bitN x 32 = false)
    (hfo : bitN o 32 = false) :
    (boardOf x o).set 5 "O" = boardOf x (o + 32) := by
  obtain ⟨h1, h2, h3, h4, h5, h6, h7, h8, h9, hlt, hpop⟩ := bit_add_5 o ho hfo
  simp [boardOf, List.set, h1, h2, h3, h4, h5, h6, h7, h8, h9, hfx, cellB]

theorem boardOf_setO_6 (x o : Nat) (ho : o < 512) (hfx : bitN x 64 = false)
    (hfo : bitN o 64 = false) :
    (boardOf x o).set 6 "O" = boardOf x (o + 64) := by
  obtain ⟨h1, h2, h3, h4, h5, h6, h7, h8, h9, hlt, hpop⟩ := bit_add_6 o ho hfo
  simp [boardOf, List.set, h1, h2, h3, h4, h5, h6, h7, h8, h9, hfx, cellB]

theorem boardOf_setO_7 (x o : Nat) (ho : o < 512) (hfx : bitN x 128 = false)
    (hfo : bitN o 128 = false) :
    (boardOf x o).set 7 "O" = boardOf x (o + 128) := by
  obtain ⟨h1, h2, h3, h4, h5, h6, h7, h8, h9, hlt, hpop⟩ := bit_add_7 o ho hfo
  simp [boardOf, List.set, h1, h2, h3, h4, h5, h6, h7, h8, h9, hfx, cellB]

theorem boardOf_setO_8 (x o : Nat) (ho : o < 512) (hfx : bitN x 256 = false)
    (hfo : bitN o 256 = false) :
    (boardOf x o).set 8 "O" = boardOf x (o + 256) := by
  obtain ⟨h1, h2, h3, h4, h5, h6, h7, h8, h9, hlt, hpop⟩ := bit_add_8 o ho hfo
  simp [boardOf, List.set, h1, h2, h3, h4, h5, h6, h7, h8, h9, hfx, cellB]

theorem disjB_addX_0 (x o : Nat) (hx : x < 512) (hd : disjB x o = true)
    (hfx : bitN x 1 = false) (hfo : bitN o 1 = false) :
    disjB (x + 1) o = true := by
  obtain ⟨h1, h2, h3, h4, h5, h6, h7, h8, h9, hlt, hpop⟩ := bit_add_0 x hx hfx
  simp only [disjB, Bool.and_eq_true] at hd
  obtain ⟨d1, d2, d3, d4, d5, d6, d7, d8, d9⟩ := hd
  simp [disjB, h1, h2, h3, h4, h5, h6, h7, h8, h9, d1, d2, d3, d4, d5, d6, d7, d8, d9, hfo]

theorem disjB_addO_0 (x o : Nat) (ho : o < 512) (hd : disjB x o = true)
    (hfx : bitN x 1 = false) (hfo : bitN o 1 = false) :
    disjB x (o + 1) = true := by
  obtain ⟨h1, h2, h3, h4, h5, h6, h7, h8, h9, hlt, hpop⟩ := bit_add_0 o ho hfo
  simp only [disjB, Bool.and_eq_true] at hd
  obtain ⟨d1, d2, d3, d4, d5, d6, d7, d8, d9⟩ := hd
  simp [disjB, h1, h2, h3, h4, h5, h6, h7, h8, h9, d1, d2, d3, d4, d5, d6, d7, d8, d9, hfx]

theorem disjB_addX_1 (x o : Nat) (hx : x < 512) (hd : disjB x o = true)
    (hfx : bitN x 2 = false) (hfo : bitN o 2 = false) :
    disjB (x + 2) o = true := by
  obtain ⟨h1, h2, h3, h4, h5, h6, h7, h8, h9, hlt, hpop⟩ := bit_add_1 x hx hfx
  simp only [disjB, Bool.and_eq_true] at hd
  obtain ⟨d1, d2, d3, d4, d5, d6, d7, d8, d9⟩ := hd
  simp [disjB, h1, h2, h3, h4, h5, h6, h7, h8, h9, d1, d2, d3, d4, d5, d6, d7, d8, d9, hfo]

theorem disjB_addO_1 (x o : Nat) (ho : o < 512) (hd : disjB x o = true)
    (hfx : bitN x 2 = false) (hfo : bitN o 2 = false) :
    disjB x (o + 2) = true := by
  obtain ⟨h1, h2, h3, h4, h5, h6, h7, h8, h9, hlt, hpop⟩ := bit_add_1 o ho hfo
  simp only [disjB, Bool.and_eq_true] at hd
  obtain ⟨d1, d2, d3, d4, d5, d6, d7, d8, d9⟩ := hd
  simp [disjB, h1, h2, h3, h4, h5, h6, h7, h8, h9, d1, d2, d3, d4, d5, d6, d7, d8, d9, hfx]

theorem disjB_addX_2 (x o : Nat) (hx : x < 512) (hd : disjB x o = true)
    (hfx : bitN x 4 = false) (hfo : bitN o 4 = false) :
    disjB (x + 4) o = true := by
  obtain ⟨h1, h2, h3, h4, h5, h6, h7, h8, h9, hlt, hpop⟩ := bit_add_2 x hx hfx
  simp only [disjB, Bool.and_eq_true] at hd
  obtain ⟨d1, d2, d3, d4, d5, d6, d7, d8, d9⟩ := hd
  simp [disjB, h1, h2, h3, h4, h5, h6, h7, h8, h9, d1, d2, d3, d4, d5, d6, d7, d8, d9, hfo]

theorem disjB_addO_2 (x o : Nat) (ho : o < 512) (hd : disjB x o = true)
    (hfx : bitN x 4 = false) (hfo : bitN o 4 = false) :
    disjB x (o + 4) = true := by
  obtain ⟨h1, h2, h3, h4, h5, h6, h7, h8, h9, hlt, hpop⟩ := bit_add_2 o ho hfo
  simp only [disjB, Bool.and_eq_true] at hd
  obtain ⟨d1, d2, d3, d4, d5, d6, d7, d8, d9⟩ := hd
  simp [disjB, h1, h2, h3, h4, h5, h6, h7, h8, h9, d1, d2, d3, d4, d5, d6, d7, d8, d9, hfx]

theorem disjB_addX_3 (x o : Nat) (hx : x < 512) (hd : disjB x o = true)
    (hfx : bitN x 8 = false) (hfo : bitN o 8 = false) :
    disjB (x + 8) o = true := by
  obtain ⟨h1, h2, h3, h4, h5, h6, h7, h8, h9, hlt, hpop⟩ := bit_add_3 x hx hfx
  simp only [disjB, Bool.and_eq_true] at hd
  obtain ⟨d1, d2, d3, d4, d5, d6, d7, d8, d9⟩ := hd
  simp [disjB, h1, h2, h3, h4, h5, h6, h7, h8, h9, d1, d2, d3, d4, d5, d6, d7, d8, d9, hfo]

theorem disjB_addO_3 (x o : Nat) (ho : o < 512) (hd : disjB x o = true)
    (hfx : bitN x 8 = false) (hfo : bitN o 8 = false) :
    disjB x (o + 8) = true := by
  obtain ⟨h1, h2, h3, h4, h5, h6, h7, h8, h9, hlt, hpop⟩ := bit_add_3 o ho hfo
  simp only [disjB, Bool.and_eq_true] at hd
  obtain ⟨d1, d2, d3, d4, d5, d6, d7, d8, d9⟩ := hd
  simp [disjB, h1, h2, h3, h4, h5, h6, h7, h8, h9, d1, d2, d3, d4, d5, d6, d7, d8, d9, hfx]

theorem disjB_addX_4 (x o : Nat) (hx : x < 512) (hd : disjB x o = true)
    (hfx : bitN x 16 = false) (hfo : bitN o 16 = false) :
    disjB (x + 16) o = true := by
  obtain ⟨h1, h2, h3, h4, h5, h6, h7, h8, h9, hlt, hpop⟩ := bit_add_4 x hx hfx
  simp only [disjB, Bool.and_eq_true] at hd
  obtain ⟨d1, d2, d3, d4, d5, d6, d7, d8, d9⟩ := hd
  simp [disjB, h1, h2, h3, h4, h5, h6, h7, h8, h9, d1, d2, d3, d4, d5, d6, d7, d8, d9, hfo]

theorem disjB_addO_4 (x o : Nat) (ho : o < 512) (hd : disjB x o = true)
    (hfx : bitN x 16 = false) (hfo : bitN o 16 = false) :
    disjB x (o + 16) = true := by
  obtain ⟨h1, h2, h3, h4, h5, h6, h7, h8, h9, hlt, hpop⟩ := bit_add_4 o ho hfo
  simp only [disjB, Bool.and_eq_true] at hd
  obtain ⟨d1, d2, d3, d4, d5, d6, d7, d8, d9⟩ := hd
  simp [disjB, h1, h2, h3, h4, h5, h6, h7, h8, h9, d1, d2, d3, d4, d5, d6, d7, d8, d9, hfx]

theorem disjB_addX_5 (x o : Nat) (hx : x < 512) (hd : disjB x o = true)
    (hfx : bitN x 32 = false) (hfo : bitN o 32 = false) :
    disjB (x + 32) o = true := by
  obtain ⟨h1, h2, h3, h4, h5, h6, h7, h8, h9, hlt, hpop⟩ := bit_add_5 x hx hfx
  simp only [disjB, Bool.and_eq_true] at hd
  obtain ⟨d1, d2, d3, d4, d5, d6, d7, d8, d9⟩ := hd
  simp [disjB, h1, h2, h3, h4, h5, h6, h7, h8, h9, d1, d2, d3, d4, d5, d6, d7, d8, d9, hfo]

theorem disjB_addO_5 (x o : Nat) (ho : o < 512) (hd : disjB x o = true)
    (hfx : bitN x 32 = false) (hfo : bitN o 32 = false) :
    disjB x (o + 32) = true := by
  obtain ⟨h1, h2, h3, h4, h5, h6, h7, h8, h9, hlt, hpop⟩ := bit_add_5 o ho hfo
  simp only [disjB, Bool.and_eq_true] at hd
  obtain ⟨d1, d2, d3, d4, d5, d6, d7, d8, d9⟩ := hd
  simp [disjB, h1, h2, h3, h4, h5, h6, h7, h8, h9, d1, d2, d3, d4, d5, d6, d7, d8, d9, hfx]

theorem disjB_addX_6 (x o : Nat) (hx : x < 512) (hd : disjB x o = true)
    (hfx : bitN x 64 = false) (hfo : bitN o 64 = false) :
    disjB (x + 64) o = true := by
  obtain ⟨h1, h2, h3, h4, h5, h6, h7, h8, h9, hlt, hpop⟩ := bit_add_6 x hx hfx
  simp only [disjB, Bool.and_eq_true] at hd
  obtain ⟨d1, d2, d3, d4, d5, d6, d7, d8, d9⟩ := hd
  simp [disjB, h1, h2, h3, h4, h5, h6, h7, h8, h9, d1, d2, d3, d4, d5, d6, d7, d8, d9, hfo]

theorem disjB_addO_6 (x o : Nat) (ho : o < 512) (hd : disjB x o = true)
    (hfx : bitN x 64 = false) (hfo : bitN o 64 = false) :
    disjB x (o + 64) = true := by
  obtain ⟨h1, h2, h3, h4, h5, h6, h7, h8, h9, hlt, hpop⟩ := bit_add_6 o ho hfo
  simp only [disjB, Bool.and_eq_true] at hd
  obtain ⟨d1, d2, d3, d4, d5, d6, d7, d8, d9⟩ := hd
  simp [disjB, h1, h2, h3, h4, h5, h6, h7, h8, h9, d1, d2, d3, d4, d5, d6, d7, d8, d9, hfx]

theorem disjB_addX_7 (x o : Nat) (hx : x < 512) (hd : disjB x o = true)
    (hfx : bitN x 128 = false) (hfo : bitN o 128 = false) :
    disjB (x + 128) o = true := by
  obtain ⟨h1, h2, h3, h4, h5, h6, h7, h8, h9, hlt, hpop⟩ := bit_add_7 x hx hfx
  simp only [disjB, Bool.and_eq_true] at hd
  obtain ⟨d1, d2, d3, d4, d5, d6, d7, d8, d9⟩ := hd
  simp [disjB, h1, h2, h3, h4, h5, h6, h7, h8, h9, d1, d2, d3, d4, d5, d6, d7, d8, d9, hfo]

theorem disjB_addO_7 (x o : Nat) (ho : o < 512) (hd : disjB x o = true)
    (hfx : bitN x 128 = false) (hfo : bitN o 128 = false) :
    disjB x (o + 128) = true := by
  obtain ⟨h1, h2, h3, h4, h5, h6, h7, h8, h9, hlt, hpop⟩ := bit_add_7 o ho hfo
  simp only [disjB, Bool.and_eq_true] at hd
  obtain ⟨d1, d2, d3, d4, d5, d6, d7, d8, d9⟩ := hd
  simp [disjB, h1, h2, h3, h4, h5, h6, h7, h8, h9, d1, d2, d3, d4, d5, d6, d7, d8, d9, hfx]

theorem disjB_addX_8 (x o : Nat) (hx : x < 512) (hd : disjB x o = true)
    (hfx : bitN x 256 = false) (hfo : bitN o 256 = false) :
    disjB (x + 256) o = true := by
  obtain ⟨h1, h2, h3, h4, h5, h6, h7, h8, h9, hlt, hpop⟩ := bit_add_8 x hx hfx
  simp only [disjB, Bool.and_eq_true] at hd
  obtain ⟨d1, d2, d3, d4, d5, d6, d7, d8, d9⟩ := hd
  simp [disjB, h1, h2, h3, h4, h5, h6, h7, h8, h9, d1, d2, d3, d4, d5, d6, d7, d8, d9, hfo]

theorem disjB_addO_8 (x o : Nat) (ho : o < 512) (hd : disjB x o = true)
    (hfx : bitN x 256 = false) (hfo : bitN o 256 = false) :
    disjB x (o + 256) = true := by
  obtain ⟨h1, h2, h3, h4, h5, h6, h7, h8, h9, hlt, hpop⟩ := bit_add_8 o ho hfo
  simp only [disjB, Bool.and_eq_true] at hd
  obtain ⟨d1, d2, d3, d4, d5, d6, d7, d8, d9⟩ := hd
  simp [disjB, h1, h2, h3, h4, h5, h6, h7, h8, h9, d1, d2, d3, d4, d5, d6, d7, d8, d9, hfx]

end TableBits

section TableWinner

theorem space_mem_boardOf (x o : Nat) :
    (" " ∈ boardOf x o) ↔ anyFree x o = true := by
  simp [boardOf, anyFree, freeB, space_eq_cellB, List.mem_cons, Bool.or_eq_true,
    Bool.and_eq_true, Bool.not_eq_true]

theorem check_winner_boardOf (x o : Nat) (hd : disjB x o = true) :
    check_winner (boardOf x o) =
      (match fwB x o with
        | 1 => some "X"
        | 2 => some "O"
        | 3 => some "Tie"
        | _ => none) := by
  simp only [disjB, Bool.and_eq_true] at hd
  obtain ⟨d1, d2, d3, d4, d5, d6, d7, d8, d9⟩ := hd
  have e1 : (bitN x 1 && bitN o 1) = false := by
    rcases (show bitN x 1 = false ∨ bitN o 1 = false by simpa using d1) with h | h <;> simp [h]
  have e2 : (bitN x 2 && bitN o 2) = false := by
    rcases (show bitN x 2 = false ∨ bitN o 2 = false by simpa using d2) with h | h <;> simp [h]
  have e4 : (bitN x 4 && bitN o 4) = false := by
    rcases (show bitN x 4 = false ∨ bitN o 4 = false by simpa using d3) with h | h <;> simp [h]
  have e8 : (bitN x 8 && bitN o 8) = false := by
    rcases (show bitN x 8 = false ∨ bitN o 8 = false by simpa using d4) with h | h <;> simp [h]
  have e16 : (bitN x 16 && bitN o 16) = false := by
    rcases (show bitN x 16 = false ∨ bitN o 16 = false by simpa using d5) with h | h <;> simp [h]
  have e32 : (bitN x 32 && bitN o 32) = false := by
    rcases (show bitN x 32 = false ∨ bitN o 32 = false by simpa using d6) with h | h <;> simp [h]
  have e64 : (bitN x 64 && bitN o 64) = false := by
    rcases (show bitN x 64 = false ∨ bitN o 64 = false by simpa using d7) with h | h <;> simp [h]
  have e128 : (bitN x 128 && bitN o 128) = false := by
    rcases (show bitN x 128 = false ∨ bitN o 128 = false by simpa using d8) with h | h <;> simp [h]
  have e256 : (bitN x 256 && bitN o 256) = false := by
    rcases (show bitN x 256 = false ∨ bitN o 256 = false by simpa using d9) with h | h <;> simp [h]
  have wt1 : winningTriple (boardOf x o) (0, 1, 2) = (winB x 1 2 4 || winB o 1 2 4) :=
    cellB_triple (bitN x 1) (bitN o 1) (bitN x 2) (bitN o 2) (bitN x 4) (bitN o 4) e1 e2 e4
  have wt2 : winningTriple (boardOf x o) (3, 4, 5) = (winB x 8 16 32 || winB o 8 16 32) :=
    cellB_triple (bitN x 8) (bitN o 8) (bitN x 16) (bitN o 16) (bitN x 32) (bitN o 32) e8 e16 e32
  have wt3 : winningTriple (boardOf x o) (6, 7, 8) = (winB x 64 128 256 || winB o 64 128 256) :=
    cellB_triple (bitN x 64) (bitN o 64) (bitN x 128) (bitN o 128) (bitN x 256) (bitN o 256) e64 e128 e256
  have wt4 : winningTriple (boardOf x o) (0, 3, 6) = (winB x 1 8 64 || winB o 1 8 64) :=
    cellB_triple (bitN x 1) (bitN o 1) (bitN x 8) (bitN o 8) (bitN x 64) (bitN o 64) e1 e8 e64
  have wt5 : winningTriple (boardOf x o) (1, 4, 7) = (winB x 2 16 128 || winB o 2 16 128) :=
    cellB_triple (bitN x 2) (bitN o 2) (bitN x 16) (bitN o 16) (bitN x 128) (bitN o 128) e2 e16 e128
  have wt6 : winningTriple (boardOf x o) (2, 5, 8) = (winB x 4 32 256 || winB o 4 32 256) :=
    cellB_triple (bitN x 4) (bitN o 4) (bitN x 32) (bitN o 32) (bitN x 256) (bitN o 256) e4 e32 e256
  have wt7 : winningTriple (boardOf x o) (0, 4, 8) = (winB x 1 16 256 || winB o 1 16 256) :=
    cellB_triple (bitN x 1) (bitN o 1) (bitN x 16) (bitN o 16) (bitN x 256) (bitN o 256) e1 e16 e256
  have wt8 : winningTriple (boardOf x o) (2, 4, 6) = (winB x 4 16 64 || winB o 4 16 64) :=
    cellB_triple (bitN x 4) (bitN o 4) (bitN x 16) (bitN o 16) (bitN x 64) (bitN o 64) e4 e16 e64
  simp only [check_winner, WIN_COMBINATIONS, List.find?, wt1, wt2, wt3, wt4, wt5, wt6, wt7, wt8, fwB]
  by_cases hx1 : winB x 1 2 4 = true
  · have hb : bitN x 1 = true := by
      have h := hx1
      simp only [winB, Bool.and_eq_true] at h
      exact h.1.1
    simp [hx1, cellAt, boardOf, hb, cellB]
  · by_cases ho1 : winB o 1 2 4 = true
    · have hbo : bitN o 1 = true := by
        have h := ho1
        simp only [winB, Bool.and_eq_true] at h
        exact h.1.1
      have hbx : bitN x 1 = false := by
        have h := e1
        rw [hbo] at h
        simpa using h
      simp [hx1, ho1, cellAt, boardOf, hbx, hbo, cellB]
    · 
      by_cases hx2 : winB x 8 16 32 = true
      · have hb : bitN x 8 = true := by
          have h := hx2
          simp only [winB, Bool.and_eq_true] at h
          exact h.1.1
        simp [hx1, ho1, hx2, cellAt, boardOf, hb, cellB]
      · by_cases ho2 : winB o 8 16 32 = true
        · have hbo : bitN o 8 = true := by
            have h := ho2
            simp only [winB, Bool.and_eq_true] at h
            exact h.1.1
          have hbx : bitN x 8 = false := by
            have h := e8
            rw [hbo] at h
            simpa using h
          simp [hx1, ho1, hx2, ho2, cellAt, boardOf, hbx, hbo, cellB]
        · 
          by_cases hx3 : winB x 64 128 256 = true
          · have hb : bitN x 64 = true := by
              have h := hx3
              simp only [winB, Bool.and_eq_true] at h
              exact h.1.1
            simp [hx1, ho1, hx2, ho2, hx3, cellAt, boardOf, hb, cellB]
          · by_cases ho3 : winB o 64 128 256 = true
            · have hbo : bitN o 64 = true := by
                have h := ho3
                simp only [winB, Bool.and_eq_true] at h
                exact h.1.1
              have hbx : bitN x 64 = false := by
                have h := e64
                rw [hbo] at h
                simpa using h
              simp [hx1, ho1, hx2, ho2, hx3, ho3, cellAt, boardOf, hbx, hbo, cellB]
            · 
              by_cases hx4 : winB x 1 8 64 = true
              · have hb : bitN x 1 = true := by
                  have h := hx4
                  simp only [winB, Bool.and_eq_true] at h
                  exact h.1.1
                simp [hx1, ho1, hx2, ho2, hx3, ho3, hx4, cellAt, boardOf, hb, cellB]
              · by_cases ho4 : winB o 1 8 64 = true
                · have hbo : bitN o 1 = true := by
                    have h := ho4
                    simp only [winB, Bool.and_eq_true] at h
                    exact h.1.1
                  have hbx : bitN x 1 = false := by
                    have h := e1
                    rw [hbo] at h
                    simpa using h
                  simp [hx1, ho1, hx2, ho2, hx3, ho3, hx4, ho4, cellAt, boardOf, hbx, hbo, cellB]
                · 
                  by_cases hx5 : winB x 2 16 128 = true
                  · have hb : bitN x 2 = true := by
                      have h := hx5
                      simp only [winB, Bool.and_eq_true] at h
                      exact h.1.1
                    simp [hx1, ho1, hx2, ho2, hx3, ho3, hx4, ho4, hx5, cellAt, boardOf, hb, cellB]
                  · by_cases ho5 : winB o 2 16 128 = true
                    · have hbo : bitN o 2 = true := by
                        have h := ho5
                        simp only [winB, Bool.and_eq_true] at h
                        exact h.1.1
                      have hbx : bitN x 2 = false := by
                        have h := e2
                        rw [hbo] at h
                        simpa using h
                      simp [hx1, ho1, hx2, ho2, hx3, ho3, hx4, ho4, hx5, ho5, cellAt, boardOf, hbx, hbo, cellB]
                    · 
                      by_cases hx6 : winB x 4 32 256 = true
                      · have hb : bitN x 4 = true := by
                          have h := hx6
                          simp only [winB, Bool.and_eq_true] at h
                          exact h.1.1
                        simp [hx1, ho1, hx2, ho2, hx3, ho3, hx4, ho4, hx5, ho5, hx6, cellAt, boardOf, hb, cellB]
                      · by_cases ho6 : winB o 4 32 256 = true
                        · have hbo : bitN o 4 = true := by
                            have h := ho6
                            simp only [winB, Bool.and_eq_true] at h
                            exact h.1.1
                          have hbx : bitN x 4 = false := by
                            have h := e4
                            rw [hbo] at h
                            simpa using h
                          simp [hx1, ho1, hx2, ho2, hx3, ho3, hx4, ho4, hx5, ho5, hx6, ho6, cellAt, boardOf, hbx, hbo, cellB]
                        · 
                          by_cases hx7 : winB x 1 16 256 = true
                          · have hb : bitN x 1 = true := by
                              have h := hx7
                              simp only [winB, Bool.and_eq_true] at h
                              exact h.1.1
                            simp [hx1, ho1, hx2, ho2, hx3, ho3, hx4, ho4, hx5, ho5, hx6, ho6, hx7, cellAt, boardOf, hb, cellB]
                          · by_cases ho7 : winB o 1 16 256 = true
                            · have hbo : bitN o 1 = true := by
                                have h := ho7
                                simp only [winB, Bool.and_eq_true] at h
                                exact h.1.1
                              have hbx : bitN x 1 = false := by
                                have h := e1
                                rw [hbo] at h
                                simpa using h
                              simp [hx1, ho1, hx2, ho2, hx3, ho3, hx4, ho4, hx5, ho5, hx6, ho6, hx7, ho7, cellAt, boardOf, hbx, hbo, cellB]
                            · 
                              by_cases hx8 : winB x 4 16 64 = true
                              · have hb : bitN x 4 = true := by
                                  have h := hx8
                                  simp only [winB, Bool.and_eq_true] at h
                                  exact h.1.1
                                simp [hx1, ho1, hx2, ho2, hx3, ho3, hx4, ho4, hx5, ho5, hx6, ho6, hx7, ho7, hx8, cellAt, boardOf, hb, cellB]
                              · by_cases ho8 : winB o 4 16 64 = true
                                · have hbo : bitN o 4 = true := by
                                    have h := ho8
                                    simp only [winB, Bool.and_eq_true] at h
                                    exact h.1.1
                                  have hbx : bitN x 4 = false := by
                                    have h := e4
                                    rw [hbo] at h
                                    simpa using h
                                  simp [hx1, ho1, hx2, ho2, hx3, ho3, hx4, ho4, hx5, ho5, hx6, ho6, hx7, ho7, hx8, ho8, cellAt, boardOf, hbx, hbo, cellB]
                                · 
                                  by_cases hfree : anyFree x o = true
                                  · have hsp : " " ∈ boardOf x o := (space_mem_boardOf x o).mpr hfree
                                    simp [hx1, ho1, hx2, ho2, hx3, ho3, hx4, ho4, hx5, ho5, hx6, ho6, hx7, ho7, hx8, ho8, hfree, hsp]
                                  · have hsp : " " ∉ boardOf x o := by
                                      intro h
                                      exact hfree ((space_mem_boardOf x o).mp h)
                                    simp [hx1, ho1, hx2, ho2, hx3, ho3, hx4, ho4, hx5, ho5, hx6, ho6, hx7, ho7, hx8, ho8, hfree, hsp]


end TableWinner

section TableSound

theorem avail_boardOf (x o : Nat) :
    available_moves (boardOf x o) =
      (idxPows.filter (fun ip => freeB x o ip.2)).map (fun ip => ip.1) := by
  have hc : ∀ (a b : Bool), (cellB a b == " ") = (!a && !b) := by decide
  simp [available_moves, boardOf, idxPows, List.enum, List.enumFrom, List.filter_cons,
    hc, freeB, apply_ite (List.map (fun p : Nat × String => p.1)),
    apply_ite (List.map (fun ip : Nat × Nat => ip.1))]

theorem decodeMax_pos (c : Nat) (hc : 1 ≤ c) :
    decodeMax c = Score.int ((c : Int) - 11) := by
  have h0 : (c == 0) = false := by
    have : c ≠ 0 := by omega
    simpa using this
  simp [decodeMax, h0]

theorem decodeMin_small (c : Nat) (hc : c ≤ 21) :
    decodeMin c = Score.int ((c : Int) - 11) := by
  have h0 : (c == 100) = false := by
    have : c ≠ 100 := by omega
    simpa using this
  simp [decodeMin, h0]

theorem foldMax_rel (free : Nat × Nat → Bool) (tv : Nat × Nat → Nat) (g : Nat → Score) :
    ∀ (l : List (Nat × Nat)) (u : Nat),
      (u = 0 ∨ (1 ≤ u ∧ u ≤ 21)) →
      (∀ ip ∈ l, free ip = true →
        1 ≤ tv ip ∧ tv ip ≤ 21 ∧ g ip.1 = Score.int ((tv ip : Int) - 11)) →
      ((l.filter free).map (fun ip => ip.1)).foldl
          (fun best m => let s := g m; if slt best s then s else best) (decodeMax u)
          = decodeMax (l.foldl (fun u ip => cond (free ip)
              (cond (Nat.blt u (tv ip)) (tv ip) u) u) u)
        ∧ (l.foldl (fun u ip => cond (free ip)
              (cond (Nat.blt u (tv ip)) (tv ip) u) u) u = 0 ∨
           (1 ≤ l.foldl (fun u ip => cond (free ip)
              (cond (Nat.blt u (tv ip)) (tv ip) u) u) u ∧
            l.foldl (fun u ip => cond (free ip)
              (cond (Nat.blt u (tv ip)) (tv ip) u) u) u ≤ 21)) := by
  intro l
  induction l with
  | nil => intro u hu H; simpa using hu
  | cons ip l ih =>
    intro u hu H
    by_cases hf : free ip = true
    · obtain ⟨h1, h2, h3⟩ := H ip (by simp) hf
      have hstep : (if slt (decodeMax u) (g ip.1) then g ip.1 else decodeMax u)
          = decodeMax (cond (Nat.blt u (tv ip)) (tv ip) u) := by
        rw [h3]
        rcases hu with rfl | ⟨hu1, hu2⟩
        · have hblt : Nat.blt 0 (tv ip) = true := by
            have : 0 < tv ip := by omega
            simpa [Nat.blt] using this
          rw [hblt]
          simp only [cond_true]
          rw [decodeMax_pos (tv ip) h1]
          simp [decodeMax, slt]
        · rw [decodeMax_pos u hu1]
          by_cases hlt : u < tv ip
          · have hblt : Nat.blt u (tv ip) = true := by simpa [Nat.blt] using hlt
            have hslt : slt (Score.int ((u : Int) - 11)) (Score.int ((tv ip : Int) - 11))
                = true := by
              simp [slt]; omega
            rw [hblt, hslt]
            simp only [cond_true]
            rw [decodeMax_pos (tv ip) h1]
            simp
          · have hblt : Nat.blt u (tv ip) = false := by
              cases hb : Nat.blt u (tv ip)
              · rfl
              · exact absurd (show u < tv ip by simpa [Nat.blt] using hb) hlt
            have hslt : slt (Score.int ((u : Int) - 11)) (Score.int ((tv ip : Int) - 11))
                = false := by
              simp [slt]; omega
            rw [hblt, hslt]
            simp only [cond_false]
            rw [decodeMax_pos u hu1]
            simp
      have hu2 : (cond (Nat.blt u (tv ip)) (tv ip) u = 0 ∨
          (1 ≤ cond (Nat.blt u (tv ip)) (tv ip) u ∧
           cond (Nat.blt u (tv ip)) (tv ip) u ≤ 21)) := by
        cases hb : Nat.blt u (tv ip) <;> simp <;> omega
      have := ih (cond (Nat.blt u (tv ip)) (tv ip) u) hu2
        (fun q hq hfq => H q (by simp [hq]) hfq)
      rw [List.filter_cons, if_pos hf]
      simp only [List.map_cons, List.foldl_cons, hf, cond_true]
      rw [hstep]
      exact this
    · have hf0 : free ip = false := by simpa using hf
      rw [List.filter_cons, if_neg (by simp [hf0])]
      simp only [List.foldl_cons, hf0, cond_false]
      exact ih u hu (fun q hq hfq => H q (by simp [hq]) hfq)

theorem foldMin_rel (free : Nat × Nat → Bool) (tv : Nat × Nat → Nat) (g : Nat → Score) :
    ∀ (l : List (Nat × Nat)) (u : Nat),
      (u = 100 ∨ (1 ≤ u ∧ u ≤ 21)) →
      (∀ ip ∈ l, free ip = true →
        1 ≤ tv ip ∧ tv ip ≤ 21 ∧ g ip.1 = Score.int ((tv ip : Int) - 11)) →
      ((l.filter free).map (fun ip => ip.1)).foldl
          (fun best m => let s := g m; if slt s best then s else best) (decodeMin u)
          = decodeMin (l.foldl (fun u ip => cond (free ip)
              (cond (Nat.blt (tv ip) u) (tv ip) u) u) u)
        ∧ (l.foldl (fun u ip => cond (free ip)
              (cond (Nat.blt (tv ip) u) (tv ip) u) u) u = 100 ∨
           (1 ≤ l.foldl (fun u ip => cond (free ip)
              (cond (Nat.blt (tv ip) u) (tv ip) u) u) u ∧
            l.foldl (fun u ip => cond (free ip)
              (cond (Nat.blt (tv ip) u) (tv ip) u) u) u ≤ 21)) := by
  intro l
  induction l with
  | nil => intro u hu H; simpa using hu
  | cons ip l ih =>
    intro u hu H
    by_cases hf : free ip = true
    · obtain ⟨h1, h2, h3⟩ := H ip (by simp) hf
      have hstep : (if slt (g ip.1) (decodeMin u) then g ip.1 else decodeMin u)
          = decodeMin (cond (Nat.blt (tv ip) u) (tv ip) u) := by
        rw [h3]
        rcases hu with rfl | ⟨hu1, hu2⟩
        · have hblt : Nat.blt (tv ip) 100 = true := by
            simp [Nat.blt]
            omega
          rw [hblt]
          simp only [cond_true]
          rw [decodeMin_small (tv ip) h2]
          simp [decodeMin, slt]
        · rw [decodeMin_small u hu2]
          by_cases hlt : tv ip < u
          · have hblt : Nat.blt (tv ip) u = true := by simpa [Nat.blt] using hlt
            have hslt : slt (Score.int ((tv ip : Int) - 11)) (Score.int ((u : Int) - 11))
                = true := by
              simp [slt]; omega
            rw [hblt, hslt]
            simp only [cond_true]
            rw [decodeMin_small (tv ip) h2]
            simp
          · have hblt : Nat.blt (tv ip) u = false := by
              cases hb : Nat.blt (tv ip) u
              · rfl
              · exact absurd (show tv ip < u by simpa [Nat.blt] using hb) hlt
            have hslt : slt (Score.int ((tv ip : Int) - 11)) (Score.int ((u : Int) - 11))
                = false := by
              simp [slt]; omega
            rw [hblt, hslt]
            simp only [cond_false]
            rw [decodeMin_small u hu2]
            simp
      have hu2 : (cond (Nat.blt (tv ip) u) (tv ip) u = 100 ∨
          (1 ≤ cond (Nat.blt (tv ip) u) (tv ip) u ∧
           cond (Nat.blt (tv ip) u) (tv ip) u ≤ 21)) := by
        cases hb : Nat.blt (tv ip) u <;> simp <;> omega
      have := ih (cond (Nat.blt (tv ip) u) (tv ip) u) hu2
        (fun q hq hfq => H q (by simp [hq]) hfq)
      rw [List.filter_cons, if_pos hf]
      simp only [List.map_cons, List.foldl_cons, hf, cond_true]
      rw [hstep]
      exact this
    · have hf0 : free ip = false := by simpa using hf
      rw [List.filter_cons, if_neg (by simp [hf0])]
      simp only [List.foldl_cons, hf0, cond_false]
      exact ih u hu (fun q hq hfq => H q (by simp [hq]) hfq)

theorem cond_le3 (b : Bool) (a c : Nat) (ha : a ≤ 3) (hc : c ≤ 3) : cond b a c ≤ 3 := by
  cases b <;> simpa

theorem fwB_le (x o : Nat) : fwB x o ≤ 3 := by
  unfold fwB
  repeat' first
    | exact cond_le3 _ _ _ (by omega) (by omega)
    | apply cond_le3 _ _ _ (by omega)
    | apply cond_le3
    | omega


theorem all_idxPows (f : Nat × Nat → Bool) (h : idxPows.all f = true) :
    f (0, 1) = true ∧ f (1, 2) = true ∧ f (2, 4) = true ∧ f (3, 8) = true ∧
      f (4, 16) = true ∧ f (5, 32) = true ∧ f (6, 64) = true ∧
      f (7, 128) = true ∧ f (8, 256) = true := by
  simpa [idxPows] using h

theorem cond_pos1 (b : Bool) (a c : Nat) (ha : 1 ≤ a) (hc : 1 ≤ c) : 1 ≤ cond b a c := by
  cases b <;> simpa

theorem fwB_pos_of_full (x o : Nat) (h : anyFree x o = false) : 1 ≤ fwB x o := by
  unfold fwB
  rw [h]
  simp only [cond_false]
  repeat' first
    | apply cond_pos1
    | omega

theorem pair_le (a b : Nat) (ha : a < 2) (hb : b < 2)
    (e : ¬(a = 1) ∨ ¬(b = 1)) : a + b ≤ 1 := by
  rcases e with e | e <;> omega

theorem popB_le_eight (x o : Nat) (hd : disjB x o = true) (h : anyFree x o = true) :
    popB x + popB o ≤ 8 := by
  simp only [disjB, Bool.and_eq_true] at hd
  obtain ⟨d1, d2, d3, d4, d5, d6, d7, d8, d9⟩ := hd
  have e1 : ¬(x / 1 % 2 = 1) ∨ ¬(o / 1 % 2 = 1) := by simpa [bitN] using d1
  have e2 : ¬(x / 2 % 2 = 1) ∨ ¬(o / 2 % 2 = 1) := by simpa [bitN] using d2
  have e3 : ¬(x / 4 % 2 = 1) ∨ ¬(o / 4 % 2 = 1) := by simpa [bitN] using d3
  have e4 : ¬(x / 8 % 2 = 1) ∨ ¬(o / 8 % 2 = 1) := by simpa [bitN] using d4
  have e5 : ¬(x / 16 % 2 = 1) ∨ ¬(o / 16 % 2 = 1) := by simpa [bitN] using d5
  have e6 : ¬(x / 32 % 2 = 1) ∨ ¬(o / 32 % 2 = 1) := by simpa [bitN] using d6
  have e7 : ¬(x / 64 % 2 = 1) ∨ ¬(o / 64 % 2 = 1) := by simpa [bitN] using d7
  have e8 : ¬(x / 128 % 2 = 1) ∨ ¬(o / 128 % 2 = 1) := by simpa [bitN] using d8
  have e9 : ¬(x / 256 % 2 = 1) ∨ ¬(o / 256 % 2 = 1) := by simpa [bitN] using d9
  have f1 : x / 1 % 2 + o / 1 % 2 ≤ 1 :=
    pair_le _ _ (Nat.mod_lt _ (by omega)) (Nat.mod_lt _ (by omega)) e1
  have f2 : x / 2 % 2 + o / 2 % 2 ≤ 1 :=
    pair_le _ _ (Nat.mod_lt _ (by omega)) (Nat.mod_lt _ (by omega)) e2
  have f3 : x / 4 % 2 + o / 4 % 2 ≤ 1 :=
    pair_le _ _ (Nat.mod_lt _ (by omega)) (Nat.mod_lt _ (by omega)) e3
  have f4 : x / 8 % 2 + o / 8 % 2 ≤ 1 :=
    pair_le _ _ (Nat.mod_lt _ (by omega)) (Nat.mod_lt _ (by omega)) e4
  have f5 : x / 16 % 2 + o / 16 % 2 ≤ 1 :=
    pair_le _ _ (Nat.mod_lt _ (by omega)) (Nat.mod_lt _ (by omega)) e5
  have f6 : x / 32 % 2 + o / 32 % 2 ≤ 1 :=
    pair_le _ _ (Nat.mod_lt _ (by omega)) (Nat.mod_lt _ (by omega)) e6
  have f7 : x / 64 % 2 + o / 64 % 2 ≤ 1 :=
    pair_le _ _ (Nat.mod_lt _ (by omega)) (Nat.mod_lt _ (by omega)) e7
  have f8 : x / 128 % 2 + o / 128 % 2 ≤ 1 :=
    pair_le _ _ (Nat.mod_lt _ (by omega)) (Nat.mod_lt _ (by omega)) e8
  have f9 : x / 256 % 2 + o / 256 % 2 ≤ 1 :=
    pair_le _ _ (Nat.mod_lt _ (by omega)) (Nat.mod_lt _ (by omega)) e9
  clear d1 d2 d3 d4 d5 d6 d7 d8 d9 e1 e2 e3 e4 e5 e6 e7 e8 e9
  simp only [anyFree, freeB, Bool.or_eq_true, Bool.and_eq_true, Bool.not_eq_true',
    bitN, beq_eq_false_iff_ne, ne_eq] at h
  unfold popB
  generalize x / 1 % 2 = a1 at f1 h ⊢
  generalize x / 2 % 2 = a2 at f2 h ⊢
  generalize x / 4 % 2 = a3 at f3 h ⊢
  generalize x / 8 % 2 = a4 at f4 h ⊢
  generalize x / 16 % 2 = a5 at f5 h ⊢
  generalize x / 32 % 2 = a6 at f6 h ⊢
  generalize x / 64 % 2 = a7 at f7 h ⊢
  generalize x / 128 % 2 = a8 at f8 h ⊢
  generalize x / 256 % 2 = a9 at f9 h ⊢
  generalize o / 1 % 2 = b1 at f1 h ⊢
  generalize o / 2 % 2 = b2 at f2 h ⊢
  generalize o / 4 % 2 = b3 at f3 h ⊢
  generalize o / 8 % 2 = b4 at f4 h ⊢
  generalize o / 16 % 2 = b5 at f5 h ⊢
  generalize o / 32 % 2 = b6 at f6 h ⊢
  generalize o / 64 % 2 = b7 at f7 h ⊢
  generalize o / 128 % 2 = b8 at f8 h ⊢
  generalize o / 256 % 2 = b9 at f9 h ⊢
  omega

theorem spure_nonterminal_max (b : Board) (fu d : Nat) (ai hu : String)
    (h : check_winner b = none) :
    spure (fu + 1) b d true ai hu
      = (available_moves b).foldl (fun best mv =>
          let s := spure fu (b.set mv ai) (d + 1) false ai hu
          if slt best s then s else best) Score.negInf := by
  simp [spure, h]

theorem spure_nonterminal_min (b : Board) (fu d : Nat) (ai hu : String)
    (h : check_winner b = none) :
    spure (fu + 1) b d false ai hu
      = (available_moves b).foldl (fun best mv =>
          let s := spure fu (b.set mv hu) (d + 1) true ai hu
          if slt s best then s else best) Score.posInf := by
  simp [spure, h]

theorem table_sound (t : RowT)
    (hlc : ∀ x o, x < 512 → o < 512 → tval t x o ≠ 0 →
      checkEntry t x o (tval t x o) = true) :
    ∀ (fuel x o : Nat), x < 512 → o < 512 → disjB x o = true →
      tval t x o ≠ 0 → 1 ≤ popB x + popB o →
      9 - (popB x + popB o) < fuel →
      1 ≤ tval t x o ∧ tval t x o ≤ 21 ∧
        spure fuel (boardOf x o) (popB x + popB o - 1)
          ((popB x + popB o) % 2 == 0) "X" "O"
          = Score.int ((tval t x o : Int) - 11) := by
  intro fuel
  induction fuel with
  | zero =>
    intro x o hx ho hd hv hm hf
    exact absurd hf (by omega)
  | succ fu ih =>
    intro x o hx ho hd hv hm hf
    have hck := hlc x o hx ho hv
    simp only [checkEntry] at hck
    have hwle := fwB_le x o
    have hpx : popB x ≤ 9 := by unfold popB; omega
    have hpo : popB o ≤ 9 := by unfold popB; omega
    have hv32 : tval t x o < 32 := by
      unfold tval
      exact Nat.mod_lt _ (by omega)
    by_cases hw1 : fwB x o = 1
    · have hw' : check_winner (boardOf x o) = some "X" := by
        rw [check_winner_boardOf x o hd, hw1]
      have hveq : tval t x o = 21 - (popB x + popB o - 1) := by
        rw [hw1] at hck
        simpa using hck
      refine ⟨by omega, by omega, ?_⟩
      rw [spure_terminal_ai (boardOf x o) fu (popB x + popB o - 1)
        ((popB x + popB o) % 2 == 0) "X" "O" hw']
      rw [hveq]
      have harith : (10 : Int) - (↑(popB x + popB o - 1) : Int)
          = (↑(21 - (popB x + popB o - 1)) : Int) - 11 := by omega
      exact congrArg Score.int harith
    · by_cases hw2 : fwB x o = 2
      · have hw' : check_winner (boardOf x o) = some "O" := by
          rw [check_winner_boardOf x o hd, hw2]
        have hveq : tval t x o = popB x + popB o - 1 + 1 := by
          rw [hw2] at hck
          simpa using hck
        refine ⟨by omega, by omega, ?_⟩
        rw [spure_terminal_hu (boardOf x o) fu (popB x + popB o - 1)
          ((popB x + popB o) % 2 == 0) "X" "O" (by decide) hw']
        rw [hveq]
        have harith : (↑(popB x + popB o - 1) : Int) - 10
            = (↑(popB x + popB o - 1 + 1) : Int) - 11 := by omega
        exact congrArg Score.int harith
      · by_cases hw3 : fwB x o = 3
        · have hw' : check_winner (boardOf x o) = some "Tie" := by
            rw [check_winner_boardOf x o hd, hw3]
          have hveq : tval t x o = 11 := by
            rw [hw3] at hck
            simpa using hck
          refine ⟨by omega, by omega, ?_⟩
          rw [spure_terminal_tie (boardOf x o) fu (popB x + popB o - 1)
            ((popB x + popB o) % 2 == 0) "X" "O" (by decide) (by decide) hw']
          rw [hveq]
          exact congrArg Score.int (by omega)
        · have hw0 : fwB x o = 0 := by omega
          have hwnone : check_winner (boardOf x o) = none := by
            rw [check_winner_boardOf x o hd, hw0]
          have hany : anyFree x o = true := by
            cases hA : anyFree x o
            · have := fwB_pos_of_full x o hA
              omega
            · rfl
          have hm8 := popB_le_eight x o hd hany
          rw [hw0] at hck
          by_cases hpar : (popB x + popB o) % 2 = 0
          · have hm2 : ((popB x + popB o) % 2 == 0) = true := by simp [hpar]
            rw [hm2] at hck
            simp only [show ((0 : Nat) == 1) = false from rfl,
              show ((0 : Nat) == 2) = false from rfl,
              show ((0 : Nat) == 3) = false from rfl, cond_false, cond_true] at hck
            rw [Bool.and_eq_true] at hck
            obtain ⟨hpres, hveqb⟩ := hck
            have hveq : tval t x o = chMaxC t x o := by simpa using hveqb
            have hP := all_idxPows _ hpres
            have Hmax : ∀ ip ∈ idxPows, freeB x o ip.2 = true →
                1 ≤ tval t (x + ip.2) o ∧ tval t (x + ip.2) o ≤ 21 ∧
                (fun mv => spure fu ((boardOf x o).set mv "X")
                  (popB x + popB o - 1 + 1) false "X" "O") ip.1
                  = Score.int ((tval t (x + ip.2) o : Int) - 11) := by
              intro ip hip hfree
              obtain ⟨hbx, hbo⟩ := free_split hfree
              simp only [idxPows, List.mem_cons, List.not_mem_nil, or_false] at hip
              rcases hip with rfl | rfl | rfl | rfl | rfl | rfl | rfl | rfl | rfl
              · obtain ⟨hnb, g2, g3, g4, g5, g6, g7, g8, g9, hlt, hpop⟩ := bit_add_0 x hx hbx
                have hfree1 : freeB x o 1 = true := hfree
                have hpres1 : tval t (x + 1) o ≠ 0 := by
                  have h := hP.1
                  simp only [hfree1, Bool.not_true, Bool.false_or] at h
                  simpa using h
                have hdj1 := disjB_addX_0 x o hx hd hbx hbo
                have hrec := ih (x + 1) o hlt ho hdj1 hpres1 (by omega) (by omega)
                rw [hpop] at hrec
                have ha1 : popB x + 1 + popB o - 1 = popB x + popB o - 1 + 1 := by omega
                have ha2 : ((popB x + 1 + popB o) % 2 == 0) = false := by
                  simp only [beq_eq_false_iff_ne, ne_eq]
                  omega
                rw [ha1, ha2, ← boardOf_setX_0 x o hx hbx] at hrec
                exact ⟨hrec.1, hrec.2.1, hrec.2.2⟩
              · obtain ⟨hnb, g2, g3, g4, g5, g6, g7, g8, g9, hlt, hpop⟩ := bit_add_1 x hx hbx
                have hfree1 : freeB x o 2 = true := hfree
                have hpres1 : tval t (x + 2) o ≠ 0 := by
                  have h := hP.2.1
                  simp only [hfree1, Bool.not_true, Bool.false_or] at h
                  simpa using h
                have hdj1 := disjB_addX_1 x o hx hd hbx hbo
                have hrec := ih (x + 2) o hlt ho hdj1 hpres1 (by omega) (by omega)
                rw [hpop] at hrec
                have ha1 : popB x + 1 + popB o - 1 = popB x + popB o - 1 + 1 := by omega
                have ha2 : ((popB x + 1 + popB o) % 2 == 0) = false := by
                  simp only [beq_eq_false_iff_ne, ne_eq]
                  omega
                rw [ha1, ha2, ← boardOf_setX_1 x o hx hbx] at hrec
                exact ⟨hrec.1, hrec.2.1, hrec.2.2⟩
              · obtain ⟨hnb, g2, g3, g4, g5, g6, g7, g8, g9, hlt, hpop⟩ := bit_add_2 x hx hbx
                have hfree1 : freeB x o 4 = true := hfree
                have hpres1 : tval t (x + 4) o ≠ 0 := by
                  have h := hP.2.2.1
                  simp only [hfree1, Bool.not_true, Bool.false_or] at h
                  simpa using h
                have hdj1 := disjB_addX_2 x o hx hd hbx hbo
                have hrec := ih (x + 4) o hlt ho hdj1 hpres1 (by omega) (by omega)
                rw [hpop] at hrec
                have ha1 : popB x + 1 + popB o - 1 = popB x + popB o - 1 + 1 := by omega
                have ha2 : ((popB x + 1 + popB o) % 2 == 0) = false := by
                  simp only [beq_eq_false_iff_ne, ne_eq]
                  omega
                rw [ha1, ha2, ← boardOf_setX_2 x o hx hbx] at hrec
                exact ⟨hrec.1, hrec.2.1, hrec.2.2⟩
              · obtain ⟨hnb, g2, g3, g4, g5, g6, g7, g8, g9, hlt, hpop⟩ := bit_add_3 x hx hbx
                have hfree1 : freeB x o 8 = true := hfree
                have hpres1 : tval t (x + 8) o ≠ 0 := by
                  have h := hP.2.2.2.1
                  simp only [hfree1, Bool.not_true, Bool.false_or] at h
                  simpa using h
                have hdj1 := disjB_addX_3 x o hx hd hbx hbo
                have hrec := ih (x + 8) o hlt ho hdj1 hpres1 (by omega) (by omega)
                rw [hpop] at hrec
                have ha1 : popB x + 1 + popB o - 1 = popB x + popB o - 1 + 1 := by omega
                have ha2 : ((popB x + 1 + popB o) % 2 == 0) = false := by
                  simp only [beq_eq_false_iff_ne, ne_eq]
                  omega
                rw [ha1, ha2, ← boardOf_setX_3 x o hx hbx] at hrec
                exact ⟨hrec.1, hrec.2.1, hrec.2.2⟩
              · obtain ⟨hnb, g2, g3, g4, g5, g6, g7, g8, g9, hlt, hpop⟩ := bit_add_4 x hx hbx
                have hfree1 : freeB x o 16 = true := hfree
                have hpres1 : tval t (x + 16) o ≠ 0 := by
                  have h := hP.2.2.2.2.1
                  simp only [hfree1, Bool.not_true, Bool.false_or] at h
                  simpa using h
                have hdj1 := disjB_addX_4 x o hx hd hbx hbo
                have hrec := ih (x + 16) o hlt ho hdj1 hpres1 (by omega) (by omega)
                rw [hpop] at hrec
                have ha1 : popB x + 1 + popB o - 1 = popB x + popB o - 1 + 1 := by omega
                have ha2 : ((popB x + 1 + popB o) % 2 == 0) = false := by
                  simp only [beq_eq_false_iff_ne, ne_eq]
                  omega
                rw [ha1, ha2, ← boardOf_setX_4 x o hx hbx] at hrec
                exact ⟨hrec.1, hrec.2.1, hrec.2.2⟩
              · obtain ⟨hnb, g2, g3, g4, g5, g6, g7, g8, g9, hlt, hpop⟩ := bit_add_5 x hx hbx
                have hfree1 : freeB x o 32 = true := hfree
                have hpres1 : tval t (x + 32) o ≠ 0 := by
                  have h := hP.2.2.2.2.2.1
                  simp only [hfree1, Bool.not_true, Bool.false_or] at h
                  simpa using h
                have hdj1 := disjB_addX_5 x o hx hd hbx hbo
                have hrec := ih (x + 32) o hlt ho hdj1 hpres1 (by omega) (by omega)
                rw [hpop] at hrec
                have ha1 : popB x + 1 + popB o - 1 = popB x + popB o - 1 + 1 := by omega
                have ha2 : ((popB x + 1 + popB o) % 2 == 0) = false := by
                  simp only [beq_eq_false_iff_ne, ne_eq]
                  omega
                rw [ha1, ha2, ← boardOf_setX_5 x o hx hbx] at hrec
                exact ⟨hrec.1, hrec.2.1, hrec.2.2⟩
              · obtain ⟨hnb, g2, g3, g4, g5, g6, g7, g8, g9, hlt, hpop⟩ := bit_add_6 x hx hbx
                have hfree1 : freeB x o 64 = true := hfree
                have hpres1 : tval t (x + 64) o ≠ 0 := by
                  have h := hP.2.2.2.2.2.2.1
                  simp only [hfree1, Bool.not_true, Bool.false_or] at h
                  simpa using h
                have hdj1 := disjB_addX_6 x o hx hd hbx hbo
                have hrec := ih (x + 64) o hlt ho hdj1 hpres1 (by omega) (by omega)
                rw [hpop] at hrec
                have ha1 : popB x + 1 + popB o - 1 = popB x + popB o - 1 + 1 := by omega
                have ha2 : ((popB x + 1 + popB o) % 2 == 0) = false := by
                  simp only [beq_eq_false_iff_ne, ne_eq]
                  omega
                rw [ha1, ha2, ← boardOf_setX_6 x o hx hbx] at hrec
                exact ⟨hrec.1, hrec.2.1, hrec.2.2⟩
              · obtain ⟨hnb, g2, g3, g4, g5, g6, g7, g8, g9, hlt, hpop⟩ := bit_add_7 x hx hbx
                have hfree1 : freeB x o 128 = true := hfree
                have hpres1 : tval t (x + 128) o ≠ 0 := by
                  have h := hP.2.2.2.2.2.2.2.1
                  simp only [hfree1, Bool.not_true, Bool.false_or] at h
                  simpa using h
                have hdj1 := disjB_addX_7 x o hx hd hbx hbo
                have hrec := ih (x + 128) o hlt ho hdj1 hpres1 (by omega) (by omega)
                rw [hpop] at hrec
                have ha1 : popB x + 1 + popB o - 1 = popB x + popB o - 1 + 1 := by omega
                have ha2 : ((popB x + 1 + popB o) % 2 == 0) = false := by
                  simp only [beq_eq_false_iff_ne, ne_eq]
                  omega
                rw [ha1, ha2, ← boardOf_setX_7 x o hx hbx] at hrec
                exact ⟨hrec.1, hrec.2.1, hrec.2.2⟩
              · obtain ⟨hnb, g2, g3, g4, g5, g6, g7, g8, g9, hlt, hpop⟩ := bit_add_8 x hx hbx
                have hfree1 : freeB x o 256 = true := hfree
                have hpres1 : tval t (x + 256) o ≠ 0 := by
                  have h := hP.2.2.2.2.2.2.2.2
                  simp only [hfree1, Bool.not_true, Bool.false_or] at h
                  simpa using h
                have hdj1 := disjB_addX_8 x o hx hd hbx hbo
                have hrec := ih (x + 256) o hlt ho hdj1 hpres1 (by omega) (by omega)
                rw [hpop] at hrec
                have ha1 : popB x + 1 + popB o - 1 = popB x + popB o - 1 + 1 := by omega
                have ha2 : ((popB x + 1 + popB o) % 2 == 0) = false := by
                  simp only [beq_eq_false_iff_ne, ne_eq]
                  omega
                rw [ha1, ha2, ← boardOf_setX_8 x o hx hbx] at hrec
                exact ⟨hrec.1, hrec.2.1, hrec.2.2⟩
            have hfold := foldMax_rel (fun ip => freeB x o ip.2)
              (fun ip => tval t (x + ip.2) o)
              (fun mv => spure fu ((boardOf x o).set mv "X")
                (popB x + popB o - 1 + 1) false "X" "O")
              idxPows 0 (Or.inl rfl) Hmax
            have hcm1 : 1 ≤ chMaxC t x o ∧ chMaxC t x o ≤ 21 := by
              rcases hfold.2 with hz | hb
              · have hz' : chMaxC t x o = 0 := hz
                have hv0 : tval t x o = 0 := by omega
                exact absurd hv0 hv
              · exact hb
            refine ⟨by omega, by omega, ?_⟩
            rw [hm2]
            rw [spure_nonterminal_max (boardOf x o) fu (popB x + popB o - 1) "X" "O" hwnone]
            rw [avail_boardOf x o]
            have h1 : ((idxPows.filter (fun ip => freeB x o ip.2)).map
                  (fun ip => ip.1)).foldl
                (fun best mv =>
                  let s := spure fu ((boardOf x o).set mv "X")
                    (popB x + popB o - 1 + 1) false "X" "O"
                  if slt best s then s else best) Score.negInf
                = decodeMax (chMaxC t x o) := hfold.1
            rw [h1, ← hveq]
            exact decodeMax_pos _ (by omega)
          · have hm2 : ((popB x + popB o) % 2 == 0) = false := by simpa using hpar
            rw [hm2] at hck
            simp only [show ((0 : Nat) == 1) = false from rfl,
              show ((0 : Nat) == 2) = false from rfl,
              show ((0 : Nat) == 3) = false from rfl, cond_false] at hck
            rw [Bool.and_eq_true] at hck
            obtain ⟨hpres, hveqb⟩ := hck
            have hveq : tval t x o = chMinC t x o := by simpa using hveqb
            have hP := all_idxPows _ hpres
            have Hmin : ∀ ip ∈ idxPows, freeB x o ip.2 = true →
                1 ≤ tval t x (o + ip.2) ∧ tval t x (o + ip.2) ≤ 21 ∧
                (fun mv => spure fu ((boardOf x o).set mv "O")
                  (popB x + popB o - 1 + 1) true "X" "O") ip.1
                  = Score.int ((tval t x (o + ip.2) : Int) - 11) := by
              intro ip hip hfree
              obtain ⟨hbx, hbo⟩ := free_split hfree
              simp only [idxPows, List.mem_cons, List.not_mem_nil, or_false] at hip
              rcases hip with rfl | rfl | rfl | rfl | rfl | rfl | rfl | rfl | rfl
              · obtain ⟨hnb, g2, g3, g4, g5, g6, g7, g8, g9, hlt, hpop⟩ := bit_add_0 o ho hbo
                have hfree1 : freeB x o 1 = true := hfree
                have hpres1 : tval t x (o + 1) ≠ 0 := by
                  have h := hP.1
                  simp only [hfree1, Bool.not_true, Bool.false_or] at h
                  simpa using h
                have hdj1 := disjB_addO_0 x o ho hd hbx hbo
                have hrec := ih x (o + 1) hx hlt hdj1 hpres1 (by omega) (by omega)
                rw [hpop] at hrec
                have ha1 : popB x + (popB o + 1) - 1 = popB x + popB o - 1 + 1 := by omega
                have ha2 : ((popB x + (popB o + 1)) % 2 == 0) = true := by
                  have hq : (popB x + (popB o + 1)) % 2 = 0 := by omega
                  simp [hq]
                rw [ha1, ha2, ← boardOf_setO_0 x o ho hbx hbo] at hrec
                exact ⟨hrec.1, hrec.2.1, hrec.2.2⟩
              · obtain ⟨hnb, g2, g3, g4, g5, g6, g7, g8, g9, hlt, hpop⟩ := bit_add_1 o ho hbo
                have hfree1 : freeB x o 2 = true := hfree
                have hpres1 : tval t x (o + 2) ≠ 0 := by
                  have h := hP.2.1
                  simp only [hfree1, Bool.not_true, Bool.false_or] at h
                  simpa using h
                have hdj1 := disjB_addO_1 x o ho hd hbx hbo
                have hrec := ih x (o + 2) hx hlt hdj1 hpres1 (by omega) (by omega)
                rw [hpop] at hrec
                have ha1 : popB x + (popB o + 1) - 1 = popB x + popB o - 1 + 1 := by omega
                have ha2 : ((popB x + (popB o + 1)) % 2 == 0) = true := by
                  have hq : (popB x + (popB o + 1)) % 2 = 0 := by omega
                  simp [hq]
                rw [ha1, ha2, ← boardOf_setO_1 x o ho hbx hbo] at hrec
                exact ⟨hrec.1, hrec.2.1, hrec.2.2⟩
              · obtain ⟨hnb, g2, g3, g4, g5, g6, g7, g8, g9, hlt, hpop⟩ := bit_add_2 o ho hbo
                have hfree1 : freeB x o 4 = true := hfree
                have hpres1 : tval t x (o + 4) ≠ 0 := by
                  have h := hP.2.2.1
                  simp only [hfree1, Bool.not_true, Bool.false_or] at h
                  simpa using h
                have hdj1 := disjB_addO_2 x o ho hd hbx hbo
                have hrec := ih x (o + 4) hx hlt hdj1 hpres1 (by omega) (by omega)
                rw [hpop] at hrec
                have ha1 : popB x + (popB o + 1) - 1 = popB x + popB o - 1 + 1 := by omega
                have ha2 : ((popB x + (popB o + 1)) % 2 == 0) = true := by
                  have hq : (popB x + (popB o + 1)) % 2 = 0 := by omega
                  simp [hq]
                rw [ha1, ha2, ← boardOf_setO_2 x o ho hbx hbo] at hrec
                exact ⟨hrec.1, hrec.2.1, hrec.2.2⟩
              · obtain ⟨hnb, g2, g3, g4, g5, g6, g7, g8, g9, hlt, hpop⟩ := bit_add_3 o ho hbo
                have hfree1 : freeB x o 8 = true := hfree
                have hpres1 : tval t x (o + 8) ≠ 0 := by
                  have h := hP.2.2.2.1
                  simp only [hfree1, Bool.not_true, Bool.false_or] at h
                  simpa using h
                have hdj1 := disjB_addO_3 x o ho hd hbx hbo
                have hrec := ih x (o + 8) hx hlt hdj1 hpres1 (by omega) (by omega)
                rw [hpop] at hrec
                have ha1 : popB x + (popB o + 1) - 1 = popB x + popB o - 1 + 1 := by omega
                have ha2 : ((popB x + (popB o + 1)) % 2 == 0) = true := by
                  have hq : (popB x + (popB o + 1)) % 2 = 0 := by omega
                  simp [hq]
                rw [ha1, ha2, ← boardOf_setO_3 x o ho hbx hbo] at hrec
                exact ⟨hrec.1, hrec.2.1, hrec.2.2⟩
              · obtain ⟨hnb, g2, g3, g4, g5, g6, g7, g8, g9, hlt, hpop⟩ := bit_add_4 o ho hbo
                have hfree1 : freeB x o 16 = true := hfree
                have hpres1 : tval t x (o + 16) ≠ 0 := by
                  have h := hP.2.2.2.2.1
                  simp only [hfree1, Bool.not_true, Bool.false_or] at h
                  simpa using h
                have hdj1 := disjB_addO_4 x o ho hd hbx hbo
                have hrec := ih x (o + 16) hx hlt hdj1 hpres1 (by omega) (by omega)
                rw [hpop] at hrec
                have ha1 : popB x + (popB o + 1) - 1 = popB x + popB o - 1 + 1 := by omega
                have ha2 : ((popB x + (popB o + 1)) % 2 == 0) = true := by
                  have hq : (popB x + (popB o + 1)) % 2 = 0 := by omega
                  simp [hq]
                rw [ha1, ha2, ← boardOf_setO_4 x o ho hbx hbo] at hrec
                exact ⟨hrec.1, hrec.2.1, hrec.2.2⟩
              · obtain ⟨hnb, g2, g3, g4, g5, g6, g7, g8, g9, hlt, hpop⟩ := bit_add_5 o ho hbo
                have hfree1 : freeB x o 32 = true := hfree
                have hpres1 : tval t x (o + 32) ≠ 0 := by
                  have h := hP.2.2.2.2.2.1
                  simp only [hfree1, Bool.not_true, Bool.false_or] at h
                  simpa using h
                have hdj1 := disjB_addO_5 x o ho hd hbx hbo
                have hrec := ih x (o + 32) hx hlt hdj1 hpres1 (by omega) (by omega)
                rw [hpop] at hrec
                have ha1 : popB x + (popB o + 1) - 1 = popB x + popB o - 1 + 1 := by omega
                have ha2 : ((popB x + (popB o + 1)) % 2 == 0) = true := by
                  have hq : (popB x + (popB o + 1)) % 2 = 0 := by omega
                  simp [hq]
                rw [ha1, ha2, ← boardOf_setO_5 x o ho hbx hbo] at hrec
                exact ⟨hrec.1, hrec.2.1, hrec.2.2⟩
              · obtain ⟨hnb, g2, g3, g4, g5, g6, g7, g8, g9, hlt, hpop⟩ := bit_add_6 o ho hbo
                have hfree1 : freeB x o 64 = true := hfree
                have hpres1 : tval t x (o + 64) ≠ 0 := by
                  have h := hP.2.2.2.2.2.2.1
                  simp only [hfree1, Bool.not_true, Bool.false_or] at h
                  simpa using h
                have hdj1 := disjB_addO_6 x o ho hd hbx hbo
                have hrec := ih x (o + 64) hx hlt hdj1 hpres1 (by omega) (by omega)
                rw [hpop] at hrec
                have ha1 : popB x + (popB o + 1) - 1 = popB x + popB o - 1 + 1 := by omega
                have ha2 : ((popB x + (popB o + 1)) % 2 == 0) = true := by
                  have hq : (popB x + (popB o + 1)) % 2 = 0 := by omega
                  simp [hq]
                rw [ha1, ha2, ← boardOf_setO_6 x o ho hbx hbo] at hrec
                exact ⟨hrec.1, hrec.2.1, hrec.2.2⟩
              · obtain ⟨hnb, g2, g3, g4, g5, g6, g7, g8, g9, hlt, hpop⟩ := bit_add_7 o ho hbo
                have hfree1 : freeB x o 128 = true := hfree
                have hpres1 : tval t x (o + 128) ≠ 0 := by
                  have h := hP.2.2.2.2.2.2.2.1
                  simp only [hfree1, Bool.not_true, Bool.false_or] at h
                  simpa using h
                have hdj1 := disjB_addO_7 x o ho hd hbx hbo
                have hrec := ih x (o + 128) hx hlt hdj1 hpres1 (by omega) (by omega)
                rw [hpop] at hrec
                have ha1 : popB x + (popB o + 1) - 1 = popB x + popB o - 1 + 1 := by omega
                have ha2 : ((popB x + (popB o + 1)) % 2 == 0) = true := by
                  have hq : (popB x + (popB o + 1)) % 2 = 0 := by omega
                  simp [hq]
                rw [ha1, ha2, ← boardOf_setO_7 x o ho hbx hbo] at hrec
                exact ⟨hrec.1, hrec.2.1, hrec.2.2⟩
              · obtain ⟨hnb, g2, g3, g4, g5, g6, g7, g8, g9, hlt, hpop⟩ := bit_add_8 o ho hbo
                have hfree1 : freeB x o 256 = true := hfree
                have hpres1 : tval t x (o + 256) ≠ 0 := by
                  have h := hP.2.2.2.2.2.2.2.2
                  simp only [hfree1, Bool.not_true, Bool.false_or] at h
                  simpa using h
                have hdj1 := disjB_addO_8 x o ho hd hbx hbo
                have hrec := ih x (o + 256) hx hlt hdj1 hpres1 (by omega) (by omega)
                rw [hpop] at hrec
                have ha1 : popB x + (popB o + 1) - 1 = popB x + popB o - 1 + 1 := by omega
                have ha2 : ((popB x + (popB o + 1)) % 2 == 0) = true := by
                  have hq : (popB x + (popB o + 1)) % 2 = 0 := by omega
                  simp [hq]
                rw [ha1, ha2, ← boardOf_setO_8 x o ho hbx hbo] at hrec
                exact ⟨hrec.1, hrec.2.1, hrec.2.2⟩
            have hfold := foldMin_rel (fun ip => freeB x o ip.2)
              (fun ip => tval t x (o + ip.2))
              (fun mv => spure fu ((boardOf x o).set mv "O")
                (popB x + popB o - 1 + 1) true "X" "O")
              idxPows 100 (Or.inl rfl) Hmin
            have hcm1 : 1 ≤ chMinC t x o ∧ chMinC t x o ≤ 21 := by
              rcases hfold.2 with hz | hb
              · have hz' : chMinC t x o = 100 := hz
                omega
              · exact hb
            refine ⟨by omega, by omega, ?_⟩
            rw [hm2]
            rw [spure_nonterminal_min (boardOf x o) fu (popB x + popB o - 1) "X" "O" hwnone]
            rw [avail_boardOf x o]
            have h1 : ((idxPows.filter (fun ip => freeB x o ip.2)).map
                  (fun ip => ip.1)).foldl
                (fun best mv =>
                  let s := spure fu ((boardOf x o).set mv "O")
                    (popB x + popB o - 1 + 1) true "X" "O"
                  if slt s best then s else best) Score.posInf
                = decodeMin (chMinC t x o) := hfold.1
            rw [h1, ← hveq]
            exact decodeMin_small _ (by omega)

end TableSound

section TableCertificate

/-- The trie of `theTable` has all its rows at depth 9. -/
theorem tbl_full : fullDepth theTable 9 = true := by decide!

/-- The single table check: every stored entry replays the minimax
recurrence. -/
theorem tbl_check : checkAll theTable = true := by decide!

/-- Every present entry of `theTable` satisfies `checkEntry`. -/
theorem lookup_ok : ∀ x o, x < 512 → o < 512 → tval theTable x o ≠ 0 →
    checkEntry theTable x o (tval theTable x o) = true :=
  lookup_checked theTable tbl_full tbl_check

/-- The empty cells of the empty board, in ascending order. -/
theorem avail_empty : available_moves emptyBoard = [0, 1, 2, 3, 4, 5, 6, 7, 8] := by
  decide

/-- The backed-up score of the opening move `0` on the empty board, read
off the certified table. -/
theorem root_score_0 :
    minimax (emptyBoard.set 0 "X") 0 false "X" "O" = Score.int 0 := by
  have hb : emptyBoard.set 0 "X" = boardOf 1 0 := by decide
  have ht : tval theTable 1 0 = 11 := by decide!
  have hts := table_sound theTable lookup_ok 10 1 0 (by decide) (by decide)
    (by decide) (by rw [ht]; decide) (by decide) (by decide)
  have h3 := hts.2.2
  have hp : popB 1 + popB 0 = 1 := by decide
  rw [hp, ht] at h3
  have hz : ((11 : Nat) : Int) - 11 = 0 := by norm_num
  rw [hz] at h3
  calc minimax (emptyBoard.set 0 "X") 0 false "X" "O"
      = spure 10 (emptyBoard.set 0 "X") 0 false "X" "O" :=
        minimax_spure_set emptyBoard 0 "X" "O"
    _ = Score.int 0 := by rw [hb]; exact h3

/-- The backed-up score of the opening move `1` on the empty board, read
off the certified table. -/
theorem root_score_1 :
    minimax (emptyBoard.set 1 "X") 0 false "X" "O" = Score.int 0 := by
  have hb : emptyBoard.set 1 "X" = boardOf 2 0 := by decide
  have ht : tval theTable 2 0 = 11 := by decide!
  have hts := table_sound theTable lookup_ok 10 2 0 (by decide) (by decide)
    (by decide) (by rw [ht]; decide) (by decide) (by decide)
  have h3 := hts.2.2
  have hp : popB 2 + popB 0 = 1 := by decide
  rw [hp, ht] at h3
  have hz : ((11 : Nat) : Int) - 11 = 0 := by norm_num
  rw [hz] at h3
  calc minimax (emptyBoard.set 1 "X") 0 false "X" "O"
      = spure 10 (emptyBoard.set 1 "X") 0 false "X" "O" :=
        minimax_spure_set emptyBoard 1 "X" "O"
    _ = Score.int 0 := by rw [hb]; exact h3

/-- The backed-up score of the opening move `2` on the empty board, read
off the certified table. -/
theorem root_score_2 :
    minimax (emptyBoard.set 2 "X") 0 false "X" "O" = Score.int 0 := by
  have hb : emptyBoard.set 2 "X" = boardOf 4 0 := by decide
  have ht : tval theTable 4 0 = 11 := by decide!
  have hts := table_sound theTable lookup_ok 10 4 0 (by decide) (by decide)
    (by decide) (by rw [ht]; decide) (by decide) (by decide)
  have h3 := hts.2.2
  have hp : popB 4 + popB 0 = 1 := by decide
  rw [hp, ht] at h3
  have hz : ((11 : Nat) : Int) - 11 = 0 := by norm_num
  rw [hz] at h3
  calc minimax (emptyBoard.set 2 "X") 0 false "X" "O"
      = spure 10 (emptyBoard.set 2 "X") 0 false "X" "O" :=
        minimax_spure_set emptyBoard 2 "X" "O"
    _ = Score.int 0 := by rw [hb]; exact h3

/-- The backed-up score of the opening move `3` on the empty board, read
off the certified table. -/
theorem root_score_3 :
    minimax (emptyBoard.set 3 "X") 0 false "X" "O" = Score.int 0 := by
  have hb : emptyBoard.set 3 "X" = boardOf 8 0 := by decide
  have ht : tval theTable 8 0 = 11 := by decide!
  have hts := table_sound theTable lookup_ok 10 8 0 (by decide) (by decide)
    (by decide) (by rw [ht]; decide) (by decide) (by decide)
  have h3 := hts.2.2
  have hp : popB 8 + popB 0 = 1 := by decide
  rw [hp, ht] at h3
  have hz : ((11 : Nat) : Int) - 11 = 0 := by norm_num
  rw [hz] at h3
  calc minimax (emptyBoard.set 3 "X") 0 false "X" "O"
      = spure 10 (emptyBoard.set 3 "X") 0 false "X" "O" :=
        minimax_spure_set emptyBoard 3 "X" "O"
    _ = Score.int 0 := by rw [hb]; exact h3

/-- The backed-up score of the opening move `4` on the empty board, read
off the certified table. -/
theorem root_score_4 :
    minimax (emptyBoard.set 4 "X") 0 false "X" "O" = Score.int 0 := by
  have hb : emptyBoard.set 4 "X" = boardOf 16 0 := by decide
  have ht : tval theTable 16 0 = 11 := by decide!
  have hts := table_sound theTable lookup_ok 10 16 0 (by decide) (by decide)
    (by decide) (by rw [ht]; decide) (by decide) (by decide)
  have h3 := hts.2.2
  have hp : popB 16 + popB 0 = 1 := by decide
  rw [hp, ht] at h3
  have hz : ((11 : Nat) : Int) - 11 = 0 := by norm_num
  rw [hz] at h3
  calc minimax (emptyBoard.set 4 "X") 0 false "X" "O"
      = spure 10 (emptyBoard.set 4 "X") 0 false "X" "O" :=
        minimax_spure_set emptyBoard 4 "X" "O"
    _ = Score.int 0 := by rw [hb]; exact h3

/-- The backed-up score of the opening move `5` on the empty board, read
off the certified table. -/
theorem root_score_5 :
    minimax (emptyBoard.set 5 "X") 0 false "X" "O" = Score.int 0 := by
  have hb : emptyBoard.set 5 "X" = boardOf 32 0 := by decide
  have ht : tval theTable 32 0 = 11 := by decide!
  have hts := table_sound theTable lookup_ok 10 32 0 (by decide) (by decide)
    (by decide) (by rw [ht]; decide) (by decide) (by decide)
  have h3 := hts.2.2
  have hp : popB 32 + popB 0 = 1 := by decide
  rw [hp, ht] at h3
  have hz : ((11 : Nat) : Int) - 11 = 0 := by norm_num
  rw [hz] at h3
  calc minimax (emptyBoard.set 5 "X") 0 false "X" "O"
      = spure 10 (emptyBoard.set 5 "X") 0 false "X" "O" :=
        minimax_spure_set emptyBoard 5 "X" "O"
    _ = Score.int 0 := by rw [hb]; exact h3

/-- The backed-up score of the opening move `6` on the empty board, read
off the certified table. -/
theorem root_score_6 :
    minimax (emptyBoard.set 6 "X") 0 false "X" "O" = Score.int 0 := by
  have hb : emptyBoard.set 6 "X" = boardOf 64 0 := by decide
  have ht : tval theTable 64 0 = 11 := by decide!
  have hts := table_sound theTable lookup_ok 10 64 0 (by decide) (by decide)
    (by decide) (by rw [ht]; decide) (by decide) (by decide)
  have h3 := hts.2.2
  have hp : popB 64 + popB 0 = 1 := by decide
  rw [hp, ht] at h3
  have hz : ((11 : Nat) : Int) - 11 = 0 := by norm_num
  rw [hz] at h3
  calc minimax (emptyBoard.set 6 "X") 0 false "X" "O"
      = spure 10 (emptyBoard.set 6 "X") 0 false "X" "O" :=
        minimax_spure_set emptyBoard 6 "X" "O"
    _ = Score.int 0 := by rw [hb]; exact h3

/-- The backed-up score of the opening move `7` on the empty board, read
off the certified table. -/
theorem root_score_7 :
    minimax (emptyBoard.set 7 "X") 0 false "X" "O" = Score.int 0 := by
  have hb : emptyBoard.set 7 "X" = boardOf 128 0 := by decide
  have ht : tval theTable 128 0 = 11 := by decide!
  have hts := table_sound theTable lookup_ok 10 128 0 (by decide) (by decide)
    (by decide) (by rw [ht]; decide) (by decide) (by decide)
  have h3 := hts.2.2
  have hp : popB 128 + popB 0 = 1 := by decide
  rw [hp, ht] at h3
  have hz : ((11 : Nat) : Int) - 11 = 0 := by norm_num
  rw [hz] at h3
  calc minimax (emptyBoard.set 7 "X") 0 false "X" "O"
      = spure 10 (emptyBoard.set 7 "X") 0 false "X" "O" :=
        minimax_spure_set emptyBoard 7 "X" "O"
    _ = Score.int 0 := by rw [hb]; exact h3

/-- The backed-up score of the opening move `8` on the empty board, read
off the certified table. -/
theorem root_score_8 :
    minimax (emptyBoard.set 8 "X") 0 false "X" "O" = Score.int 0 := by
  have hb : emptyBoard.set 8 "X" = boardOf 256 0 := by decide
  have ht : tval theTable 256 0 = 11 := by decide!
  have hts := table_sound theTable lookup_ok 10 256 0 (by decide) (by decide)
    (by decide) (by rw [ht]; decide) (by decide) (by decide)
  have h3 := hts.2.2
  have hp : popB 256 + popB 0 = 1 := by decide
  rw [hp, ht] at h3
  have hz : ((11 : Nat) : Int) - 11 = 0 := by norm_num
  rw [hz] at h3
  calc minimax (emptyBoard.set 8 "X") 0 false "X" "O"
      = spure 10 (emptyBoard.set 8 "X") 0 false "X" "O" :=
        minimax_spure_set emptyBoard 8 "X" "O"
    _ = Score.int 0 := by rw [hb]; exact h3

/-- C7: from the completely empty board with the AI (`"X"`) moving first,
`best_move` returns a corner or center cell (the first-found tie-break in
fact selects cell 0), and the backed-up score of the decision is `0`. -/
theorem best_move_empty_board :
    (∃ m, best_move emptyBoard "X" "O" = some m ∧ m ∈ [0, 2, 4, 6, 8]) ∧
      bestScore emptyBoard "X" "O" = intScore 0 := by
  obtain ⟨h1, h2⟩ := best_move_char emptyBoard "X" "O"
  rw [avail_empty] at h1 h2
  have hpick : pickLoop (fun m => minimax (emptyBoard.set m "X") 0 false "X" "O")
      [0, 1, 2, 3, 4, 5, 6, 7, 8] (Score.negInf, none) = (Score.int 0, some 0) := by
    have e0 : pickLoop (fun m => minimax (emptyBoard.set m "X") 0 false "X" "O")
        [0, 1, 2, 3, 4, 5, 6, 7, 8] (Score.negInf, none)
        = pickLoop (fun m => minimax (emptyBoard.set m "X") 0 false "X" "O")
            [1, 2, 3, 4, 5, 6, 7, 8] (Score.int 0, some 0) := by
      rw [pickLoop]
      simp only [root_score_0]
      norm_num [slt]
    have e1 : pickLoop (fun m => minimax (emptyBoard.set m "X") 0 false "X" "O")
        [1, 2, 3, 4, 5, 6, 7, 8] (Score.int 0, some 0)
        = pickLoop (fun m => minimax (emptyBoard.set m "X") 0 false "X" "O")
            [2, 3, 4, 5, 6, 7, 8] (Score.int 0, some 0) := by
      rw [pickLoop]
      simp only [root_score_1]
      norm_num [slt]
    have e2 : pickLoop (fun m => minimax (emptyBoard.set m "X") 0 false "X" "O")
        [2, 3, 4, 5, 6, 7, 8] (Score.int 0, some 0)
        = pickLoop (fun m => minimax (emptyBoard.set m "X") 0 false "X" "O")
            [3, 4, 5, 6, 7, 8] (Score.int 0, some 0) := by
      rw [pickLoop]
      simp only [root_score_2]
      norm_num [slt]
    have e3 : pickLoop (fun m => minimax (emptyBoard.set m "X") 0 false "X" "O")
        [3, 4, 5, 6, 7, 8] (Score.int 0, some 0)
        = pickLoop (fun m => minimax (emptyBoard.set m "X") 0 false "X" "O")
            [4, 5, 6, 7, 8] (Score.int 0, some 0) := by
      rw [pickLoop]
      simp only [root_score_3]
      norm_num [slt]
    have e4 : pickLoop (fun m => minimax (emptyBoard.set m "X") 0 false "X" "O")
        [4, 5, 6, 7, 8] (Score.int 0, some 0)
        = pickLoop (fun m => minimax (emptyBoard.set m "X") 0 false "X" "O")
            [5, 6, 7, 8] (Score.int 0, some 0) := by
      rw [pickLoop]
      simp only [root_score_4]
      norm_num [slt]
    have e5 : pickLoop (fun m => minimax (emptyBoard.set m "X") 0 false "X" "O")
        [5, 6, 7, 8] (Score.int 0, some 0)
        = pickLoop (fun m => minimax (emptyBoard.set m "X") 0 false "X" "O")
            [6, 7, 8] (Score.int 0, some 0) := by
      rw [pickLoop]
      simp only [root_score_5]
      norm_num [slt]
    have e6 : pickLoop (fun m => minimax (emptyBoard.set m "X") 0 false "X" "O")
        [6, 7, 8] (Score.int 0, some 0)
        = pickLoop (fun m => minimax (emptyBoard.set m "X") 0 false "X" "O")
            [7, 8] (Score.int 0, some 0) := by
      rw [pickLoop]
      simp only [root_score_6]
      norm_num [slt]
    have e7 : pickLoop (fun m => minimax (emptyBoard.set m "X") 0 false "X" "O")
        [7, 8] (Score.int 0, some 0)
        = pickLoop (fun m => minimax (emptyBoard.set m "X") 0 false "X" "O")
            [8] (Score.int 0, some 0) := by
      rw [pickLoop]
      simp only [root_score_7]
      norm_num [slt]
    have e8 : pickLoop (fun m => minimax (emptyBoard.set m "X") 0 false "X" "O")
        [8] (Score.int 0, some 0)
        = pickLoop (fun m => minimax (emptyBoard.set m "X") 0 false "X" "O")
            [] (Score.int 0, some 0) := by
      rw [pickLoop, pickLoop, pickLoop]
      simp only [root_score_8]
      norm_num [slt]
    rw [e0, e1, e2, e3, e4, e5, e6, e7, e8]
    rw [pickLoop]
  rw [hpick] at h1 h2
  exact ⟨⟨0, h1, by decide⟩, h2⟩

end TableCertificate

end MinimaxGato
